import Mathlib

/-!
# Verification of the `newdoku` Sudoku solver (`src/lib.rs`)

Shallow embedding of the grid model (`SudokuNum`, `Sudoku`, `from_str`,
`try_insert`, `is_full`, `PartialEq`) and of the backtracking solver
(`Sudoku::solution`), together with theorems checking the specification's
claims against this embedding.

The Rust recursion in `Sudoku::solution` carries no fuel; here it is embedded
with an explicit fuel parameter (`solutionFuel`), and we prove that any fuel
strictly larger than the number of empty cells yields the same result, which
is the termination argument of the original recursion (recursion depth is
bounded by the number of empty cells).
-/

namespace Newdoku

/-- `enum SudokuNum { Original(u8), Edited(u8) }` -/
inductive SudokuNum where
  | Original : Nat → SudokuNum
  | Edited : Nat → SudokuNum
deriving DecidableEq

/-- The digit stored in a `SudokuNum`, disregarding the variant. -/
def SudokuNum.val : SudokuNum → Nat
  | .Original x => x
  | .Edited x => x

/-- The `PartialEq` impl for `SudokuNum`: compares only digits, ignoring the
`Original`/`Edited` tag. -/
def snEq (a b : SudokuNum) : Bool := a.val == b.val

/-- The derived `PartialEq` on `Option<SudokuNum>` (using `snEq` on the
payloads). -/
def cellEq : Option SudokuNum → Option SudokuNum → Bool
  | some a, some b => snEq a b
  | none, none => true
  | _, _ => false

/-- `struct Sudoku { xs: [Option<SudokuNum>; 81] }`: the fixed size 81 of the
Rust array is carried as an invariant. -/
structure Sudoku where
  xs : List (Option SudokuNum)
  len_eq : xs.length = 81

/-- Array indexing `xs[i]`; all reachable accesses are in range, where `getD`
agrees with the Rust indexing. -/
def cellAt (xs : List (Option SudokuNum)) (i : Nat) : Option SudokuNum :=
  xs.getD i none

/-- `enum InsertError` -/
inductive InsertError where
  | InvalidLoc
  | InvalidNumber
  | RowDuplicate
  | ColDuplicate
  | BlockDuplicate
deriving DecidableEq

/-- `struct ParseError;` -/
inductive ParseError where
  | parseError
deriving DecidableEq

/-- The test `(x == Some(Original(num))) | (x == Some(Edited(num)))` from
`try_insert`. -/
def matchesNum (c : Option SudokuNum) (num : Nat) : Bool :=
  cellEq c (some (.Original num)) || cellEq c (some (.Edited num))

/-- The loop `for x in 0..9` of `try_insert`: at each index the row cell is
checked first, then the column cell; the first match aborts the scan.
`loc.1` is the Rust `loc.0` (column), `loc.2` is the Rust `loc.1` (row). -/
def scanRowCol (xs : List (Option SudokuNum)) (loc : Nat × Nat) (num : Nat) :
    List Nat → Option InsertError
  | [] => none
  | x :: rest =>
    if matchesNum (cellAt xs (loc.2 * 9 + x)) num then some .RowDuplicate
    else if matchesNum (cellAt xs (x * 9 + loc.1)) num then some .ColDuplicate
    else scanRowCol xs loc num rest

/-- `let rel_center = |origin| origin + 1 - origin % 3;` -/
def relCenter (origin : Nat) : Nat := origin + 1 - origin % 3

/-- The block-cell index `((center.1 as isize + j) * 9 + center.0 as isize + i)
as usize` (never negative for in-range centers). -/
def blockIdx (center : Nat × Nat) (i j : Int) : Nat :=
  (((center.2 : Int) + j) * 9 + (center.1 : Int) + i).toNat

/-- The iteration order of `for i in -1..2 { for j in -1..2 { .. } }`. -/
def blockOffsets : List (Int × Int) :=
  [(-1, -1), (-1, 0), (-1, 1), (0, -1), (0, 0), (0, 1), (1, -1), (1, 0), (1, 1)]

/-- The 3x3 block scan of `try_insert`. -/
def blockHit (xs : List (Option SudokuNum)) (center : Nat × Nat) (num : Nat) :
    List (Int × Int) → Bool
  | [] => false
  | (i, j) :: rest =>
    matchesNum (cellAt xs (blockIdx center i j)) num || blockHit xs center num rest

/-- `Sudoku::try_insert(&self, loc: (usize, usize), num: u8)`.
`loc.1` is the Rust `loc.0` (column x), `loc.2` is the Rust `loc.1` (row y). -/
def tryInsert (s : Sudoku) (loc : Nat × Nat) (num : Nat) :
    Except InsertError Sudoku :=
  if loc.1 > 8 || loc.2 > 8 then .error .InvalidLoc
  else if num > 9 then .error .InvalidNumber
  else
    match scanRowCol s.xs loc num (List.range 9) with
    | some e => .error e
    | none =>
      if blockHit s.xs (relCenter loc.1, relCenter loc.2) num blockOffsets then
        .error .BlockDuplicate
      else
        .ok ⟨s.xs.set (loc.2 * 9 + loc.1) (some (.Edited num)),
             by rw [List.length_set]; exact s.len_eq⟩

/-- `Sudoku::is_full`: true iff no cell is `None`. -/
def isFull (s : Sudoku) : Bool := s.xs.all fun x => !x.isNone

/-- The scan of `solution`'s double loop `for i in 0..9 { for j in 0..9 }` for
the first empty cell, as a scan of the row-major indices `i * 9 + j`, i.e. of
`0, 1, ..., 80` in order. -/
def firstEmpty (xs : List (Option SudokuNum)) : List Nat → Option Nat
  | [] => none
  | t :: rest => if (cellAt xs t).isNone then some t else firstEmpty xs rest

/-- Number of empty cells of a grid (the measure that shrinks at each
recursive call of `solution`). -/
def countEmpty (g : Sudoku) : Nat := g.xs.countP fun x => x.isNone

/-- The inner loop `for x in 1..10` of `solution` at the first empty cell with
row-major index `t`: `try_insert((j, i), x)` with `j = t % 9`, `i = t / 9`.
The recursive call to `solution` is passed in as `solve`. -/
def tryDigits (solve : Sudoku → Option Sudoku) (g : Sudoku) (t : Nat) :
    List Nat → Option Sudoku
  | [] => none
  | d :: ds =>
    match tryInsert g (t % 9, t / 9) d with
    | .ok g' =>
      match solve g' with
      | some r => some r
      | none => tryDigits solve g t ds
    | .error _ => tryDigits solve g t ds

/-- `Sudoku::solution`, with an explicit fuel bounding the recursion depth
(the Rust recursion is unbounded; `solutionFuel_stable` below shows any fuel
above `countEmpty` computes its value).  The terminal-print side effects of
the Rust code are ignored; the `step`/`quiet` parameters only control output
and sleeping and do not affect the returned value. -/
def solutionFuel : Nat → Sudoku → Option Sudoku
  | 0, _ => none
  | n + 1, g =>
    if isFull g then some g
    else
      match firstEmpty g.xs (List.range 81) with
      | none => none
      | some t => tryDigits (solutionFuel n) g t (List.range' 1 9)

/-- `Sudoku::solution` proper: fuel `countEmpty g + 1` suffices
(`solutionFuel_stable`). -/
def solution (g : Sudoku) : Option Sudoku := solutionFuel (countEmpty g + 1) g

/-- The map of `from_str` on one character: `x.to_string().parse::<u8>()`
succeeds exactly on the ASCII digits `0`-`9`. -/
def charToCell (c : Char) : Option SudokuNum :=
  if c.isDigit then some (.Original (c.toNat - 48)) else none

/-- `<Sudoku as FromStr>::from_str`: drop newlines, map each character, fail
unless exactly 81 cells result. -/
def fromStr (src : String) : Except ParseError Sudoku :=
  let xs := (src.toList.filter fun c => c != '\n').map charToCell
  if h : xs.length = 81 then .ok ⟨xs, h⟩ else .error .parseError

/-- The `PartialEq` impl for `Sudoku`: pointwise digit-only comparison. -/
def sudokuEq (a b : Sudoku) : Bool :=
  (a.xs.zip b.xs).all fun p => cellEq p.1 p.2

/-- The all-empty grid (used as a default when extracting from `Except`). -/
def emptyGrid : Sudoku := ⟨List.replicate 81 none, List.length_replicate 81 none⟩

/-- Extract the parsed grid of a string (defaulting to `emptyGrid`, only used
on strings proven to parse). -/
def gridOfStr (s : String) : Sudoku := ((fromStr s).toOption).getD emptyGrid

def TEST_SUDOKU : String :=
  "xxxxxxx9xx9x7xx21xxx4x9xxxxx1xxx8xxx7xx42xxx5xx8xxxx748x1xxxx4xxxxxxxxxxxx9613xxx"

def SOLVED_SUDOKU : String :=
  "157832496396745218284196753415378962763429185928561374831257649672984531549613827"

def testGrid : Sudoku := gridOfStr TEST_SUDOKU

def solvedGrid : Sudoku := gridOfStr SOLVED_SUDOKU

/-- `Ok`/`Err` discriminator for insertion results. -/
def isOkB : Except InsertError Sudoku → Bool
  | .ok _ => true
  | .error _ => false

/-- A grid with the digit 5 at index 0 (column 0 of row 0) and at index 17
(column 8 of row 1), used to probe the order of the duplicate checks. -/
def c4Grid : Sudoku := gridOfStr
  "5xxxxxxxxxxxxxxxx5xxxxxxxxxxxxxxxxxxxxxxxxxxxxxxxxxxxxxxxxxxxxxxxxxxxxxxxxxxxxxxx"

/-- An input string whose only given is `1` at cell 0. -/
def oneGridStr : String :=
  "1xxxxxxxxxxxxxxxxxxxxxxxxxxxxxxxxxxxxxxxxxxxxxxxxxxxxxxxxxxxxxxxxxxxxxxxxxxxxxxxx"

/-- An input string whose first character is the digit `0`. -/
def zeroStr : String :=
  "0xxxxxxxxxxxxxxxxxxxxxxxxxxxxxxxxxxxxxxxxxxxxxxxxxxxxxxxxxxxxxxxxxxxxxxxxxxxxxxxx"

/-- The result of successfully inserting 5 at `(3,2)` into the test grid
(row-major index `2 * 9 + 3 = 21`). -/
def scGrid : Sudoku :=
  ⟨testGrid.xs.set 21 (some (.Edited 5)), by rw [List.length_set]; exact testGrid.len_eq⟩

/-- Spec 3 (grid model): two cell indices (row-major, `< 81`) lie in a common
row, column or 3x3 block. -/
def inSameUnit (i j : Nat) : Bool :=
  (i / 9 == j / 9) || (i % 9 == j % 9) || (i / 27 == j / 27 && i % 9 / 3 == j % 9 / 3)

/-- Digit-only conflict between two cells: both non-empty with the same digit. -/
def cellsConflict : Option SudokuNum → Option SudokuNum → Bool
  | some a, some b => a.val == b.val
  | _, _ => false

/-- Spec 3: a grid is *valid* if no row, column, or 3x3 block contains a
repeated digit among its non-empty cells (expressed pairwise over indices). -/
def validB (g : Sudoku) : Bool :=
  (List.range 81).all fun i => (List.range 81).all fun j =>
    i == j || !inSameUnit i j || !cellsConflict (cellAt g.xs i) (cellAt g.xs j)

/-- Every non-empty cell of the grid holds a digit in `1..=9`. -/
def digitsOk (g : Sudoku) : Bool :=
  g.xs.all fun c =>
    match c with
    | some v => 1 ≤ v.val && v.val ≤ 9
    | none => true

/-- `r` extends `g`: every non-empty cell of `g` is non-empty in `r` with the
same digit. -/
def gExtendB (r g : Sudoku) : Bool :=
  (List.range 81).all fun i =>
    match cellAt g.xs i with
    | none => true
    | some v =>
      match cellAt r.xs i with
      | some w => w.val == v.val
      | none => false

/-! Digit-level view of grids, used to certify uniqueness of the solution of
the test puzzle: a cell is a `Nat`, `0` meaning empty. -/

/-- The digit of a cell (`0` when empty). -/
def dOf (g : Sudoku) (i : Nat) : Nat :=
  match cellAt g.xs i with
  | none => 0
  | some v => v.val

/-- The digits of a grid as a list of 81 naturals. -/
def digitsOfGrid (g : Sudoku) : List Nat := (List.range 81).map fun i => dOf g i

/-- Cell of a digit list. -/
def dget (l : List Nat) (i : Nat) : Nat := l.getD i 0

/-- `E` extends the digit list `l`: every non-zero cell of `l` is the digit of
`E` there. -/
def dExtB (E : Sudoku) (l : List Nat) : Bool :=
  (List.range 81).all fun i => dget l i == 0 || dOf E i == dget l i

/-- Digit `d` may still be placed at cell `t` of `l`: no other cell in a
common unit already holds `d`. -/
def hasCand (l : List Nat) (t d : Nat) : Bool :=
  (List.range 81).all fun p => p == t || !inSameUnit p t || !(dget l p == d)

/-- The candidate digits for cell `t` of `l`. -/
def candList (l : List Nat) (t : Nat) : List Nat :=
  (List.range' 1 9).filter fun d => hasCand l t d

/-- The cells of the unit `u` where digit `d` may still be placed. -/
def placesList (l : List Nat) (u : List Nat) (d : Nat) : List Nat :=
  u.filter fun t => dget l t == 0 && hasCand l t d

/-- The 27 units of the grid: 9 rows, 9 columns, 9 blocks, as index lists. -/
def allUnits : List (List Nat) :=
  ((List.range 9).map fun r => (List.range 9).map fun c => r * 9 + c) ++
  ((List.range 9).map fun c => (List.range 9).map fun r => r * 9 + c) ++
  ((List.range 9).map fun b =>
    (List.range 9).map fun k => (b / 3 * 3 + k / 3) * 9 + (b % 3 * 3 + k % 3))

/-! ### Basic lemmas about cells, matching and scanning -/

theorem matchesNum_iff (c : Option SudokuNum) (num : Nat) :
    matchesNum c num = true ↔ ∃ v, c = some v ∧ v.val = num := by
  cases c with
  | none => simp [matchesNum, cellEq]
  | some v => simp [matchesNum, cellEq, snEq, SudokuNum.val]

theorem matchesNum_eq_false_iff (c : Option SudokuNum) (num : Nat) :
    matchesNum c num = false ↔ ∀ v, c = some v → v.val ≠ num := by
  rw [← Bool.not_eq_true, matchesNum_iff]
  simp

theorem cellAt_set_self : ∀ (xs : List (Option SudokuNum)) (t : Nat) (v : Option SudokuNum),
    t < xs.length → cellAt (xs.set t v) t = v := by
  intro xs
  induction xs with
  | nil => intro t v h; simp at h
  | cons a l ih =>
    intro t v h
    cases t with
    | zero => simp [cellAt]
    | succ t =>
      simp only [List.set_cons_succ, cellAt, List.getD_cons_succ]
      exact ih t v (by simpa using Nat.lt_of_succ_lt_succ h)

theorem cellAt_set_ne : ∀ (xs : List (Option SudokuNum)) (t i : Nat) (v : Option SudokuNum),
    t ≠ i → cellAt (xs.set t v) i = cellAt xs i := by
  intro xs
  induction xs with
  | nil => intro t i v _; simp [cellAt]
  | cons a l ih =>
    intro t i v hne
    cases t with
    | zero =>
      cases i with
      | zero => exact absurd rfl hne
      | succ i => simp [cellAt]
    | succ t =>
      cases i with
      | zero => simp [cellAt]
      | succ i =>
        simp only [List.set_cons_succ, cellAt, List.getD_cons_succ]
        exact ih t i v (fun h => hne (by rw [h]))

theorem countP_set_none : ∀ (xs : List (Option SudokuNum)) (t : Nat) (v : SudokuNum),
    t < xs.length → cellAt xs t = none →
    (xs.set t (some v)).countP (fun x => x.isNone) + 1 = xs.countP (fun x => x.isNone) := by
  intro xs
  induction xs with
  | nil => intro t v h; simp at h
  | cons a l ih =>
    intro t v h he
    cases t with
    | zero =>
      simp only [cellAt, List.getD_cons_zero] at he
      subst he
      simp [List.countP_cons]
    | succ t =>
      simp only [cellAt, List.getD_cons_succ] at he
      have := ih t v (by simpa using Nat.lt_of_succ_lt_succ h) he
      simp only [List.set_cons_succ, List.countP_cons]
      omega

theorem scanRowCol_eq_none_iff (xs : List (Option SudokuNum)) (loc : Nat × Nat) (num : Nat) :
    ∀ l : List Nat, scanRowCol xs loc num l = none ↔
      ∀ x ∈ l, matchesNum (cellAt xs (loc.2 * 9 + x)) num = false ∧
               matchesNum (cellAt xs (x * 9 + loc.1)) num = false := by
  intro l
  induction l with
  | nil => simp [scanRowCol]
  | cons x l ih =>
    cases h1 : matchesNum (cellAt xs (loc.2 * 9 + x)) num with
    | true => simp [scanRowCol, h1, List.forall_mem_cons]
    | false =>
      cases h2 : matchesNum (cellAt xs (x * 9 + loc.1)) num with
      | true => simp [scanRowCol, h1, h2, List.forall_mem_cons]
      | false => simp [scanRowCol, h1, h2, List.forall_mem_cons, ih]

theorem scanRowCol_some (xs : List (Option SudokuNum)) (loc : Nat × Nat) (num : Nat) :
    ∀ (l : List Nat) (e : InsertError), scanRowCol xs loc num l = some e →
      e = .RowDuplicate ∨ e = .ColDuplicate := by
  intro l
  induction l with
  | nil => intro e h; simp [scanRowCol] at h
  | cons x l ih =>
    intro e h
    simp only [scanRowCol] at h
    split at h
    · exact Or.inl (by injection h with h; exact h.symm)
    · split at h
      · exact Or.inr (by injection h with h; exact h.symm)
      · exact ih e h

theorem blockHit_eq_false_iff (xs : List (Option SudokuNum)) (center : Nat × Nat) (num : Nat) :
    ∀ l : List (Int × Int), blockHit xs center num l = false ↔
      ∀ p ∈ l, matchesNum (cellAt xs (blockIdx center p.1 p.2)) num = false := by
  intro l
  induction l with
  | nil => simp [blockHit]
  | cons p l ih =>
    cases p with
    | mk i j => simp [blockHit, ih, List.forall_mem_cons]

theorem firstEmpty_some : ∀ (xs : List (Option SudokuNum)) (l : List Nat) (t : Nat),
    firstEmpty xs l = some t → t ∈ l ∧ cellAt xs t = none := by
  intro xs l
  induction l with
  | nil => intro t h; simp [firstEmpty] at h
  | cons x l ih =>
    intro t h
    simp only [firstEmpty] at h
    split at h
    · injection h with h
      subst h
      rename_i hN
      exact ⟨List.mem_cons_self _ _, Option.isNone_iff_eq_none.mp hN⟩
    · rcases ih t h with ⟨hm, hc⟩
      exact ⟨List.mem_cons_of_mem _ hm, hc⟩

theorem firstEmpty_eq_none_iff (xs : List (Option SudokuNum)) :
    ∀ l : List Nat, firstEmpty xs l = none ↔ ∀ t ∈ l, (cellAt xs t).isNone = false := by
  intro l
  induction l with
  | nil => simp [firstEmpty]
  | cons x l ih =>
    cases h1 : (cellAt xs x).isNone with
    | true => simp [firstEmpty, h1, List.forall_mem_cons]
    | false =>
      have hs : (cellAt xs x).isSome = true := by
        cases hx : cellAt xs x
        · rw [hx] at h1; simp at h1
        · simp
      simp [firstEmpty, h1, ih, List.forall_mem_cons, hs]

/-! ### Characterization of `try_insert` -/

theorem tryInsert_ok (g g' : Sudoku) (loc : Nat × Nat) (num : Nat)
    (h : tryInsert g loc num = .ok g') :
    loc.1 ≤ 8 ∧ loc.2 ≤ 8 ∧ num ≤ 9 ∧
    scanRowCol g.xs loc num (List.range 9) = none ∧
    blockHit g.xs (relCenter loc.1, relCenter loc.2) num blockOffsets = false ∧
    g'.xs = g.xs.set (loc.2 * 9 + loc.1) (some (.Edited num)) := by
  unfold tryInsert at h
  split at h
  · cases h
  · rename_i h1
    split at h
    · cases h
    · rename_i h2
      split at h
      · cases h
      · rename_i hscan
        split at h
        · cases h
        · rename_i hblk
          simp only [Bool.or_eq_true, decide_eq_true_eq, not_or, Bool.not_eq_true] at h1 h2 hblk
          injection h with h
          refine ⟨by omega, by omega, by omega, hscan, hblk, ?_⟩
          rw [← h]

theorem tryInsert_eq_ok_of (g : Sudoku) (loc : Nat × Nat) (num : Nat)
    (h1 : loc.1 ≤ 8) (h2 : loc.2 ≤ 8) (h3 : num ≤ 9)
    (h4 : scanRowCol g.xs loc num (List.range 9) = none)
    (h5 : blockHit g.xs (relCenter loc.1, relCenter loc.2) num blockOffsets = false) :
    tryInsert g loc num =
      .ok ⟨g.xs.set (loc.2 * 9 + loc.1) (some (.Edited num)),
           by rw [List.length_set]; exact g.len_eq⟩ := by
  have e1 : (loc.1 > 8 || loc.2 > 8) = false := by
    simp only [Bool.or_eq_false_iff, decide_eq_false_iff_not]
    omega
  have e2 : (num > 9) = False := by simp; omega
  simp only [tryInsert, e1, Bool.false_eq_true, if_false, e2, h4, h5]

/-! ### Unit coverage: the scanned cells are exactly the cells sharing a unit -/

theorem relCenter_eq (c : Nat) : relCenter c = 3 * (c / 3) + 1 := by
  unfold relCenter; omega

theorem sameBlock_mem_blockIdx (r c j : Nat) (hr : r < 9) (hc : c < 9) (hj : j < 81)
    (hband : j / 27 = (r * 9 + c) / 27) (hstack : j % 9 / 3 = (r * 9 + c) % 9 / 3) :
    ∃ p ∈ blockOffsets, j = blockIdx (relCenter c, relCenter r) p.1 p.2 := by
  have hcr : relCenter c = 3 * (c / 3) + 1 := relCenter_eq c
  have hrr : relCenter r = 3 * (r / 3) + 1 := relCenter_eq r
  refine ⟨((j % 9 : Int) - (3 * (c / 3) + 1), (j / 9 : Int) - (3 * (r / 3) + 1)), ?_, ?_⟩
  · simp only [blockOffsets, List.mem_cons, List.not_mem_nil, or_false, Prod.mk.injEq]
    omega
  · simp only [blockIdx, hcr, hrr]
    omega

theorem blockIdx_mem_sameBlock (r c : Nat) (hr : r < 9) (hc : c < 9) :
    ∀ p ∈ blockOffsets,
      blockIdx (relCenter c, relCenter r) p.1 p.2 < 81 ∧
      blockIdx (relCenter c, relCenter r) p.1 p.2 / 27 = (r * 9 + c) / 27 ∧
      blockIdx (relCenter c, relCenter r) p.1 p.2 % 9 / 3 = (r * 9 + c) % 9 / 3 := by
  intro p hp
  have hcr : relCenter c = 3 * (c / 3) + 1 := relCenter_eq c
  have hrr : relCenter r = 3 * (r / 3) + 1 := relCenter_eq r
  simp only [blockOffsets, List.mem_cons, List.not_mem_nil, or_false] at hp
  rcases hp with h | h | h | h | h | h | h | h | h <;>
    (subst h; simp only [blockIdx, hcr, hrr]; omega)

/-- Any cell in the same unit as `(r*9+c)` is one of the scanned cells:
a row cell, a column cell, or a block cell. -/
theorem sameUnit_covered (r c j : Nat) (hr : r < 9) (hc : c < 9) (hj : j < 81)
    (hu : inSameUnit j (r * 9 + c) = true) :
    (∃ x, x < 9 ∧ j = r * 9 + x) ∨ (∃ x, x < 9 ∧ j = x * 9 + c) ∨
    (∃ p ∈ blockOffsets, j = blockIdx (relCenter c, relCenter r) p.1 p.2) := by
  simp only [inSameUnit, Bool.or_eq_true, Bool.and_eq_true, beq_iff_eq] at hu
  rcases hu with (h | h) | ⟨h1, h2⟩
  · exact Or.inl ⟨j % 9, by omega, by omega⟩
  · exact Or.inr (Or.inl ⟨j / 9, by omega, by omega⟩)
  · exact Or.inr (Or.inr (sameBlock_mem_blockIdx r c j hr hc hj h1 h2))

/-- The scanned cells all lie in the same unit as `(r*9+c)`, and are in range. -/
theorem scanned_row_sameUnit (r c x : Nat) (hr : r < 9) (hc : c < 9) (hx : x < 9) :
    r * 9 + x < 81 ∧ inSameUnit (r * 9 + x) (r * 9 + c) = true := by
  simp only [inSameUnit, Bool.or_eq_true, Bool.and_eq_true, beq_iff_eq]
  constructor
  · omega
  · exact Or.inl (Or.inl (by omega))

theorem scanned_col_sameUnit (r c x : Nat) (hr : r < 9) (hc : c < 9) (hx : x < 9) :
    x * 9 + c < 81 ∧ inSameUnit (x * 9 + c) (r * 9 + c) = true := by
  simp only [inSameUnit, Bool.or_eq_true, Bool.and_eq_true, beq_iff_eq]
  constructor
  · omega
  · exact Or.inl (Or.inr (by omega))

theorem scanned_block_sameUnit (r c : Nat) (hr : r < 9) (hc : c < 9) :
    ∀ p ∈ blockOffsets,
      blockIdx (relCenter c, relCenter r) p.1 p.2 < 81 ∧
      inSameUnit (blockIdx (relCenter c, relCenter r) p.1 p.2) (r * 9 + c) = true := by
  intro p hp
  rcases blockIdx_mem_sameBlock r c hr hc p hp with ⟨h1, h2, h3⟩
  simp only [inSameUnit, Bool.or_eq_true, Bool.and_eq_true, beq_iff_eq]
  exact ⟨h1, Or.inr ⟨h2, h3⟩⟩

/-! ### Validity -/

theorem validB_iff (g : Sudoku) : validB g = true ↔
    ∀ i, i < 81 → ∀ j, j < 81 → i ≠ j → inSameUnit i j = true →
      cellsConflict (cellAt g.xs i) (cellAt g.xs j) = false := by
  simp only [validB, List.all_eq_true, List.mem_range, Bool.or_eq_true, beq_iff_eq,
    Bool.not_eq_true']
  constructor
  · intro h i hi j hj hne hu
    rcases h i hi j hj with (h' | h') | h'
    · exact absurd h' hne
    · rw [hu] at h'; exact absurd h' (by simp)
    · exact h'
  · intro h i hi j hj
    by_cases hij : i = j
    · exact Or.inl (Or.inl hij)
    · cases hu : inSameUnit i j
      · exact Or.inl (Or.inr rfl)
      · exact Or.inr (h i hi j hj hij hu)

theorem inSameUnit_symm {i j : Nat} (h : inSameUnit i j = true) : inSameUnit j i = true := by
  simp only [inSameUnit, Bool.or_eq_true, Bool.and_eq_true, beq_iff_eq] at h ⊢
  omega

theorem cellsConflict_comm (a b : Option SudokuNum) : cellsConflict a b = cellsConflict b a := by
  cases a with
  | none => cases b <;> rfl
  | some x =>
    cases b with
    | none => rfl
    | some y =>
      simp only [cellsConflict]
      by_cases hxy : x.val = y.val
      · simp [hxy]
      · simp [hxy, Ne.symm hxy]

theorem cellsConflict_edited (num : Nat) (c : Option SudokuNum)
    (h : matchesNum c num = false) : cellsConflict (some (.Edited num)) c = false := by
  cases c with
  | none => rfl
  | some w =>
    rw [matchesNum_eq_false_iff] at h
    have hw := h w rfl
    simp only [cellsConflict]
    have hval : (SudokuNum.Edited num).val = num := rfl
    rw [hval, beq_eq_false_iff_ne]
    exact fun hh => hw hh.symm

/-- A successful insertion found no cell matching `num` anywhere in the row,
column or block of the target. -/
theorem tryInsert_ok_no_unit_match (g g' : Sudoku) (c r num : Nat)
    (h : tryInsert g (c, r) num = .ok g') :
    ∀ j, j < 81 → inSameUnit j (r * 9 + c) = true →
      matchesNum (cellAt g.xs j) num = false := by
  rcases tryInsert_ok g g' (c, r) num h with ⟨h1, h2, _h3, hscan, hblk, _hxs⟩
  intro j hj hu
  rcases sameUnit_covered r c j (by exact Nat.lt_succ_of_le h2) (Nat.lt_succ_of_le h1) hj hu with
    ⟨x, hx, rfl⟩ | ⟨x, hx, rfl⟩ | ⟨p, hp, rfl⟩
  · exact ((scanRowCol_eq_none_iff g.xs (c, r) num (List.range 9)).mp hscan x
      (List.mem_range.mpr hx)).1
  · exact ((scanRowCol_eq_none_iff g.xs (c, r) num (List.range 9)).mp hscan x
      (List.mem_range.mpr hx)).2
  · exact (blockHit_eq_false_iff g.xs (relCenter c, relCenter r) num blockOffsets).mp hblk p hp

theorem tryInsert_preserves_valid (g g' : Sudoku) (c r num : Nat)
    (h : tryInsert g (c, r) num = .ok g') (hv : validB g = true) : validB g' = true := by
  rcases tryInsert_ok g g' (c, r) num h with ⟨h1, h2, _h3, _hscan, _hblk, hxs⟩
  have hxs' : g'.xs = g.xs.set (r * 9 + c) (some (.Edited num)) := hxs
  have hmatch := tryInsert_ok_no_unit_match g g' c r num h
  have hlen : g.xs.length = 81 := g.len_eq
  rw [validB_iff] at hv ⊢
  intro i hi j hj hne hu
  by_cases hit : i = r * 9 + c
  · subst hit
    by_cases hjt : j = r * 9 + c
    · exact absurd hjt.symm hne
    · rw [hxs', cellAt_set_self _ _ _ (by omega), cellAt_set_ne _ _ _ _ (by omega)]
      exact cellsConflict_edited num _ (hmatch j hj (inSameUnit_symm hu))
  · by_cases hjt : j = r * 9 + c
    · subst hjt
      rw [hxs', cellAt_set_ne _ _ _ _ (by omega), cellAt_set_self _ _ _ (by omega)]
      rw [cellsConflict_comm]
      exact cellsConflict_edited num _ (hmatch i hi hu)
    · rw [hxs', cellAt_set_ne _ _ _ _ (by omega), cellAt_set_ne _ _ _ _ (by omega)]
      exact hv i hi j hj hne hu

/-! ### Soundness of the solver -/

theorem tryDigits_sound (solve : Sudoku → Option Sudoku) (g : Sudoku) (t : Nat) (r : Sudoku)
    (IH : ∀ g' r', solve g' = some r' → validB g' = true →
      isFull r' = true ∧ validB r' = true) :
    ∀ ds, tryDigits solve g t ds = some r → validB g = true →
      isFull r = true ∧ validB r = true := by
  intro ds
  induction ds with
  | nil => intro h _; simp [tryDigits] at h
  | cons d ds ih =>
    intro h hv
    cases hins : tryInsert g (t % 9, t / 9) d with
    | ok g' =>
      cases hsol : solve g' with
      | some r' =>
        simp only [tryDigits, hins, hsol, Option.some.injEq] at h
        subst h
        exact IH g' r' hsol (tryInsert_preserves_valid g g' (t % 9) (t / 9) d hins hv)
      | none =>
        simp only [tryDigits, hins, hsol] at h
        exact ih h hv
    | error e =>
      simp only [tryDigits, hins] at h
      exact ih h hv

theorem solutionFuel_sound : ∀ (n : Nat) (g r : Sudoku), solutionFuel n g = some r →
    validB g = true → isFull r = true ∧ validB r = true := by
  intro n
  induction n with
  | zero => intro g r h _; simp [solutionFuel] at h
  | succ n ih =>
    intro g r h hv
    cases hf : isFull g with
    | true =>
      simp [solutionFuel, hf] at h
      subst h
      exact ⟨hf, hv⟩
    | false =>
      cases hfe : firstEmpty g.xs (List.range 81) with
      | none => simp [solutionFuel, hf, hfe] at h
      | some t =>
        simp only [solutionFuel, hf, Bool.false_eq_true, if_false, hfe] at h
        exact tryDigits_sound (solutionFuel n) g t r (fun g' r' => ih g' r') _ h hv

/-! ### Termination measure: the number of empty cells -/

theorem countP_pos_of_none : ∀ (xs : List (Option SudokuNum)) (t : Nat),
    t < xs.length → cellAt xs t = none → 0 < xs.countP (fun x => x.isNone) := by
  intro xs
  induction xs with
  | nil => intro t h; simp at h
  | cons a l ih =>
    intro t ht he
    cases t with
    | zero =>
      simp only [cellAt, List.getD_cons_zero] at he
      subst he
      simp [List.countP_cons]
    | succ t =>
      simp only [cellAt, List.getD_cons_succ] at he
      have := ih t (by simpa using Nat.lt_of_succ_lt_succ ht) he
      simp only [List.countP_cons]
      omega

theorem countEmpty_insert (g g' : Sudoku) (c r num : Nat)
    (h : tryInsert g (c, r) num = .ok g') (he : cellAt g.xs (r * 9 + c) = none) :
    countEmpty g' + 1 = countEmpty g := by
  rcases tryInsert_ok g g' (c, r) num h with ⟨h1, h2, _, _, _, hxs⟩
  have hxs' : g'.xs = g.xs.set (r * 9 + c) (some (.Edited num)) := hxs
  unfold countEmpty
  rw [hxs']
  exact countP_set_none g.xs _ _ (by rw [g.len_eq]; omega) he

/-- If the two solver continuations agree on every grid reachable by a
successful insertion at the branching cell, the digit loop agrees. -/
theorem tryDigits_congr (s1 s2 : Sudoku → Option Sudoku) (g : Sudoku) (t : Nat)
    (H : ∀ d g', tryInsert g (t % 9, t / 9) d = .ok g' → s1 g' = s2 g') :
    ∀ ds, tryDigits s1 g t ds = tryDigits s2 g t ds := by
  intro ds
  induction ds with
  | nil => rfl
  | cons d ds ih =>
    cases hins : tryInsert g (t % 9, t / 9) d with
    | ok g' =>
      simp only [tryDigits, hins]
      rw [H d g' hins, ih]
    | error e =>
      simp only [tryDigits, hins]
      exact ih

/-- Any fuel strictly larger than the number of empty cells computes the same
result: the recursion depth of `solution` is bounded by the number of empty
cells, since every recursive call strictly decreases it. -/
theorem solutionFuel_stable : ∀ (k : Nat) (g : Sudoku), countEmpty g ≤ k →
    ∀ n m, countEmpty g < n → countEmpty g < m → solutionFuel n g = solutionFuel m g := by
  intro k
  induction k with
  | zero =>
    intro g hk n m hn hm
    obtain ⟨n', rfl⟩ : ∃ n', n = n' + 1 := ⟨n - 1, by omega⟩
    obtain ⟨m', rfl⟩ : ∃ m', m = m' + 1 := ⟨m - 1, by omega⟩
    cases hf : isFull g with
    | true => simp [solutionFuel, hf]
    | false =>
      cases hfe : firstEmpty g.xs (List.range 81) with
      | none => simp [solutionFuel, hf, hfe]
      | some t =>
        rcases firstEmpty_some g.xs _ t hfe with ⟨hmem, hcell⟩
        have ht : t < 81 := List.mem_range.mp hmem
        have hpos : 0 < countEmpty g :=
          countP_pos_of_none g.xs t (by rw [g.len_eq]; omega) hcell
        omega
  | succ k ih =>
    intro g hk n m hn hm
    obtain ⟨n', rfl⟩ : ∃ n', n = n' + 1 := ⟨n - 1, by omega⟩
    obtain ⟨m', rfl⟩ : ∃ m', m = m' + 1 := ⟨m - 1, by omega⟩
    cases hf : isFull g with
    | true => simp [solutionFuel, hf]
    | false =>
      cases hfe : firstEmpty g.xs (List.range 81) with
      | none => simp [solutionFuel, hf, hfe]
      | some t =>
        rcases firstEmpty_some g.xs _ t hfe with ⟨hmem, hcell⟩
        have ht : t < 81 := List.mem_range.mp hmem
        simp only [solutionFuel, hf, Bool.false_eq_true, if_false, hfe]
        apply tryDigits_congr
        intro d g' hins
        have hidx : (t / 9) * 9 + t % 9 = t := by omega
        have he : cellAt g.xs ((t / 9) * 9 + t % 9) = none := by rw [hidx]; exact hcell
        have hdec := countEmpty_insert g g' (t % 9) (t / 9) d hins he
        exact ih g' (by omega) n' m' (by omega) (by omega)

/-! ### Claim theorems: C1, C3, C9 -/

/-- C1: for every valid input grid (no row, column or 3x3 block repeats a
digit among non-empty cells), if `solution` returns a grid then that grid is
full and valid: every cell added during the search was admitted through the
validated insertion, so completeness of the result implies its correctness. -/
theorem solution_sound (g r : Sudoku) (hv : validB g = true) (h : solution g = some r) :
    isFull r = true ∧ validB r = true :=
  solutionFuel_sound (countEmpty g + 1) g r h hv

theorem solution_sound_witness :
    validB solvedGrid = true ∧ (isFull solvedGrid = true ∧ validB solvedGrid = true) :=
  ⟨by decide!, solution_sound solvedGrid solvedGrid (by decide!) (by rfl)⟩

/-- C3: the search terminates on every input grid: its recursion depth is
bounded by the number of empty cells (itself at most 81), expressed here as
fuel-independence of the embedded recursion above that bound, so `solution`,
computed with fuel `countEmpty g + 1`, is the value of the unbounded Rust
recursion. -/
theorem solution_terminates (g : Sudoku) (n : Nat) (h : countEmpty g < n) :
    solutionFuel n g = solution g ∧ countEmpty g ≤ 81 := by
  constructor
  · exact solutionFuel_stable (countEmpty g) g le_rfl n (countEmpty g + 1) h (by omega)
  · have hlen := g.len_eq
    unfold countEmpty
    rw [← hlen]
    exact List.countP_le_length _

theorem solution_terminates_witness :
    countEmpty solvedGrid < 3 ∧
    (solutionFuel 3 solvedGrid = solution solvedGrid ∧ countEmpty solvedGrid ≤ 81) :=
  ⟨by decide!, solution_terminates solvedGrid 3 (by decide!)⟩

/-- C9: on the grid parsed from the test string, inserting 4 at `(5,6)` fails
with `RowDuplicate`, inserting 8 at `(5,7)` fails with `ColDuplicate`, and
inserting 6 at `(5,6)` fails with `BlockDuplicate`. -/
theorem insert_scenarioB :
    tryInsert testGrid (5, 6) 4 = .error .RowDuplicate ∧
    tryInsert testGrid (5, 7) 8 = .error .ColDuplicate ∧
    tryInsert testGrid (5, 6) 6 = .error .BlockDuplicate :=
  ⟨rfl, rfl, rfl⟩

/-- C5 (code bug evidence): `try_insert` checks only `num > 9`, so digit 0 is
accepted and inserted rather than rejected with `InvalidNumber`, contradicting
the function's own error message "inserted number must be within range 1..=9";
digits above 9 and out-of-range coordinates are rejected as documented. -/
theorem insert_zero_accepted :
    isOkB (tryInsert testGrid (0, 0) 0) = true ∧
    tryInsert testGrid (0, 0) 10 = .error .InvalidNumber ∧
    tryInsert testGrid (9, 0) 1 = .error .InvalidLoc ∧
    tryInsert testGrid (0, 9) 1 = .error .InvalidLoc :=
  ⟨rfl, rfl, rfl, rfl⟩

/-- C6 counterexample: a `Given` cell is not immutable: inserting a different
digit at its own location succeeds (no duplicate of that digit exists) and
overwrites the given `1` with `Edited 2`. -/
theorem given_overwritten :
    ((fromStr oneGridStr).toOption.bind fun g => (tryInsert g (0, 0) 2).toOption).map
        (fun g => cellAt g.xs 0) = some (some (.Edited 2)) ∧
    (fromStr oneGridStr).toOption.map (fun g => cellAt g.xs 0) =
      some (some (.Original 1)) :=
  ⟨rfl, rfl⟩

/-- C6 (amended): insertion never changes any cell other than the target, so a
`Given` cell at any location other than the insertion target keeps its digit;
the target cell itself, however, is overwritten with `Assigned(digit)` on
success even if it held a given. -/
theorem given_immutable_off_target (g g' : Sudoku) (loc : Nat × Nat) (num : Nat)
    (h : tryInsert g loc num = .ok g') (i : Nat) (hi : i ≠ loc.2 * 9 + loc.1)
    (v : SudokuNum) (hv : cellAt g.xs i = some v) :
    cellAt g'.xs i = some v := by
  rcases tryInsert_ok g g' loc num h with ⟨_, _, _, _, _, hxs⟩
  rw [hxs, cellAt_set_ne _ _ _ _ (fun hh => hi hh.symm)]
  exact hv

theorem given_immutable_off_target_witness :
    tryInsert testGrid (3, 2) 5 = .ok scGrid ∧
    cellAt testGrid.xs 7 = some (.Original 9) ∧
    cellAt scGrid.xs 7 = some (.Original 9) := by
  have h : tryInsert testGrid (3, 2) 5 = .ok scGrid := by rfl
  exact ⟨h, rfl,
    given_immutable_off_target testGrid scGrid (3, 2) 5 h 7 (by omega) _ rfl⟩

/-- C7 counterexample: the character `0` is parsed as a given cell `Original 0`
(the code parses any decimal digit, `0` included), not as an empty cell. -/
theorem parse_zero_not_empty :
    (fromStr zeroStr).map (fun g => cellAt g.xs 0) = .ok (some (.Original 0)) :=
  rfl

/-- C7 (amended): every cell of a parsed grid is either empty or a given
`Original d` with `d ≤ 9`; a character is mapped to a given cell exactly when
it is a decimal digit `0`-`9` (so `0` yields `Given 0`, and the digit range of
non-empty parsed cells is 0-9, not 1-9). -/
theorem fromStr_cells (src : String) (g : Sudoku) (h : fromStr src = .ok g) :
    (∀ cell ∈ g.xs, cell = none ∨ ∃ d, d ≤ 9 ∧ cell = some (.Original d)) ∧
    (∀ c : Char, (charToCell c).isSome = c.isDigit) := by
  constructor
  · intro cell hc
    have hxs : g.xs = (src.toList.filter fun c => c != '\n').map charToCell := by
      simp only [fromStr] at h
      split at h
      · injection h with h
        rw [← h]
      · cases h
    rw [hxs] at hc
    rcases List.mem_map.mp hc with ⟨ch, _, rfl⟩
    cases hd : ch.isDigit with
    | false => exact Or.inl (by simp [charToCell, hd])
    | true =>
      refine Or.inr ⟨ch.toNat - 48, ?_, by simp [charToCell, hd]⟩
      have hle : ch.toNat ≤ 57 := by
        simp only [Char.isDigit, Bool.and_eq_true, decide_eq_true_eq] at hd
        have h2 := hd.2
        simp only [Char.le_def] at h2
        exact h2
      omega
  · intro c
    cases hd : c.isDigit <;> simp [charToCell, hd]

theorem fromStr_cells_witness :
    fromStr zeroStr = .ok (gridOfStr zeroStr) ∧
    (∀ cell ∈ (gridOfStr zeroStr).xs,
      cell = none ∨ ∃ d, d ≤ 9 ∧ cell = some (.Original d)) :=
  ⟨by rfl, (fromStr_cells zeroStr (gridOfStr zeroStr) (by rfl)).1⟩

/-- C8: insertion is persistent and frame-preserving: the input grid is a pure
value (never mutated; a failed insertion returns only an error), and on
success the returned grid is the input with exactly cell `(row,col)` set to
`Assigned(digit)` and every other cell unchanged. -/
theorem tryInsert_frame (g g' : Sudoku) (loc : Nat × Nat) (num : Nat)
    (h : tryInsert g loc num = .ok g') :
    g'.xs = g.xs.set (loc.2 * 9 + loc.1) (some (.Edited num)) ∧
    cellAt g'.xs (loc.2 * 9 + loc.1) = some (.Edited num) ∧
    ∀ i, i ≠ loc.2 * 9 + loc.1 → cellAt g'.xs i = cellAt g.xs i := by
  rcases tryInsert_ok g g' loc num h with ⟨h1, h2, _, _, _, hxs⟩
  refine ⟨hxs, ?_, ?_⟩
  · rw [hxs]
    exact cellAt_set_self _ _ _ (by rw [g.len_eq]; omega)
  · intro i hi
    rw [hxs]
    exact cellAt_set_ne _ _ _ _ (fun hh => hi hh.symm)

theorem tryInsert_frame_witness :
    tryInsert testGrid (3, 2) 5 = .ok scGrid ∧
    scGrid.xs = testGrid.xs.set 21 (some (.Edited 5)) := by
  have h : tryInsert testGrid (3, 2) 5 = .ok scGrid := by rfl
  exact ⟨h, (tryInsert_frame testGrid scGrid (3, 2) 5 h).1⟩

/-- C10: inserting the very digit an in-range cell already holds (given or
assigned), at that same cell, never succeeds: the target cell is scanned by
the row and column checks, so a duplicate error is always returned. -/
theorem insert_same_digit_fails (g : Sudoku) (r c num : Nat) (hr : r < 9) (hc : c < 9)
    (hnum : num ≤ 9) (v : SudokuNum) (hcell : cellAt g.xs (r * 9 + c) = some v)
    (hval : v.val = num) :
    tryInsert g (c, r) num = .error .RowDuplicate ∨
    tryInsert g (c, r) num = .error .ColDuplicate := by
  have hm : matchesNum (cellAt g.xs (r * 9 + c)) num = true :=
    (matchesNum_iff _ _).mpr ⟨v, hcell, hval⟩
  cases hscan : scanRowCol g.xs (c, r) num (List.range 9) with
  | none =>
    exfalso
    have hf : matchesNum (cellAt g.xs (r * 9 + c)) num = false :=
      ((scanRowCol_eq_none_iff g.xs (c, r) num (List.range 9)).mp hscan c
        (List.mem_range.mpr hc)).1
    rw [hm] at hf
    simp at hf
  | some e =>
    have he := scanRowCol_some g.xs (c, r) num (List.range 9) e hscan
    have e1 : (c > 8 || r > 8) = false := by
      simp only [Bool.or_eq_false_iff, decide_eq_false_iff_not]
      omega
    have hres : tryInsert g (c, r) num = .error e := by
      simp only [tryInsert, e1, Bool.false_eq_true, if_false, hscan]
      have e2 : ¬(num > 9) := by omega
      rw [if_neg e2]
    rcases he with rfl | rfl
    · exact Or.inl hres
    · exact Or.inr hres

theorem insert_same_digit_fails_witness :
    cellAt testGrid.xs (0 * 9 + 7) = some (.Original 9) ∧
    (tryInsert testGrid (7, 0) 9 = .error .RowDuplicate ∨
     tryInsert testGrid (7, 0) 9 = .error .ColDuplicate) :=
  ⟨rfl, insert_same_digit_fails testGrid 0 7 9 (by omega) (by omega) (by omega)
    (.Original 9) rfl rfl⟩

/-! ### The order of the duplicate checks (C4) -/

/-- For in-range arguments, `try_insert` is the scan followed by the block
check. -/
theorem tryInsert_eq (g : Sudoku) (c r num : Nat) (hc : c ≤ 8) (hr : r ≤ 8)
    (hn : num ≤ 9) :
    tryInsert g (c, r) num =
      match scanRowCol g.xs (c, r) num (List.range 9) with
      | some e => .error e
      | none =>
        if blockHit g.xs (relCenter c, relCenter r) num blockOffsets then
          .error .BlockDuplicate
        else
          .ok ⟨g.xs.set (r * 9 + c) (some (.Edited num)),
               by rw [List.length_set]; exact g.len_eq⟩ := by
  have e1 : (c > 8 || r > 8) = false := by
    simp only [Bool.or_eq_false_iff, decide_eq_false_iff_not]
    omega
  have e2 : ¬(num > 9) := by omega
  simp only [tryInsert, e1, Bool.false_eq_true, if_false, e2]

/-- Characterization of the interleaved row/column scan over an index range:
the scan visits indices in order, checking at each index the row cell first,
then the column cell, and reports the first match. -/
theorem scanRowCol_range'_char (xs : List (Option SudokuNum)) (loc : Nat × Nat)
    (num : Nat) :
    ∀ (n s : Nat),
      (scanRowCol xs loc num (List.range' s n) = some .RowDuplicate ↔
        ∃ x, s ≤ x ∧ x < s + n ∧
          matchesNum (cellAt xs (loc.2 * 9 + x)) num = true ∧
          ∀ y, s ≤ y → y < x →
            matchesNum (cellAt xs (loc.2 * 9 + y)) num = false ∧
            matchesNum (cellAt xs (y * 9 + loc.1)) num = false) ∧
      (scanRowCol xs loc num (List.range' s n) = some .ColDuplicate ↔
        ∃ x, s ≤ x ∧ x < s + n ∧
          matchesNum (cellAt xs (x * 9 + loc.1)) num = true ∧
          matchesNum (cellAt xs (loc.2 * 9 + x)) num = false ∧
          ∀ y, s ≤ y → y < x →
            matchesNum (cellAt xs (loc.2 * 9 + y)) num = false ∧
            matchesNum (cellAt xs (y * 9 + loc.1)) num = false) := by
  intro n
  induction n with
  | zero =>
    intro s
    constructor
    · constructor
      · intro h; simp [scanRowCol] at h
      · rintro ⟨x, h1, h2, -⟩; omega
    · constructor
      · intro h; simp [scanRowCol] at h
      · rintro ⟨x, h1, h2, -⟩; omega
  | succ n ih =>
    intro s
    rw [List.range'_succ]
    cases h1 : matchesNum (cellAt xs (loc.2 * 9 + s)) num with
    | true =>
      simp only [scanRowCol, h1, if_true]
      constructor
      · constructor
        · intro _
          exact ⟨s, le_rfl, by omega, h1, fun y hy1 hy2 => absurd hy2 (by omega)⟩
        · intro _; trivial
      · constructor
        · intro h; simp at h
        · rintro ⟨x, hx1, hx2, hcm, hrmf, hall⟩
          exfalso
          by_cases hxs : x = s
          · subst hxs; rw [h1] at hrmf; simp at hrmf
          · have := (hall s le_rfl (by omega)).1
            rw [h1] at this; simp at this
    | false =>
      cases h2 : matchesNum (cellAt xs (s * 9 + loc.1)) num with
      | true =>
        simp only [scanRowCol, h1, Bool.false_eq_true, if_false, h2, if_true]
        constructor
        · constructor
          · intro h; simp at h
          · rintro ⟨x, hx1, hx2, hrm, hall⟩
            exfalso
            by_cases hxs : x = s
            · subst hxs; rw [h1] at hrm; simp at hrm
            · have := (hall s le_rfl (by omega)).2
              rw [h2] at this; simp at this
        · constructor
          · intro _
            exact ⟨s, le_rfl, by omega, h2, h1, fun y hy1 hy2 => absurd hy2 (by omega)⟩
          · intro _; trivial
      | false =>
        have hstep : scanRowCol xs loc num (s :: List.range' (s + 1) n) =
            scanRowCol xs loc num (List.range' (s + 1) n) := by
          simp [scanRowCol, h1, h2]
        rw [hstep]
        rcases ih (s + 1) with ⟨ihR, ihC⟩
        constructor
        · rw [ihR]
          constructor
          · rintro ⟨x, hx1, hx2, hm, hall⟩
            refine ⟨x, by omega, by omega, hm, ?_⟩
            intro y hy1 hy2
            rcases Nat.eq_or_lt_of_le hy1 with hy | hy
            · rw [← hy]; exact ⟨h1, h2⟩
            · exact hall y (by omega) hy2
          · rintro ⟨x, hx1, hx2, hm, hall⟩
            have hxs : s + 1 ≤ x := by
              rcases Nat.eq_or_lt_of_le hx1 with hy | hy
              · exfalso; rw [← hy] at hm; rw [h1] at hm; simp at hm
              · omega
            exact ⟨x, hxs, by omega, hm, fun y hy1 hy2 => hall y (by omega) hy2⟩
        · rw [ihC]
          constructor
          · rintro ⟨x, hx1, hx2, hm, hmf, hall⟩
            refine ⟨x, by omega, by omega, hm, hmf, ?_⟩
            intro y hy1 hy2
            rcases Nat.eq_or_lt_of_le hy1 with hy | hy
            · rw [← hy]; exact ⟨h1, h2⟩
            · exact hall y (by omega) hy2
          · rintro ⟨x, hx1, hx2, hm, hmf, hall⟩
            have hxs : s + 1 ≤ x := by
              rcases Nat.eq_or_lt_of_le hx1 with hy | hy
              · exfalso; rw [← hy] at hm; rw [h2] at hm; simp at hm
              · omega
            exact ⟨x, hxs, by omega, hm, hmf, fun y hy1 hy2 => hall y (by omega) hy2⟩

theorem tryInsert_scan_some (g : Sudoku) (c r num : Nat) (hc : c ≤ 8) (hr : r ≤ 8)
    (hn : num ≤ 9) (e : InsertError)
    (hscan : scanRowCol g.xs (c, r) num (List.range 9) = some e) :
    tryInsert g (c, r) num = .error e := by
  rw [tryInsert_eq g c r num hc hr hn, hscan]

theorem tryInsert_scan_none_block (g : Sudoku) (c r num : Nat) (hc : c ≤ 8)
    (hr : r ≤ 8) (hn : num ≤ 9)
    (hscan : scanRowCol g.xs (c, r) num (List.range 9) = none)
    (hb : blockHit g.xs (relCenter c, relCenter r) num blockOffsets = true) :
    tryInsert g (c, r) num = .error .BlockDuplicate := by
  rw [tryInsert_eq g c r num hc hr hn, hscan, if_pos hb]

theorem tryInsert_scan_none_ok (g : Sudoku) (c r num : Nat) (hc : c ≤ 8)
    (hr : r ≤ 8) (hn : num ≤ 9)
    (hscan : scanRowCol g.xs (c, r) num (List.range 9) = none)
    (hb : blockHit g.xs (relCenter c, relCenter r) num blockOffsets = false) :
    ∃ g2, tryInsert g (c, r) num = .ok g2 :=
  ⟨_, by rw [tryInsert_eq g c r num hc hr hn, hscan, if_neg (by simp [hb])]⟩

/-- C4 (amended): the row and column duplicate checks are interleaved over the
indices `0..8` - at each index the row cell is checked first, then the column
cell - and the first matching cell determines the reported error.  So
`RowDuplicate` is reported iff the earliest match in this interleaved order is
a row cell (the column may match only later), `ColDuplicate` iff the earliest
match is a column cell (the row may still contain the digit at a strictly
larger index), and `BlockDuplicate` exactly when neither the row nor the
column contains the digit anywhere but the scanned 3x3 block does. -/
theorem tryInsert_error_order (g : Sudoku) (c r num : Nat) (hc : c ≤ 8) (hr : r ≤ 8)
    (hn : num ≤ 9) :
    (tryInsert g (c, r) num = .error .RowDuplicate ↔
      ∃ x, x < 9 ∧ matchesNum (cellAt g.xs (r * 9 + x)) num = true ∧
        ∀ y, y < x → matchesNum (cellAt g.xs (r * 9 + y)) num = false ∧
                     matchesNum (cellAt g.xs (y * 9 + c)) num = false) ∧
    (tryInsert g (c, r) num = .error .ColDuplicate ↔
      ∃ x, x < 9 ∧ matchesNum (cellAt g.xs (x * 9 + c)) num = true ∧
        matchesNum (cellAt g.xs (r * 9 + x)) num = false ∧
        ∀ y, y < x → matchesNum (cellAt g.xs (r * 9 + y)) num = false ∧
                     matchesNum (cellAt g.xs (y * 9 + c)) num = false) ∧
    (tryInsert g (c, r) num = .error .BlockDuplicate ↔
      (∀ x, x < 9 → matchesNum (cellAt g.xs (r * 9 + x)) num = false ∧
                    matchesNum (cellAt g.xs (x * 9 + c)) num = false) ∧
      blockHit g.xs (relCenter c, relCenter r) num blockOffsets = true) := by
  have hchar := scanRowCol_range'_char g.xs (c, r) num 9 0
  rw [← List.range_eq_range'] at hchar
  have hnone := scanRowCol_eq_none_iff g.xs (c, r) num (List.range 9)
  refine ⟨?_, ?_, ?_⟩
  · constructor
    · intro h
      cases hscan : scanRowCol g.xs (c, r) num (List.range 9) with
      | some e =>
        rw [tryInsert_scan_some g c r num hc hr hn e hscan] at h
        injection h with h
        subst h
        rw [hscan] at hchar
        rcases hchar.1.mp rfl with ⟨x, hx1, hx2, hm, hall⟩
        exact ⟨x, by omega, hm, fun y hy => hall y (by omega) hy⟩
      | none =>
        exfalso
        cases hb : blockHit g.xs (relCenter c, relCenter r) num blockOffsets with
        | true =>
          rw [tryInsert_scan_none_block g c r num hc hr hn hscan hb] at h
          simp at h
        | false =>
          rcases tryInsert_scan_none_ok g c r num hc hr hn hscan hb with ⟨g2, hg⟩
          rw [hg] at h
          simp at h
    · rintro ⟨x, hx1, hm, hall⟩
      have hs : scanRowCol g.xs (c, r) num (List.range 9) = some .RowDuplicate :=
        hchar.1.mpr ⟨x, by omega, by omega, hm, fun y hy1 hy2 => hall y hy2⟩
      exact tryInsert_scan_some g c r num hc hr hn _ hs
  · constructor
    · intro h
      cases hscan : scanRowCol g.xs (c, r) num (List.range 9) with
      | some e =>
        rw [tryInsert_scan_some g c r num hc hr hn e hscan] at h
        injection h with h
        subst h
        rw [hscan] at hchar
        rcases hchar.2.mp rfl with ⟨x, hx1, hx2, hm, hmf, hall⟩
        exact ⟨x, by omega, hm, hmf, fun y hy => hall y (by omega) hy⟩
      | none =>
        exfalso
        cases hb : blockHit g.xs (relCenter c, relCenter r) num blockOffsets with
        | true =>
          rw [tryInsert_scan_none_block g c r num hc hr hn hscan hb] at h
          simp at h
        | false =>
          rcases tryInsert_scan_none_ok g c r num hc hr hn hscan hb with ⟨g2, hg⟩
          rw [hg] at h
          simp at h
    · rintro ⟨x, hx1, hm, hmf, hall⟩
      have hs : scanRowCol g.xs (c, r) num (List.range 9) = some .ColDuplicate :=
        hchar.2.mpr ⟨x, by omega, by omega, hm, hmf, fun y hy1 hy2 => hall y hy2⟩
      exact tryInsert_scan_some g c r num hc hr hn _ hs
  · constructor
    · intro h
      cases hscan : scanRowCol g.xs (c, r) num (List.range 9) with
      | some e =>
        exfalso
        rw [tryInsert_scan_some g c r num hc hr hn e hscan] at h
        injection h with h
        subst h
        rcases scanRowCol_some g.xs (c, r) num (List.range 9) _ hscan with h2 | h2 <;>
          simp at h2
      | none =>
        cases hb : blockHit g.xs (relCenter c, relCenter r) num blockOffsets with
        | true =>
          exact ⟨fun x hx => hnone.mp hscan x (List.mem_range.mpr hx), rfl⟩
        | false =>
          exfalso
          rcases tryInsert_scan_none_ok g c r num hc hr hn hscan hb with ⟨g2, hg⟩
          rw [hg] at h
          simp at h
    · rintro ⟨hall, hb⟩
      have hs : scanRowCol g.xs (c, r) num (List.range 9) = none :=
        hnone.mpr (fun x hx => hall x (List.mem_range.mp hx))
      exact tryInsert_scan_none_block g c r num hc hr hn hs hb

theorem tryInsert_error_order_witness :
    tryInsert c4Grid (0, 1) 5 = .error .ColDuplicate :=
  (tryInsert_error_order c4Grid 0 1 5 (by omega) (by omega) (by omega)).2.1.mpr
    ⟨0, by omega, rfl, rfl, fun y hy => absurd hy (by omega)⟩

/-- C4 counterexample: on `c4Grid` the row of the insertion point contains the
digit (at column 8), yet the reported error is `ColDuplicate`, because the
column match at scan index 0 is found before the row match at scan index 8. -/
theorem rowdup_not_reported :
    tryInsert c4Grid (0, 1) 5 = .error .ColDuplicate ∧
    matchesNum (cellAt c4Grid.xs (1 * 9 + 8)) 5 = true :=
  ⟨rfl, rfl⟩


/-! ### Accessors for grids, digit lists and extension relations -/

theorem cellAt_eq_get : ∀ (xs : List (Option SudokuNum)) (i : Nat) (h : i < xs.length),
    cellAt xs i = xs.get ⟨i, h⟩ := by
  intro xs
  induction xs with
  | nil => intro i h; simp at h
  | cons a l ih =>
    intro i h
    cases i with
    | zero => rfl
    | succ i =>
      simp only [cellAt, List.getD_cons_succ, List.get_cons_succ]
      exact ih i (by simpa using Nat.lt_of_succ_lt_succ h)

theorem mem_of_cellAt_some : ∀ (xs : List (Option SudokuNum)) (i : Nat) (w : SudokuNum),
    cellAt xs i = some w → some w ∈ xs := by
  intro xs
  induction xs with
  | nil => intro i w h; simp [cellAt] at h
  | cons a l ih =>
    intro i w h
    cases i with
    | zero =>
      have : a = some w := h
      rw [← this]
      exact List.mem_cons_self _ _
    | succ i =>
      exact List.mem_cons_of_mem _ (ih i w (by simpa [cellAt] using h))

theorem isFull_cellAt (E : Sudoku) (h : isFull E = true) (i : Nat) (hi : i < 81) :
    ∃ w, cellAt E.xs i = some w := by
  unfold isFull at h
  rw [List.all_eq_true] at h
  have hlen : i < E.xs.length := by rw [E.len_eq]; omega
  have hmem : E.xs.get ⟨i, hlen⟩ ∈ E.xs := E.xs.get_mem _ _
  have hx := h _ hmem
  cases hc : E.xs.get ⟨i, hlen⟩ with
  | none => rw [hc] at hx; simp at hx
  | some w => exact ⟨w, by rw [cellAt_eq_get E.xs i hlen, hc]⟩

theorem isFull_of_firstEmpty_none (g : Sudoku)
    (h : firstEmpty g.xs (List.range 81) = none) : isFull g = true := by
  rw [firstEmpty_eq_none_iff] at h
  unfold isFull
  rw [List.all_eq_true]
  intro x hx
  rcases List.mem_iff_get.mp hx with ⟨⟨i, hi⟩, rfl⟩
  have hi81 : i < 81 := by rw [← g.len_eq]; exact hi
  have hne := h i (List.mem_range.mpr hi81)
  rw [cellAt_eq_get g.xs i hi] at hne
  have hge : g.xs.get ⟨i, hi⟩ = g.xs[i] := rfl
  rw [hge] at hne
  cases hcase : g.xs[i] with
  | none => rw [hcase] at hne; simp at hne
  | some w => simp [hcase]

theorem digitsOk_cellAt (E : Sudoku) (h : digitsOk E = true) (i : Nat) (w : SudokuNum)
    (hc : cellAt E.xs i = some w) : 1 ≤ w.val ∧ w.val ≤ 9 := by
  unfold digitsOk at h
  rw [List.all_eq_true] at h
  have hx := h _ (mem_of_cellAt_some E.xs i w hc)
  simpa using hx

theorem dExtB_iff (E : Sudoku) (l : List Nat) : dExtB E l = true ↔
    ∀ i, i < 81 → dget l i = 0 ∨ dOf E i = dget l i := by
  simp only [dExtB, List.all_eq_true, List.mem_range, Bool.or_eq_true, beq_iff_eq]

theorem hasCand_iff (l : List Nat) (t d : Nat) : hasCand l t d = true ↔
    ∀ p, p < 81 → p ≠ t → inSameUnit p t = true → dget l p ≠ d := by
  simp only [hasCand, List.all_eq_true, List.mem_range, Bool.or_eq_true, beq_iff_eq,
    Bool.not_eq_true', beq_eq_false_iff_ne, ne_eq]
  constructor
  · intro h p hp hne hu
    rcases h p hp with (h2 | h2) | h2
    · exact absurd h2 hne
    · rw [hu] at h2; exact absurd h2 (by simp)
    · exact h2
  · intro h p hp
    by_cases hpt : p = t
    · exact Or.inl (Or.inl hpt)
    · cases hu : inSameUnit p t
      · exact Or.inl (Or.inr rfl)
      · exact Or.inr (h p hp hpt hu)

theorem gExtendB_iff (r g : Sudoku) : gExtendB r g = true ↔
    ∀ i, i < 81 → ∀ v, cellAt g.xs i = some v →
      ∃ w, cellAt r.xs i = some w ∧ w.val = v.val := by
  simp only [gExtendB, List.all_eq_true, List.mem_range]
  constructor
  · intro h i hi v hv
    have hx := h i hi
    rw [hv] at hx
    cases hw : cellAt r.xs i with
    | none => rw [hw] at hx; simp at hx
    | some w =>
      rw [hw] at hx
      simp only [beq_iff_eq] at hx
      exact ⟨w, rfl, hx⟩
  · intro h i hi
    cases hv : cellAt g.xs i with
    | none => simp
    | some v =>
      rcases h i hi v hv with ⟨w, hw, hval⟩
      rw [hw]
      simp [hval]

theorem gExtendB_refl (g : Sudoku) : gExtendB g g = true := by
  rw [gExtendB_iff]
  intro i hi v hv
  exact ⟨v, hv, rfl⟩

theorem gExtendB_trans (r g2 g : Sudoku) (h1 : gExtendB r g2 = true)
    (h2 : gExtendB g2 g = true) : gExtendB r g = true := by
  rw [gExtendB_iff] at h1 h2 ⊢
  intro i hi v hv
  rcases h2 i hi v hv with ⟨w, hw, hwv⟩
  rcases h1 i hi w hw with ⟨u, hu, huw⟩
  exact ⟨u, hu, by omega⟩

theorem dget_digitsOfGrid (g : Sudoku) (i : Nat) (hi : i < 81) :
    dget (digitsOfGrid g) i = dOf g i := by
  unfold dget digitsOfGrid
  have hlen : i < ((List.range 81).map fun j => dOf g j).length := by simp; omega
  rw [List.getD_eq_getElem?_getD, List.getElem?_eq_getElem hlen]
  simp

theorem digitsOfGrid_length (g : Sudoku) : (digitsOfGrid g).length = 81 := by
  simp [digitsOfGrid]

theorem dExtB_of_gExtendB (r g : Sudoku) (h : gExtendB r g = true) :
    dExtB r (digitsOfGrid g) = true := by
  rw [dExtB_iff]
  intro i hi
  rw [dget_digitsOfGrid g i hi]
  cases hv : cellAt g.xs i with
  | none => exact Or.inl (by simp [dOf, hv])
  | some v =>
    rcases (gExtendB_iff r g).mp h i hi v hv with ⟨w, hw, hval⟩
    exact Or.inr (by simp [dOf, hv, hw, hval])

/-! ### The solver preserves digit bounds and extends its input -/

theorem digitsOk_insert (g g2 : Sudoku) (c r num : Nat)
    (h : tryInsert g (c, r) num = .ok g2) (h1 : 1 ≤ num) (hok : digitsOk g = true) :
    digitsOk g2 = true := by
  rcases tryInsert_ok g g2 (c, r) num h with ⟨hc, hr, hn, _, _, hxs⟩
  unfold digitsOk at hok ⊢
  rw [List.all_eq_true] at hok ⊢
  intro x hx
  rw [hxs] at hx
  rcases List.mem_or_eq_of_mem_set hx with hx2 | rfl
  · exact hok x hx2
  · simp only [SudokuNum.val]
    simp
    omega

theorem tryDigits_digitsOk (solve : Sudoku → Option Sudoku) (g : Sudoku) (t : Nat)
    (r : Sudoku)
    (IH : ∀ g2 r2, solve g2 = some r2 → digitsOk g2 = true → digitsOk r2 = true) :
    ∀ ds, (∀ d ∈ ds, 1 ≤ d) → tryDigits solve g t ds = some r → digitsOk g = true →
      digitsOk r = true := by
  intro ds
  induction ds with
  | nil => intro _ h; simp [tryDigits] at h
  | cons d ds ih =>
    intro hds h hok
    cases hins : tryInsert g (t % 9, t / 9) d with
    | ok g2 =>
      cases hsol : solve g2 with
      | some r2 =>
        simp only [tryDigits, hins, hsol, Option.some.injEq] at h
        subst h
        exact IH g2 r2 hsol
          (digitsOk_insert g g2 (t % 9) (t / 9) d hins (hds d (List.mem_cons_self _ _)) hok)
      | none =>
        simp only [tryDigits, hins, hsol] at h
        exact ih (fun d2 hd2 => hds d2 (List.mem_cons_of_mem _ hd2)) h hok
    | error e =>
      simp only [tryDigits, hins] at h
      exact ih (fun d2 hd2 => hds d2 (List.mem_cons_of_mem _ hd2)) h hok

theorem solutionFuel_digitsOk : ∀ (n : Nat) (g r : Sudoku), solutionFuel n g = some r →
    digitsOk g = true → digitsOk r = true := by
  intro n
  induction n with
  | zero => intro g r h; simp [solutionFuel] at h
  | succ n ih =>
    intro g r h hok
    cases hf : isFull g with
    | true =>
      simp [solutionFuel, hf] at h
      subst h
      exact hok
    | false =>
      cases hfe : firstEmpty g.xs (List.range 81) with
      | none => simp [solutionFuel, hf, hfe] at h
      | some t =>
        simp only [solutionFuel, hf, Bool.false_eq_true, if_false, hfe] at h
        exact tryDigits_digitsOk (solutionFuel n) g t r (fun g2 r2 => ih g2 r2) _
          (fun d hd => (List.mem_range'_1.mp hd).1) h hok

theorem tryInsert_extend (g g2 : Sudoku) (c r num : Nat)
    (h : tryInsert g (c, r) num = .ok g2) (he : cellAt g.xs (r * 9 + c) = none) :
    gExtendB g2 g = true := by
  rcases tryInsert_ok g g2 (c, r) num h with ⟨hc, hr, _, _, _, hxs⟩
  have hxs2 : g2.xs = g.xs.set (r * 9 + c) (some (.Edited num)) := hxs
  rw [gExtendB_iff]
  intro i hi v hv
  by_cases hit : i = r * 9 + c
  · rw [hit, he] at hv; cases hv
  · refine ⟨v, ?_, rfl⟩
    rw [hxs2, cellAt_set_ne _ _ _ _ (fun hh => hit hh.symm)]
    exact hv

theorem tryDigits_extend (solve : Sudoku → Option Sudoku) (g : Sudoku) (t : Nat)
    (r : Sudoku)
    (IH : ∀ g2 r2, solve g2 = some r2 → gExtendB r2 g2 = true)
    (he : cellAt g.xs ((t / 9) * 9 + t % 9) = none) :
    ∀ ds, tryDigits solve g t ds = some r → gExtendB r g = true := by
  intro ds
  induction ds with
  | nil => intro h; simp [tryDigits] at h
  | cons d ds ih =>
    intro h
    cases hins : tryInsert g (t % 9, t / 9) d with
    | ok g2 =>
      cases hsol : solve g2 with
      | some r2 =>
        simp only [tryDigits, hins, hsol, Option.some.injEq] at h
        subst h
        exact gExtendB_trans r2 g2 g (IH g2 r2 hsol)
          (tryInsert_extend g g2 (t % 9) (t / 9) d hins he)
      | none =>
        simp only [tryDigits, hins, hsol] at h
        exact ih h
    | error e =>
      simp only [tryDigits, hins] at h
      exact ih h

theorem solutionFuel_extend : ∀ (n : Nat) (g r : Sudoku), solutionFuel n g = some r →
    gExtendB r g = true := by
  intro n
  induction n with
  | zero => intro g r h; simp [solutionFuel] at h
  | succ n ih =>
    intro g r h
    cases hf : isFull g with
    | true =>
      simp [solutionFuel, hf] at h
      subst h
      exact gExtendB_refl g
    | false =>
      cases hfe : firstEmpty g.xs (List.range 81) with
      | none => simp [solutionFuel, hf, hfe] at h
      | some t =>
        simp only [solutionFuel, hf, Bool.false_eq_true, if_false, hfe] at h
        rcases firstEmpty_some g.xs _ t hfe with ⟨hmem, hcell⟩
        have ht : t < 81 := List.mem_range.mp hmem
        have hrc : (t / 9) * 9 + t % 9 = t := by omega
        exact tryDigits_extend (solutionFuel n) g t r (fun g2 r2 => ih g2 r2)
          (by rw [hrc]; exact hcell) _ h

/-! ### Completeness: if a full valid extension exists, the search succeeds -/

theorem tryDigits_isSome (solve : Sudoku → Option Sudoku) (g : Sudoku) (t : Nat) :
    ∀ ds, (∃ d ∈ ds, ∃ g2, tryInsert g (t % 9, t / 9) d = .ok g2 ∧
      (solve g2).isSome = true) →
    (tryDigits solve g t ds).isSome = true := by
  intro ds
  induction ds with
  | nil => rintro ⟨d, hd, -⟩; simp at hd
  | cons d0 ds ih =>
    rintro ⟨d, hd, g2, hins, hsol⟩
    cases hins0 : tryInsert g (t % 9, t / 9) d0 with
    | ok g0 =>
      cases hsol0 : solve g0 with
      | some r => simp [tryDigits, hins0, hsol0]
      | none =>
        simp only [tryDigits, hins0, hsol0]
        apply ih
        rcases List.mem_cons.mp hd with rfl | hd2
        · rw [hins0] at hins
          injection hins with hins
          subst hins
          rw [hsol0] at hsol
          simp at hsol
        · exact ⟨d, hd2, g2, hins, hsol⟩
    | error e =>
      simp only [tryDigits, hins0]
      apply ih
      rcases List.mem_cons.mp hd with rfl | hd2
      · rw [hins0] at hins; cases hins
      · exact ⟨d, hd2, g2, hins, hsol⟩

theorem noUnitMatch_of_extends (g E : Sudoku) (hV : validB E = true)
    (hext : gExtendB E g = true) (t : Nat) (ht : t < 81)
    (hcell : cellAt g.xs t = none) (w : SudokuNum) (hEt : cellAt E.xs t = some w) :
    ∀ j, j < 81 → inSameUnit j t = true →
      matchesNum (cellAt g.xs j) w.val = false := by
  intro j hj hu
  cases hc : cellAt g.xs j with
  | none => simp [matchesNum, cellEq]
  | some v =>
    rw [matchesNum_eq_false_iff]
    intro v2 hv2 hval
    injection hv2 with hv2
    subst hv2
    have hjt : j ≠ t := fun hh => by rw [hh, hcell] at hc; cases hc
    rcases (gExtendB_iff E g).mp hext j hj v hc with ⟨wv, hwv, hwval⟩
    have hconf := (validB_iff E).mp hV j hj t ht hjt hu
    rw [hwv, hEt] at hconf
    simp only [cellsConflict] at hconf
    rw [beq_eq_false_iff_ne] at hconf
    omega

theorem solutionFuel_complete : ∀ (n : Nat) (g E : Sudoku), countEmpty g < n →
    isFull E = true → validB E = true → digitsOk E = true → gExtendB E g = true →
    (solutionFuel n g).isSome = true := by
  intro n
  induction n with
  | zero => intro g E h; omega
  | succ n ih =>
    intro g E hcnt hF hV hD hext
    cases hf : isFull g with
    | true => simp [solutionFuel, hf]
    | false =>
      cases hfe : firstEmpty g.xs (List.range 81) with
      | none =>
        rw [isFull_of_firstEmpty_none g hfe] at hf
        cases hf
      | some t =>
        simp only [solutionFuel, hf, Bool.false_eq_true, if_false, hfe]
        rcases firstEmpty_some g.xs _ t hfe with ⟨hmem, hcell⟩
        have ht : t < 81 := List.mem_range.mp hmem
        rcases isFull_cellAt E hF t ht with ⟨w, hEt⟩
        rcases digitsOk_cellAt E hD t w hEt with ⟨hw1, hw9⟩
        have hrc : (t / 9) * 9 + t % 9 = t := by omega
        have hnomatch := noUnitMatch_of_extends g E hV hext t ht hcell w hEt
        have hscan : scanRowCol g.xs (t % 9, t / 9) w.val (List.range 9) = none := by
          rw [scanRowCol_eq_none_iff]
          intro x hx
          have hx9 := List.mem_range.mp hx
          constructor
          · have hcov := scanned_row_sameUnit (t / 9) (t % 9) x (by omega) (by omega) hx9
            rw [hrc] at hcov
            exact hnomatch _ hcov.1 hcov.2
          · have hcov := scanned_col_sameUnit (t / 9) (t % 9) x (by omega) (by omega) hx9
            rw [hrc] at hcov
            exact hnomatch _ hcov.1 hcov.2
        have hblk : blockHit g.xs (relCenter (t % 9), relCenter (t / 9)) w.val
            blockOffsets = false := by
          rw [blockHit_eq_false_iff]
          intro p hp
          have hcov := scanned_block_sameUnit (t / 9) (t % 9) (by omega) (by omega) p hp
          rw [hrc] at hcov
          exact hnomatch _ hcov.1 hcov.2
        rcases tryInsert_scan_none_ok g (t % 9) (t / 9) w.val (by omega) (by omega)
          (by omega) hscan hblk with ⟨g2, hg2⟩
        have hext2 : gExtendB E g2 = true := by
          rcases tryInsert_ok g g2 (t % 9, t / 9) w.val hg2 with ⟨_, _, _, _, _, hxs⟩
          have hxs2 : g2.xs = g.xs.set ((t / 9) * 9 + t % 9) (some (.Edited w.val)) := hxs
          rw [hrc] at hxs2
          rw [gExtendB_iff]
          intro i hi v hv
          by_cases hit : i = t
          · subst hit
            rw [hxs2, cellAt_set_self _ _ _ (by rw [g.len_eq]; omega)] at hv
            injection hv with hv
            refine ⟨w, hEt, ?_⟩
            rw [← hv]
            rfl
          · rw [hxs2, cellAt_set_ne _ _ _ _ (by omega)] at hv
            exact (gExtendB_iff E g).mp hext i hi v hv
        have hcnt2 : countEmpty g2 < n := by
          have := countEmpty_insert g g2 (t % 9) (t / 9) w.val hg2 (by rw [hrc]; exact hcell)
          omega
        apply tryDigits_isSome
        refine ⟨w.val, ?_, g2, hg2, ih g2 E hcnt2 hF hV hD hext2⟩
        rw [List.mem_range'_1]
        omega


/-! ### Uniqueness certificate machinery -/

theorem dget_set_self : ∀ (l : List Nat) (t v : Nat), t < l.length →
    dget (l.set t v) t = v := by
  intro l
  induction l with
  | nil => intro t v h; simp at h
  | cons a l ih =>
    intro t v h
    cases t with
    | zero => rfl
    | succ t =>
      simp only [List.set_cons_succ, dget, List.getD_cons_succ]
      exact ih t v (by simpa using Nat.lt_of_succ_lt_succ h)

theorem dget_set_ne : ∀ (l : List Nat) (t i v : Nat), t ≠ i →
    dget (l.set t v) i = dget l i := by
  intro l
  induction l with
  | nil => intro t i v _; simp [dget]
  | cons a l ih =>
    intro t i v hne
    cases t with
    | zero =>
      cases i with
      | zero => exact absurd rfl hne
      | succ i => simp [dget]
    | succ t =>
      cases i with
      | zero => simp [dget]
      | succ i =>
        simp only [List.set_cons_succ, dget, List.getD_cons_succ]
        exact ih t i v (fun hh => hne (by rw [hh]))

theorem allUnits_wf : ∀ u ∈ allUnits, u.length = 9 ∧ u.Nodup ∧ (∀ p ∈ u, p < 81) ∧
    (∀ p ∈ u, ∀ q ∈ u, p ≠ q → inSameUnit p q = true) := by decide!

theorem hasCand_dOf (E : Sudoku) (l : List Nat) (hF : isFull E = true)
    (hV : validB E = true) (hD : digitsOk E = true) (hext : dExtB E l = true)
    (t : Nat) (ht : t < 81) : hasCand l t (dOf E t) = true := by
  rw [hasCand_iff]
  intro p hp hne hu hd
  rcases isFull_cellAt E hF t ht with ⟨w, hEt⟩
  have hdt : dOf E t = w.val := by simp [dOf, hEt]
  rcases digitsOk_cellAt E hD t w hEt with ⟨hw1, -⟩
  rcases (dExtB_iff E l).mp hext p hp with h1 | h1
  · omega
  · rcases isFull_cellAt E hF p hp with ⟨wp, hEp⟩
    have hdp : dOf E p = wp.val := by simp [dOf, hEp]
    have hconf := (validB_iff E).mp hV p hp t ht hne hu
    rw [hEp, hEt] at hconf
    simp only [cellsConflict] at hconf
    rw [beq_eq_false_iff_ne] at hconf
    omega

theorem extend_mem_cand (E : Sudoku) (l : List Nat) (hF : isFull E = true)
    (hV : validB E = true) (hD : digitsOk E = true) (hl : l.length = 81)
    (hext : dExtB E l = true) (t : Nat) (ht : t < 81) (h0 : dget l t = 0) :
    dOf E t ∈ candList l t ∧ dExtB E (l.set t (dOf E t)) = true := by
  rcases isFull_cellAt E hF t ht with ⟨w, hEt⟩
  have hdt : dOf E t = w.val := by simp [dOf, hEt]
  rcases digitsOk_cellAt E hD t w hEt with ⟨hw1, hw9⟩
  constructor
  · unfold candList
    rw [List.mem_filter]
    exact ⟨List.mem_range'_1.mpr (by omega), hasCand_dOf E l hF hV hD hext t ht⟩
  · rw [dExtB_iff]
    intro i hi
    by_cases hit : i = t
    · subst hit
      rw [dget_set_self l i (dOf E i) (by omega)]
      exact Or.inr rfl
    · rw [dget_set_ne l t i _ (fun hh => hit hh.symm)]
      exact (dExtB_iff E l).mp hext i hi

/-- A forced cell (single candidate) must hold that candidate in any full
valid extension. -/
theorem nakedStepTo (E : Sudoku) (l l2 : List Nat) (hF : isFull E = true)
    (hV : validB E = true) (hD : digitsOk E = true) (hl : l.length = 81)
    (hext : dExtB E l = true) (t d0 : Nat) (ht : t < 81) (h0 : dget l t = 0)
    (hcand : candList l t = [d0]) (hl2 : l2 = l.set t d0) : dExtB E l2 = true := by
  rcases extend_mem_cand E l hF hV hD hl hext t ht h0 with ⟨hmem, hset⟩
  rw [hcand] at hmem
  simp only [List.mem_singleton] at hmem
  rw [hl2, ← hmem]
  exact hset

/-- A cell with no candidates rules out any full valid extension. -/
theorem contraStep (E : Sudoku) (l : List Nat) (hF : isFull E = true)
    (hV : validB E = true) (hD : digitsOk E = true) (hl : l.length = 81)
    (hext : dExtB E l = true) (t : Nat) (ht : t < 81) (h0 : dget l t = 0)
    (hcand : candList l t = []) : False := by
  have hmem := (extend_mem_cand E l hF hV hD hl hext t ht h0).1
  rw [hcand] at hmem
  simp at hmem

/-- Case split: the extension's digit at an empty cell is one of its
candidates. -/
theorem branchStep (E : Sudoku) (l : List Nat) (hF : isFull E = true)
    (hV : validB E = true) (hD : digitsOk E = true) (hl : l.length = 81)
    (hext : dExtB E l = true) (t : Nat) (ht : t < 81) (h0 : dget l t = 0)
    (ds : List Nat) (hcand : candList l t = ds) :
    ∃ d ∈ ds, dExtB E (l.set t d) = true := by
  rcases extend_mem_cand E l hF hV hD hl hext t ht h0 with ⟨hmem, hset⟩
  rw [hcand] at hmem
  exact ⟨dOf E t, hmem, hset⟩

/-- In a full valid grid with digits 1-9, the digits of each unit are a
permutation of `1..9`. -/
theorem unit_digits_perm (E : Sudoku) (hF : isFull E = true) (hV : validB E = true)
    (hD : digitsOk E = true) (u : List Nat) (hu : u ∈ allUnits) :
    (u.map fun p => dOf E p).Perm (List.range' 1 9) := by
  rcases allUnits_wf u hu with ⟨hlen, hnd, hbound, hpair⟩
  have hnodup : (u.map fun p => dOf E p).Nodup := by
    unfold List.Nodup
    rw [List.pairwise_map]
    refine List.Pairwise.imp_of_mem ?_ hnd
    intro p q hp hq hne
    rcases isFull_cellAt E hF p (hbound p hp) with ⟨wp, hp2⟩
    rcases isFull_cellAt E hF q (hbound q hq) with ⟨wq, hq2⟩
    have hconf := (validB_iff E).mp hV p (hbound p hp) q (hbound q hq) hne
      (hpair p hp q hq hne)
    rw [hp2, hq2] at hconf
    simp only [cellsConflict] at hconf
    rw [beq_eq_false_iff_ne] at hconf
    simp only [dOf, hp2, hq2, ne_eq]
    exact hconf
  have hsub : (u.map fun p => dOf E p) ⊆ List.range' 1 9 := by
    intro d hd
    rcases List.mem_map.mp hd with ⟨p, hp, rfl⟩
    rcases isFull_cellAt E hF p (hbound p hp) with ⟨wp, hp2⟩
    rcases digitsOk_cellAt E hD p wp hp2 with ⟨h1, h9⟩
    rw [List.mem_range'_1]
    simp only [dOf, hp2]
    omega
  have hsubperm := List.subperm_of_subset hnodup hsub
  exact hsubperm.perm_of_length_le (by simp [hlen])

/-- Hidden single: if a digit has exactly one possible place in a unit, any
full valid extension holds it there. -/
theorem hiddenStepTo (E : Sudoku) (l l2 : List Nat) (hF : isFull E = true)
    (hV : validB E = true) (hD : digitsOk E = true) (hl : l.length = 81)
    (hext : dExtB E l = true) (u : List Nat) (hu : u ∈ allUnits) (d : Nat)
    (hd1 : 1 ≤ d) (hd9 : d ≤ 9)
    (hnotin : u.all (fun p => !(dget l p == d)) = true)
    (t : Nat) (hplaces : placesList l u d = [t]) (hl2 : l2 = l.set t d) :
    dExtB E l2 = true := by
  rcases allUnits_wf u hu with ⟨hlen, hnd, hbound, hpair⟩
  have hperm := unit_digits_perm E hF hV hD u hu
  have hdmem : d ∈ u.map fun p => dOf E p :=
    (hperm.mem_iff).mpr (List.mem_range'_1.mpr ⟨hd1, by omega⟩)
  rcases List.mem_map.mp hdmem with ⟨p, hp, hdp⟩
  have hp81 := hbound p hp
  have hlp : dget l p = 0 := by
    rcases (dExtB_iff E l).mp hext p hp81 with h1 | h1
    · exact h1
    · rw [List.all_eq_true] at hnotin
      have hnp := hnotin p hp
      simp only [Bool.not_eq_true', beq_eq_false_iff_ne, ne_eq] at hnp
      omega
  have hpin : p ∈ placesList l u d := by
    unfold placesList
    rw [List.mem_filter]
    refine ⟨hp, ?_⟩
    rw [Bool.and_eq_true]
    refine ⟨by simp [hlp], ?_⟩
    rw [← hdp]
    exact hasCand_dOf E l hF hV hD hext p hp81
  rw [hplaces] at hpin
  simp only [List.mem_singleton] at hpin
  subst hpin
  rw [hl2, ← hdp]
  exact (extend_mem_cand E l hF hV hD hl hext p hp81 hlp).2

theorem zip_all_cellEq_iff : ∀ (xs ys : List (Option SudokuNum)),
    xs.length = ys.length →
    (((xs.zip ys).all fun p => cellEq p.1 p.2) = true ↔
      ∀ i, i < xs.length → cellEq (cellAt xs i) (cellAt ys i) = true) := by
  intro xs
  induction xs with
  | nil => intro ys h; simp
  | cons x xs ih =>
    intro ys h
    cases ys with
    | nil => simp at h
    | cons y ys =>
      have hlen : xs.length = ys.length := by simpa using h
      simp only [List.zip_cons_cons, List.all_cons, Bool.and_eq_true, ih ys hlen]
      constructor
      · rintro ⟨h0, hrest⟩ i hi
        cases i with
        | zero => exact h0
        | succ i =>
          simp only [cellAt, List.getD_cons_succ]
          exact hrest i (by simpa using Nat.lt_of_succ_lt_succ hi)
      · intro hall
        refine ⟨hall 0 (by simp), ?_⟩
        intro i hi
        have := hall (i + 1) (by simpa using Nat.succ_lt_succ hi)
        simpa [cellAt] using this

theorem sudokuEq_iff (a b : Sudoku) : sudokuEq a b = true ↔
    ∀ i, i < 81 → cellEq (cellAt a.xs i) (cellAt b.xs i) = true := by
  unfold sudokuEq
  rw [zip_all_cellEq_iff a.xs b.xs (by rw [a.len_eq, b.len_eq]), a.len_eq]

/-- When the certified digit list is complete, the extension equals (in the
program's digit-only equality) any grid with those digits. -/
theorem dExt_final (E : Sudoku) (l : List Nat) (hF : isFull E = true)
    (hext : dExtB E l = true) (S : Sudoku)
    (hS : ∀ i, i < 81 → (cellAt S.xs i).isSome = true ∧ dOf S i = dget l i)
    (hnz : ∀ i, i < 81 → dget l i ≠ 0) : sudokuEq E S = true := by
  rw [sudokuEq_iff]
  intro i hi
  rcases isFull_cellAt E hF i hi with ⟨w, hw⟩
  rcases hS i hi with ⟨hSsome, hSd⟩
  cases hb : cellAt S.xs i with
  | none => rw [hb] at hSsome; simp at hSsome
  | some v =>
    rw [hw]
    simp only [cellEq, snEq, beq_iff_eq]
    have h1 : dOf E i = dget l i := by
      rcases (dExtB_iff E l).mp hext i hi with h | h
      · exact absurd h (hnz i hi)
      · exact h
    have h2 : dOf E i = w.val := by simp [dOf, hw]
    have h3 : dOf S i = v.val := by simp [dOf, hb]
    omega


/-- Hidden contradiction: a digit with no possible place left in a unit rules
out any full valid extension. -/
theorem hiddenContra (E : Sudoku) (l : List Nat) (hF : isFull E = true)
    (hV : validB E = true) (hD : digitsOk E = true) (hl : l.length = 81)
    (hext : dExtB E l = true) (u : List Nat) (hu : u ∈ allUnits) (d : Nat)
    (hd1 : 1 ≤ d) (hd9 : d ≤ 9)
    (hnotin : u.all (fun p => !(dget l p == d)) = true)
    (hplaces : placesList l u d = []) : False := by
  rcases allUnits_wf u hu with ⟨hlen, hnd, hbound, hpair⟩
  have hperm := unit_digits_perm E hF hV hD u hu
  have hdmem : d ∈ u.map fun p => dOf E p :=
    (hperm.mem_iff).mpr (List.mem_range'_1.mpr ⟨hd1, by omega⟩)
  rcases List.mem_map.mp hdmem with ⟨p, hp, hdp⟩
  have hp81 := hbound p hp
  have hlp : dget l p = 0 := by
    rcases (dExtB_iff E l).mp hext p hp81 with h1 | h1
    · exact h1
    · rw [List.all_eq_true] at hnotin
      have hnp := hnotin p hp
      simp only [Bool.not_eq_true', beq_eq_false_iff_ne, ne_eq] at hnp
      omega
  have hpin : p ∈ placesList l u d := by
    unfold placesList
    rw [List.mem_filter]
    refine ⟨hp, ?_⟩
    rw [Bool.and_eq_true]
    refine ⟨by simp [hlp], ?_⟩
    rw [← hdp]
    exact hasCand_dOf E l hF hV hD hext p hp81
  rw [hplaces] at hpin
  simp at hpin

set_option maxHeartbeats 4000000 in
set_option maxRecDepth 8000 in
/-- Uniqueness of the solution of the test puzzle: any full, valid grid with
digits 1-9 extending the test grid equals (digit-wise) the reference solution.
Certified by replaying forced deductions (naked and hidden singles) and three
case splits whose dead branches end in a cell or unit with no candidate. -/
theorem unique_solution (E : Sudoku) (hF : isFull E = true) (hV : validB E = true)
    (hD : digitsOk E = true) (hext : dExtB E (digitsOfGrid testGrid) = true) :
    sudokuEq E solvedGrid = true := by
  have h0 : dExtB E [0, 0, 0, 0, 0, 0, 0, 9, 0, 0, 9, 0, 7, 0, 0, 2, 1, 0, 0, 0, 4, 0, 9, 0, 0, 0, 0, 0, 1, 0, 0, 0, 8, 0, 0, 0, 7, 0, 0, 4, 2, 0, 0, 0, 5, 0, 0, 8, 0, 0, 0, 0, 7, 4, 8, 0, 1, 0, 0, 0, 0, 4, 0, 0, 0, 0, 0, 0, 0, 0, 0, 0, 0, 0, 9, 6, 1, 3, 0, 0, 0] = true := by
    rw [show ([0, 0, 0, 0, 0, 0, 0, 9, 0, 0, 9, 0, 7, 0, 0, 2, 1, 0, 0, 0, 4, 0, 9, 0, 0, 0, 0, 0, 1, 0, 0, 0, 8, 0, 0, 0, 7, 0, 0, 4, 2, 0, 0, 0, 5, 0, 0, 8, 0, 0, 0, 0, 7, 4, 8, 0, 1, 0, 0, 0, 0, 4, 0, 0, 0, 0, 0, 0, 0, 0, 0, 0, 0, 0, 9, 6, 1, 3, 0, 0, 0] : List Nat) = digitsOfGrid testGrid from by decide!]
    exact hext
  have h1 : dExtB E [0, 0, 0, 0, 0, 0, 0, 9, 0, 0, 9, 0, 7, 0, 0, 2, 1, 0, 0, 0, 4, 0, 9, 0, 0, 0, 0, 4, 1, 0, 0, 0, 8, 0, 0, 0, 7, 0, 0, 4, 2, 0, 0, 0, 5, 0, 0, 8, 0, 0, 0, 0, 7, 4, 8, 0, 1, 0, 0, 0, 0, 4, 0, 0, 0, 0, 0, 0, 0, 0, 0, 0, 0, 0, 9, 6, 1, 3, 0, 0, 0] = true :=
    hiddenStepTo E [0, 0, 0, 0, 0, 0, 0, 9, 0, 0, 9, 0, 7, 0, 0, 2, 1, 0, 0, 0, 4, 0, 9, 0, 0, 0, 0, 0, 1, 0, 0, 0, 8, 0, 0, 0, 7, 0, 0, 4, 2, 0, 0, 0, 5, 0, 0, 8, 0, 0, 0, 0, 7, 4, 8, 0, 1, 0, 0, 0, 0, 4, 0, 0, 0, 0, 0, 0, 0, 0, 0, 0, 0, 0, 9, 6, 1, 3, 0, 0, 0] [0, 0, 0, 0, 0, 0, 0, 9, 0, 0, 9, 0, 7, 0, 0, 2, 1, 0, 0, 0, 4, 0, 9, 0, 0, 0, 0, 4, 1, 0, 0, 0, 8, 0, 0, 0, 7, 0, 0, 4, 2, 0, 0, 0, 5, 0, 0, 8, 0, 0, 0, 0, 7, 4, 8, 0, 1, 0, 0, 0, 0, 4, 0, 0, 0, 0, 0, 0, 0, 0, 0, 0, 0, 0, 9, 6, 1, 3, 0, 0, 0] hF hV hD (by decide!) h0 [27, 28, 29, 30, 31, 32, 33, 34, 35] (by decide!) 4 (by decide) (by decide) (by decide!) 27 (by decide!) (by decide!)
  have h2 : dExtB E [0, 0, 0, 0, 0, 0, 0, 9, 0, 0, 9, 0, 7, 0, 0, 2, 1, 0, 0, 0, 4, 0, 9, 0, 0, 0, 0, 4, 1, 0, 0, 7, 8, 0, 0, 0, 7, 0, 0, 4, 2, 0, 0, 0, 5, 0, 0, 8, 0, 0, 0, 0, 7, 4, 8, 0, 1, 0, 0, 0, 0, 4, 0, 0, 0, 0, 0, 0, 0, 0, 0, 0, 0, 0, 9, 6, 1, 3, 0, 0, 0] = true :=
    hiddenStepTo E [0, 0, 0, 0, 0, 0, 0, 9, 0, 0, 9, 0, 7, 0, 0, 2, 1, 0, 0, 0, 4, 0, 9, 0, 0, 0, 0, 4, 1, 0, 0, 0, 8, 0, 0, 0, 7, 0, 0, 4, 2, 0, 0, 0, 5, 0, 0, 8, 0, 0, 0, 0, 7, 4, 8, 0, 1, 0, 0, 0, 0, 4, 0, 0, 0, 0, 0, 0, 0, 0, 0, 0, 0, 0, 9, 6, 1, 3, 0, 0, 0] [0, 0, 0, 0, 0, 0, 0, 9, 0, 0, 9, 0, 7, 0, 0, 2, 1, 0, 0, 0, 4, 0, 9, 0, 0, 0, 0, 4, 1, 0, 0, 7, 8, 0, 0, 0, 7, 0, 0, 4, 2, 0, 0, 0, 5, 0, 0, 8, 0, 0, 0, 0, 7, 4, 8, 0, 1, 0, 0, 0, 0, 4, 0, 0, 0, 0, 0, 0, 0, 0, 0, 0, 0, 0, 9, 6, 1, 3, 0, 0, 0] hF hV hD (by decide!) h1 [27, 28, 29, 30, 31, 32, 33, 34, 35] (by decide!) 7 (by decide) (by decide) (by decide!) 31 (by decide!) (by decide!)
  have h3 : dExtB E [0, 0, 0, 0, 0, 0, 0, 9, 0, 0, 9, 0, 7, 0, 0, 2, 1, 0, 0, 0, 4, 0, 9, 0, 0, 0, 0, 4, 1, 0, 0, 7, 8, 0, 0, 0, 7, 0, 0, 4, 2, 0, 0, 0, 5, 0, 0, 8, 0, 0, 0, 0, 7, 4, 8, 0, 1, 0, 0, 0, 0, 4, 0, 0, 0, 0, 0, 0, 0, 0, 0, 0, 0, 4, 9, 6, 1, 3, 0, 0, 0] = true :=
    hiddenStepTo E [0, 0, 0, 0, 0, 0, 0, 9, 0, 0, 9, 0, 7, 0, 0, 2, 1, 0, 0, 0, 4, 0, 9, 0, 0, 0, 0, 4, 1, 0, 0, 7, 8, 0, 0, 0, 7, 0, 0, 4, 2, 0, 0, 0, 5, 0, 0, 8, 0, 0, 0, 0, 7, 4, 8, 0, 1, 0, 0, 0, 0, 4, 0, 0, 0, 0, 0, 0, 0, 0, 0, 0, 0, 0, 9, 6, 1, 3, 0, 0, 0] [0, 0, 0, 0, 0, 0, 0, 9, 0, 0, 9, 0, 7, 0, 0, 2, 1, 0, 0, 0, 4, 0, 9, 0, 0, 0, 0, 4, 1, 0, 0, 7, 8, 0, 0, 0, 7, 0, 0, 4, 2, 0, 0, 0, 5, 0, 0, 8, 0, 0, 0, 0, 7, 4, 8, 0, 1, 0, 0, 0, 0, 4, 0, 0, 0, 0, 0, 0, 0, 0, 0, 0, 0, 4, 9, 6, 1, 3, 0, 0, 0] hF hV hD (by decide!) h2 [72, 73, 74, 75, 76, 77, 78, 79, 80] (by decide!) 4 (by decide) (by decide) (by decide!) 73 (by decide!) (by decide!)
  have h4 : dExtB E [0, 0, 0, 0, 0, 0, 0, 9, 0, 0, 9, 0, 7, 0, 0, 2, 1, 0, 0, 0, 4, 0, 9, 0, 0, 0, 0, 4, 1, 0, 0, 7, 8, 0, 0, 0, 7, 0, 0, 4, 2, 0, 0, 0, 5, 9, 0, 8, 0, 0, 0, 0, 7, 4, 8, 0, 1, 0, 0, 0, 0, 4, 0, 0, 0, 0, 0, 0, 0, 0, 0, 0, 0, 4, 9, 6, 1, 3, 0, 0, 0] = true :=
    hiddenStepTo E [0, 0, 0, 0, 0, 0, 0, 9, 0, 0, 9, 0, 7, 0, 0, 2, 1, 0, 0, 0, 4, 0, 9, 0, 0, 0, 0, 4, 1, 0, 0, 7, 8, 0, 0, 0, 7, 0, 0, 4, 2, 0, 0, 0, 5, 0, 0, 8, 0, 0, 0, 0, 7, 4, 8, 0, 1, 0, 0, 0, 0, 4, 0, 0, 0, 0, 0, 0, 0, 0, 0, 0, 0, 4, 9, 6, 1, 3, 0, 0, 0] [0, 0, 0, 0, 0, 0, 0, 9, 0, 0, 9, 0, 7, 0, 0, 2, 1, 0, 0, 0, 4, 0, 9, 0, 0, 0, 0, 4, 1, 0, 0, 7, 8, 0, 0, 0, 7, 0, 0, 4, 2, 0, 0, 0, 5, 9, 0, 8, 0, 0, 0, 0, 7, 4, 8, 0, 1, 0, 0, 0, 0, 4, 0, 0, 0, 0, 0, 0, 0, 0, 0, 0, 0, 4, 9, 6, 1, 3, 0, 0, 0] hF hV hD (by decide!) h3 [0, 9, 18, 27, 36, 45, 54, 63, 72] (by decide!) 9 (by decide) (by decide) (by decide!) 45 (by decide!) (by decide!)
  have h5 : dExtB E [0, 0, 0, 0, 0, 0, 4, 9, 0, 0, 9, 0, 7, 0, 0, 2, 1, 0, 0, 0, 4, 0, 9, 0, 0, 0, 0, 4, 1, 0, 0, 7, 8, 0, 0, 0, 7, 0, 0, 4, 2, 0, 0, 0, 5, 9, 0, 8, 0, 0, 0, 0, 7, 4, 8, 0, 1, 0, 0, 0, 0, 4, 0, 0, 0, 0, 0, 0, 0, 0, 0, 0, 0, 4, 9, 6, 1, 3, 0, 0, 0] = true :=
    hiddenStepTo E [0, 0, 0, 0, 0, 0, 0, 9, 0, 0, 9, 0, 7, 0, 0, 2, 1, 0, 0, 0, 4, 0, 9, 0, 0, 0, 0, 4, 1, 0, 0, 7, 8, 0, 0, 0, 7, 0, 0, 4, 2, 0, 0, 0, 5, 9, 0, 8, 0, 0, 0, 0, 7, 4, 8, 0, 1, 0, 0, 0, 0, 4, 0, 0, 0, 0, 0, 0, 0, 0, 0, 0, 0, 4, 9, 6, 1, 3, 0, 0, 0] [0, 0, 0, 0, 0, 0, 4, 9, 0, 0, 9, 0, 7, 0, 0, 2, 1, 0, 0, 0, 4, 0, 9, 0, 0, 0, 0, 4, 1, 0, 0, 7, 8, 0, 0, 0, 7, 0, 0, 4, 2, 0, 0, 0, 5, 9, 0, 8, 0, 0, 0, 0, 7, 4, 8, 0, 1, 0, 0, 0, 0, 4, 0, 0, 0, 0, 0, 0, 0, 0, 0, 0, 0, 4, 9, 6, 1, 3, 0, 0, 0] hF hV hD (by decide!) h4 [6, 15, 24, 33, 42, 51, 60, 69, 78] (by decide!) 4 (by decide) (by decide) (by decide!) 6 (by decide!) (by decide!)
  have h6 : dExtB E [0, 0, 0, 0, 0, 0, 4, 9, 0, 0, 9, 0, 7, 0, 0, 2, 1, 0, 0, 0, 4, 0, 9, 0, 0, 0, 0, 4, 1, 0, 0, 7, 8, 0, 0, 0, 7, 0, 0, 4, 2, 0, 0, 0, 5, 9, 0, 8, 0, 0, 0, 0, 7, 4, 8, 0, 1, 0, 0, 0, 0, 4, 0, 0, 0, 0, 0, 0, 0, 0, 0, 1, 0, 4, 9, 6, 1, 3, 0, 0, 0] = true :=
    hiddenStepTo E [0, 0, 0, 0, 0, 0, 4, 9, 0, 0, 9, 0, 7, 0, 0, 2, 1, 0, 0, 0, 4, 0, 9, 0, 0, 0, 0, 4, 1, 0, 0, 7, 8, 0, 0, 0, 7, 0, 0, 4, 2, 0, 0, 0, 5, 9, 0, 8, 0, 0, 0, 0, 7, 4, 8, 0, 1, 0, 0, 0, 0, 4, 0, 0, 0, 0, 0, 0, 0, 0, 0, 0, 0, 4, 9, 6, 1, 3, 0, 0, 0] [0, 0, 0, 0, 0, 0, 4, 9, 0, 0, 9, 0, 7, 0, 0, 2, 1, 0, 0, 0, 4, 0, 9, 0, 0, 0, 0, 4, 1, 0, 0, 7, 8, 0, 0, 0, 7, 0, 0, 4, 2, 0, 0, 0, 5, 9, 0, 8, 0, 0, 0, 0, 7, 4, 8, 0, 1, 0, 0, 0, 0, 4, 0, 0, 0, 0, 0, 0, 0, 0, 0, 1, 0, 4, 9, 6, 1, 3, 0, 0, 0] hF hV hD (by decide!) h5 [8, 17, 26, 35, 44, 53, 62, 71, 80] (by decide!) 1 (by decide) (by decide) (by decide!) 71 (by decide!) (by decide!)
  have h7 : dExtB E [0, 0, 0, 0, 0, 0, 4, 9, 0, 0, 9, 0, 7, 0, 0, 2, 1, 0, 0, 0, 4, 0, 9, 0, 0, 0, 0, 4, 1, 0, 0, 7, 8, 0, 0, 0, 7, 0, 0, 4, 2, 0, 0, 0, 5, 9, 0, 8, 0, 0, 0, 0, 7, 4, 8, 0, 1, 0, 5, 0, 0, 4, 0, 0, 0, 0, 0, 0, 0, 0, 0, 1, 0, 4, 9, 6, 1, 3, 0, 0, 0] = true :=
    nakedStepTo E [0, 0, 0, 0, 0, 0, 4, 9, 0, 0, 9, 0, 7, 0, 0, 2, 1, 0, 0, 0, 4, 0, 9, 0, 0, 0, 0, 4, 1, 0, 0, 7, 8, 0, 0, 0, 7, 0, 0, 4, 2, 0, 0, 0, 5, 9, 0, 8, 0, 0, 0, 0, 7, 4, 8, 0, 1, 0, 0, 0, 0, 4, 0, 0, 0, 0, 0, 0, 0, 0, 0, 1, 0, 4, 9, 6, 1, 3, 0, 0, 0] [0, 0, 0, 0, 0, 0, 4, 9, 0, 0, 9, 0, 7, 0, 0, 2, 1, 0, 0, 0, 4, 0, 9, 0, 0, 0, 0, 4, 1, 0, 0, 7, 8, 0, 0, 0, 7, 0, 0, 4, 2, 0, 0, 0, 5, 9, 0, 8, 0, 0, 0, 0, 7, 4, 8, 0, 1, 0, 5, 0, 0, 4, 0, 0, 0, 0, 0, 0, 0, 0, 0, 1, 0, 4, 9, 6, 1, 3, 0, 0, 0] hF hV hD (by decide!) h6 58 5 (by decide) (by decide!) (by decide!) (by decide!)
  have h8 : dExtB E [0, 0, 0, 0, 0, 0, 4, 9, 0, 0, 9, 0, 7, 0, 0, 2, 1, 0, 0, 0, 4, 0, 9, 0, 0, 0, 0, 4, 1, 0, 0, 7, 8, 0, 0, 0, 7, 0, 0, 4, 2, 0, 0, 0, 5, 9, 2, 8, 0, 0, 0, 0, 7, 4, 8, 0, 1, 0, 5, 0, 0, 4, 0, 0, 0, 0, 0, 0, 0, 0, 0, 1, 0, 4, 9, 6, 1, 3, 0, 0, 0] = true :=
    hiddenStepTo E [0, 0, 0, 0, 0, 0, 4, 9, 0, 0, 9, 0, 7, 0, 0, 2, 1, 0, 0, 0, 4, 0, 9, 0, 0, 0, 0, 4, 1, 0, 0, 7, 8, 0, 0, 0, 7, 0, 0, 4, 2, 0, 0, 0, 5, 9, 0, 8, 0, 0, 0, 0, 7, 4, 8, 0, 1, 0, 5, 0, 0, 4, 0, 0, 0, 0, 0, 0, 0, 0, 0, 1, 0, 4, 9, 6, 1, 3, 0, 0, 0] [0, 0, 0, 0, 0, 0, 4, 9, 0, 0, 9, 0, 7, 0, 0, 2, 1, 0, 0, 0, 4, 0, 9, 0, 0, 0, 0, 4, 1, 0, 0, 7, 8, 0, 0, 0, 7, 0, 0, 4, 2, 0, 0, 0, 5, 9, 2, 8, 0, 0, 0, 0, 7, 4, 8, 0, 1, 0, 5, 0, 0, 4, 0, 0, 0, 0, 0, 0, 0, 0, 0, 1, 0, 4, 9, 6, 1, 3, 0, 0, 0] hF hV hD (by decide!) h7 [45, 46, 47, 48, 49, 50, 51, 52, 53] (by decide!) 2 (by decide) (by decide) (by decide!) 46 (by decide!) (by decide!)
  have h9 : dExtB E [0, 0, 0, 0, 0, 0, 4, 9, 0, 0, 9, 0, 7, 0, 0, 2, 1, 0, 0, 0, 4, 0, 9, 0, 0, 0, 0, 4, 1, 5, 0, 7, 8, 0, 0, 0, 7, 0, 0, 4, 2, 0, 0, 0, 5, 9, 2, 8, 0, 0, 0, 0, 7, 4, 8, 0, 1, 0, 5, 0, 0, 4, 0, 0, 0, 0, 0, 0, 0, 0, 0, 1, 0, 4, 9, 6, 1, 3, 0, 0, 0] = true :=
    hiddenStepTo E [0, 0, 0, 0, 0, 0, 4, 9, 0, 0, 9, 0, 7, 0, 0, 2, 1, 0, 0, 0, 4, 0, 9, 0, 0, 0, 0, 4, 1, 0, 0, 7, 8, 0, 0, 0, 7, 0, 0, 4, 2, 0, 0, 0, 5, 9, 2, 8, 0, 0, 0, 0, 7, 4, 8, 0, 1, 0, 5, 0, 0, 4, 0, 0, 0, 0, 0, 0, 0, 0, 0, 1, 0, 4, 9, 6, 1, 3, 0, 0, 0] [0, 0, 0, 0, 0, 0, 4, 9, 0, 0, 9, 0, 7, 0, 0, 2, 1, 0, 0, 0, 4, 0, 9, 0, 0, 0, 0, 4, 1, 5, 0, 7, 8, 0, 0, 0, 7, 0, 0, 4, 2, 0, 0, 0, 5, 9, 2, 8, 0, 0, 0, 0, 7, 4, 8, 0, 1, 0, 5, 0, 0, 4, 0, 0, 0, 0, 0, 0, 0, 0, 0, 1, 0, 4, 9, 6, 1, 3, 0, 0, 0] hF hV hD (by decide!) h8 [27, 28, 29, 36, 37, 38, 45, 46, 47] (by decide!) 5 (by decide) (by decide) (by decide!) 29 (by decide!) (by decide!)
  rcases branchStep E [0, 0, 0, 0, 0, 0, 4, 9, 0, 0, 9, 0, 7, 0, 0, 2, 1, 0, 0, 0, 4, 0, 9, 0, 0, 0, 0, 4, 1, 5, 0, 7, 8, 0, 0, 0, 7, 0, 0, 4, 2, 0, 0, 0, 5, 9, 2, 8, 0, 0, 0, 0, 7, 4, 8, 0, 1, 0, 5, 0, 0, 4, 0, 0, 0, 0, 0, 0, 0, 0, 0, 1, 0, 4, 9, 6, 1, 3, 0, 0, 0] hF hV hD (by decide!) h9 11 (by decide) (by decide!) [3, 6] (by decide!) with ⟨d10, hm10, he10⟩
  simp only [List.mem_cons, List.not_mem_nil, or_false] at hm10
  rcases hm10 with rfl | rfl
  · have h11 : dExtB E [0, 0, 0, 0, 0, 0, 4, 9, 0, 0, 9, 3, 7, 0, 0, 2, 1, 0, 0, 0, 4, 0, 9, 0, 0, 0, 0, 4, 1, 5, 0, 7, 8, 0, 0, 0, 7, 0, 0, 4, 2, 0, 0, 0, 5, 9, 2, 8, 0, 0, 0, 0, 7, 4, 8, 0, 1, 0, 5, 0, 0, 4, 0, 0, 0, 0, 0, 0, 0, 0, 0, 1, 0, 4, 9, 6, 1, 3, 0, 0, 0] = true := by
      rw [show [0, 0, 0, 0, 0, 0, 4, 9, 0, 0, 9, 3, 7, 0, 0, 2, 1, 0, 0, 0, 4, 0, 9, 0, 0, 0, 0, 4, 1, 5, 0, 7, 8, 0, 0, 0, 7, 0, 0, 4, 2, 0, 0, 0, 5, 9, 2, 8, 0, 0, 0, 0, 7, 4, 8, 0, 1, 0, 5, 0, 0, 4, 0, 0, 0, 0, 0, 0, 0, 0, 0, 1, 0, 4, 9, 6, 1, 3, 0, 0, 0] = List.set [0, 0, 0, 0, 0, 0, 4, 9, 0, 0, 9, 0, 7, 0, 0, 2, 1, 0, 0, 0, 4, 0, 9, 0, 0, 0, 0, 4, 1, 5, 0, 7, 8, 0, 0, 0, 7, 0, 0, 4, 2, 0, 0, 0, 5, 9, 2, 8, 0, 0, 0, 0, 7, 4, 8, 0, 1, 0, 5, 0, 0, 4, 0, 0, 0, 0, 0, 0, 0, 0, 0, 1, 0, 4, 9, 6, 1, 3, 0, 0, 0] 11 3 from by decide!]
      exact he10
    have h12 : dExtB E [0, 0, 0, 0, 0, 0, 4, 9, 0, 0, 9, 3, 7, 0, 0, 2, 1, 0, 0, 0, 4, 0, 9, 0, 0, 0, 0, 4, 1, 5, 0, 7, 8, 0, 0, 0, 7, 0, 6, 4, 2, 0, 0, 0, 5, 9, 2, 8, 0, 0, 0, 0, 7, 4, 8, 0, 1, 0, 5, 0, 0, 4, 0, 0, 0, 0, 0, 0, 0, 0, 0, 1, 0, 4, 9, 6, 1, 3, 0, 0, 0] = true :=
      nakedStepTo E [0, 0, 0, 0, 0, 0, 4, 9, 0, 0, 9, 3, 7, 0, 0, 2, 1, 0, 0, 0, 4, 0, 9, 0, 0, 0, 0, 4, 1, 5, 0, 7, 8, 0, 0, 0, 7, 0, 0, 4, 2, 0, 0, 0, 5, 9, 2, 8, 0, 0, 0, 0, 7, 4, 8, 0, 1, 0, 5, 0, 0, 4, 0, 0, 0, 0, 0, 0, 0, 0, 0, 1, 0, 4, 9, 6, 1, 3, 0, 0, 0] [0, 0, 0, 0, 0, 0, 4, 9, 0, 0, 9, 3, 7, 0, 0, 2, 1, 0, 0, 0, 4, 0, 9, 0, 0, 0, 0, 4, 1, 5, 0, 7, 8, 0, 0, 0, 7, 0, 6, 4, 2, 0, 0, 0, 5, 9, 2, 8, 0, 0, 0, 0, 7, 4, 8, 0, 1, 0, 5, 0, 0, 4, 0, 0, 0, 0, 0, 0, 0, 0, 0, 1, 0, 4, 9, 6, 1, 3, 0, 0, 0] hF hV hD (by decide!) h11 38 6 (by decide) (by decide!) (by decide!) (by decide!)
    have h13 : dExtB E [0, 0, 0, 0, 0, 0, 4, 9, 0, 0, 9, 3, 7, 0, 0, 2, 1, 0, 0, 0, 4, 0, 9, 0, 0, 0, 0, 4, 1, 5, 0, 7, 8, 0, 0, 0, 7, 3, 6, 4, 2, 0, 0, 0, 5, 9, 2, 8, 0, 0, 0, 0, 7, 4, 8, 0, 1, 0, 5, 0, 0, 4, 0, 0, 0, 0, 0, 0, 0, 0, 0, 1, 0, 4, 9, 6, 1, 3, 0, 0, 0] = true :=
      nakedStepTo E [0, 0, 0, 0, 0, 0, 4, 9, 0, 0, 9, 3, 7, 0, 0, 2, 1, 0, 0, 0, 4, 0, 9, 0, 0, 0, 0, 4, 1, 5, 0, 7, 8, 0, 0, 0, 7, 0, 6, 4, 2, 0, 0, 0, 5, 9, 2, 8, 0, 0, 0, 0, 7, 4, 8, 0, 1, 0, 5, 0, 0, 4, 0, 0, 0, 0, 0, 0, 0, 0, 0, 1, 0, 4, 9, 6, 1, 3, 0, 0, 0] [0, 0, 0, 0, 0, 0, 4, 9, 0, 0, 9, 3, 7, 0, 0, 2, 1, 0, 0, 0, 4, 0, 9, 0, 0, 0, 0, 4, 1, 5, 0, 7, 8, 0, 0, 0, 7, 3, 6, 4, 2, 0, 0, 0, 5, 9, 2, 8, 0, 0, 0, 0, 7, 4, 8, 0, 1, 0, 5, 0, 0, 4, 0, 0, 0, 0, 0, 0, 0, 0, 0, 1, 0, 4, 9, 6, 1, 3, 0, 0, 0] hF hV hD (by decide!) h12 37 3 (by decide) (by decide!) (by decide!) (by decide!)
    have h14 : dExtB E [0, 0, 0, 0, 0, 0, 4, 9, 0, 0, 9, 3, 7, 0, 0, 2, 1, 0, 0, 0, 4, 0, 9, 0, 0, 0, 0, 4, 1, 5, 0, 7, 8, 0, 0, 0, 7, 3, 6, 4, 2, 0, 0, 8, 5, 9, 2, 8, 0, 0, 0, 0, 7, 4, 8, 0, 1, 0, 5, 0, 0, 4, 0, 0, 0, 0, 0, 0, 0, 0, 0, 1, 0, 4, 9, 6, 1, 3, 0, 0, 0] = true :=
      nakedStepTo E [0, 0, 0, 0, 0, 0, 4, 9, 0, 0, 9, 3, 7, 0, 0, 2, 1, 0, 0, 0, 4, 0, 9, 0, 0, 0, 0, 4, 1, 5, 0, 7, 8, 0, 0, 0, 7, 3, 6, 4, 2, 0, 0, 0, 5, 9, 2, 8, 0, 0, 0, 0, 7, 4, 8, 0, 1, 0, 5, 0, 0, 4, 0, 0, 0, 0, 0, 0, 0, 0, 0, 1, 0, 4, 9, 6, 1, 3, 0, 0, 0] [0, 0, 0, 0, 0, 0, 4, 9, 0, 0, 9, 3, 7, 0, 0, 2, 1, 0, 0, 0, 4, 0, 9, 0, 0, 0, 0, 4, 1, 5, 0, 7, 8, 0, 0, 0, 7, 3, 6, 4, 2, 0, 0, 8, 5, 9, 2, 8, 0, 0, 0, 0, 7, 4, 8, 0, 1, 0, 5, 0, 0, 4, 0, 0, 0, 0, 0, 0, 0, 0, 0, 1, 0, 4, 9, 6, 1, 3, 0, 0, 0] hF hV hD (by decide!) h13 43 8 (by decide) (by decide!) (by decide!) (by decide!)
    have h15 : dExtB E [0, 0, 0, 0, 0, 0, 4, 9, 0, 0, 9, 3, 7, 0, 0, 2, 1, 0, 0, 0, 4, 0, 9, 0, 0, 0, 0, 4, 1, 5, 0, 7, 8, 0, 0, 0, 7, 3, 6, 4, 2, 0, 0, 8, 5, 9, 2, 8, 0, 0, 0, 0, 7, 4, 8, 0, 1, 0, 5, 0, 0, 4, 0, 3, 0, 0, 0, 0, 0, 0, 0, 1, 0, 4, 9, 6, 1, 3, 0, 0, 0] = true :=
      hiddenStepTo E [0, 0, 0, 0, 0, 0, 4, 9, 0, 0, 9, 3, 7, 0, 0, 2, 1, 0, 0, 0, 4, 0, 9, 0, 0, 0, 0, 4, 1, 5, 0, 7, 8, 0, 0, 0, 7, 3, 6, 4, 2, 0, 0, 8, 5, 9, 2, 8, 0, 0, 0, 0, 7, 4, 8, 0, 1, 0, 5, 0, 0, 4, 0, 0, 0, 0, 0, 0, 0, 0, 0, 1, 0, 4, 9, 6, 1, 3, 0, 0, 0] [0, 0, 0, 0, 0, 0, 4, 9, 0, 0, 9, 3, 7, 0, 0, 2, 1, 0, 0, 0, 4, 0, 9, 0, 0, 0, 0, 4, 1, 5, 0, 7, 8, 0, 0, 0, 7, 3, 6, 4, 2, 0, 0, 8, 5, 9, 2, 8, 0, 0, 0, 0, 7, 4, 8, 0, 1, 0, 5, 0, 0, 4, 0, 3, 0, 0, 0, 0, 0, 0, 0, 1, 0, 4, 9, 6, 1, 3, 0, 0, 0] hF hV hD (by decide!) h14 [0, 9, 18, 27, 36, 45, 54, 63, 72] (by decide!) 3 (by decide) (by decide) (by decide!) 63 (by decide!) (by decide!)
    rcases branchStep E [0, 0, 0, 0, 0, 0, 4, 9, 0, 0, 9, 3, 7, 0, 0, 2, 1, 0, 0, 0, 4, 0, 9, 0, 0, 0, 0, 4, 1, 5, 0, 7, 8, 0, 0, 0, 7, 3, 6, 4, 2, 0, 0, 8, 5, 9, 2, 8, 0, 0, 0, 0, 7, 4, 8, 0, 1, 0, 5, 0, 0, 4, 0, 3, 0, 0, 0, 0, 0, 0, 0, 1, 0, 4, 9, 6, 1, 3, 0, 0, 0] hF hV hD (by decide!) h15 2 (by decide) (by decide!) [2, 7] (by decide!) with ⟨d16, hm16, he16⟩
    simp only [List.mem_cons, List.not_mem_nil, or_false] at hm16
    rcases hm16 with rfl | rfl
    · have h17 : dExtB E [0, 0, 2, 0, 0, 0, 4, 9, 0, 0, 9, 3, 7, 0, 0, 2, 1, 0, 0, 0, 4, 0, 9, 0, 0, 0, 0, 4, 1, 5, 0, 7, 8, 0, 0, 0, 7, 3, 6, 4, 2, 0, 0, 8, 5, 9, 2, 8, 0, 0, 0, 0, 7, 4, 8, 0, 1, 0, 5, 0, 0, 4, 0, 3, 0, 0, 0, 0, 0, 0, 0, 1, 0, 4, 9, 6, 1, 3, 0, 0, 0] = true := by
        rw [show [0, 0, 2, 0, 0, 0, 4, 9, 0, 0, 9, 3, 7, 0, 0, 2, 1, 0, 0, 0, 4, 0, 9, 0, 0, 0, 0, 4, 1, 5, 0, 7, 8, 0, 0, 0, 7, 3, 6, 4, 2, 0, 0, 8, 5, 9, 2, 8, 0, 0, 0, 0, 7, 4, 8, 0, 1, 0, 5, 0, 0, 4, 0, 3, 0, 0, 0, 0, 0, 0, 0, 1, 0, 4, 9, 6, 1, 3, 0, 0, 0] = List.set [0, 0, 0, 0, 0, 0, 4, 9, 0, 0, 9, 3, 7, 0, 0, 2, 1, 0, 0, 0, 4, 0, 9, 0, 0, 0, 0, 4, 1, 5, 0, 7, 8, 0, 0, 0, 7, 3, 6, 4, 2, 0, 0, 8, 5, 9, 2, 8, 0, 0, 0, 0, 7, 4, 8, 0, 1, 0, 5, 0, 0, 4, 0, 3, 0, 0, 0, 0, 0, 0, 0, 1, 0, 4, 9, 6, 1, 3, 0, 0, 0] 2 2 from by decide!]
        exact he16
      have h18 : dExtB E [0, 0, 2, 0, 0, 0, 4, 9, 0, 0, 9, 3, 7, 0, 0, 2, 1, 0, 0, 0, 4, 0, 9, 0, 0, 0, 0, 4, 1, 5, 0, 7, 8, 0, 0, 0, 7, 3, 6, 4, 2, 0, 0, 8, 5, 9, 2, 8, 0, 0, 0, 0, 7, 4, 8, 0, 1, 0, 5, 0, 0, 4, 0, 3, 0, 7, 0, 0, 0, 0, 0, 1, 0, 4, 9, 6, 1, 3, 0, 0, 0] = true :=
        nakedStepTo E [0, 0, 2, 0, 0, 0, 4, 9, 0, 0, 9, 3, 7, 0, 0, 2, 1, 0, 0, 0, 4, 0, 9, 0, 0, 0, 0, 4, 1, 5, 0, 7, 8, 0, 0, 0, 7, 3, 6, 4, 2, 0, 0, 8, 5, 9, 2, 8, 0, 0, 0, 0, 7, 4, 8, 0, 1, 0, 5, 0, 0, 4, 0, 3, 0, 0, 0, 0, 0, 0, 0, 1, 0, 4, 9, 6, 1, 3, 0, 0, 0] [0, 0, 2, 0, 0, 0, 4, 9, 0, 0, 9, 3, 7, 0, 0, 2, 1, 0, 0, 0, 4, 0, 9, 0, 0, 0, 0, 4, 1, 5, 0, 7, 8, 0, 0, 0, 7, 3, 6, 4, 2, 0, 0, 8, 5, 9, 2, 8, 0, 0, 0, 0, 7, 4, 8, 0, 1, 0, 5, 0, 0, 4, 0, 3, 0, 7, 0, 0, 0, 0, 0, 1, 0, 4, 9, 6, 1, 3, 0, 0, 0] hF hV hD (by decide!) h17 65 7 (by decide) (by decide!) (by decide!) (by decide!)
      have h19 : dExtB E [0, 0, 2, 0, 0, 0, 4, 9, 0, 0, 9, 3, 7, 0, 0, 2, 1, 0, 0, 0, 4, 0, 9, 0, 0, 0, 0, 4, 1, 5, 0, 7, 8, 0, 0, 0, 7, 3, 6, 4, 2, 0, 0, 8, 5, 9, 2, 8, 0, 0, 0, 0, 7, 4, 8, 6, 1, 0, 5, 0, 0, 4, 0, 3, 0, 7, 0, 0, 0, 0, 0, 1, 0, 4, 9, 6, 1, 3, 0, 0, 0] = true :=
        nakedStepTo E [0, 0, 2, 0, 0, 0, 4, 9, 0, 0, 9, 3, 7, 0, 0, 2, 1, 0, 0, 0, 4, 0, 9, 0, 0, 0, 0, 4, 1, 5, 0, 7, 8, 0, 0, 0, 7, 3, 6, 4, 2, 0, 0, 8, 5, 9, 2, 8, 0, 0, 0, 0, 7, 4, 8, 0, 1, 0, 5, 0, 0, 4, 0, 3, 0, 7, 0, 0, 0, 0, 0, 1, 0, 4, 9, 6, 1, 3, 0, 0, 0] [0, 0, 2, 0, 0, 0, 4, 9, 0, 0, 9, 3, 7, 0, 0, 2, 1, 0, 0, 0, 4, 0, 9, 0, 0, 0, 0, 4, 1, 5, 0, 7, 8, 0, 0, 0, 7, 3, 6, 4, 2, 0, 0, 8, 5, 9, 2, 8, 0, 0, 0, 0, 7, 4, 8, 6, 1, 0, 5, 0, 0, 4, 0, 3, 0, 7, 0, 0, 0, 0, 0, 1, 0, 4, 9, 6, 1, 3, 0, 0, 0] hF hV hD (by decide!) h18 55 6 (by decide) (by decide!) (by decide!) (by decide!)
      have h20 : dExtB E [0, 0, 2, 0, 0, 0, 4, 9, 0, 0, 9, 3, 7, 0, 0, 2, 1, 0, 0, 0, 4, 0, 9, 0, 0, 0, 0, 4, 1, 5, 0, 7, 8, 0, 0, 0, 7, 3, 6, 4, 2, 0, 0, 8, 5, 9, 2, 8, 0, 0, 0, 0, 7, 4, 8, 6, 1, 0, 5, 0, 0, 4, 0, 3, 5, 7, 0, 0, 0, 0, 0, 1, 0, 4, 9, 6, 1, 3, 0, 0, 0] = true :=
        nakedStepTo E [0, 0, 2, 0, 0, 0, 4, 9, 0, 0, 9, 3, 7, 0, 0, 2, 1, 0, 0, 0, 4, 0, 9, 0, 0, 0, 0, 4, 1, 5, 0, 7, 8, 0, 0, 0, 7, 3, 6, 4, 2, 0, 0, 8, 5, 9, 2, 8, 0, 0, 0, 0, 7, 4, 8, 6, 1, 0, 5, 0, 0, 4, 0, 3, 0, 7, 0, 0, 0, 0, 0, 1, 0, 4, 9, 6, 1, 3, 0, 0, 0] [0, 0, 2, 0, 0, 0, 4, 9, 0, 0, 9, 3, 7, 0, 0, 2, 1, 0, 0, 0, 4, 0, 9, 0, 0, 0, 0, 4, 1, 5, 0, 7, 8, 0, 0, 0, 7, 3, 6, 4, 2, 0, 0, 8, 5, 9, 2, 8, 0, 0, 0, 0, 7, 4, 8, 6, 1, 0, 5, 0, 0, 4, 0, 3, 5, 7, 0, 0, 0, 0, 0, 1, 0, 4, 9, 6, 1, 3, 0, 0, 0] hF hV hD (by decide!) h19 64 5 (by decide) (by decide!) (by decide!) (by decide!)
      have h21 : dExtB E [0, 0, 2, 0, 0, 0, 4, 9, 0, 0, 9, 3, 7, 0, 0, 2, 1, 0, 0, 0, 4, 0, 9, 0, 0, 0, 0, 4, 1, 5, 0, 7, 8, 0, 0, 0, 7, 3, 6, 4, 2, 0, 0, 8, 5, 9, 2, 8, 0, 0, 0, 0, 7, 4, 8, 6, 1, 0, 5, 0, 0, 4, 0, 3, 5, 7, 0, 0, 0, 0, 0, 1, 2, 4, 9, 6, 1, 3, 0, 0, 0] = true :=
        nakedStepTo E [0, 0, 2, 0, 0, 0, 4, 9, 0, 0, 9, 3, 7, 0, 0, 2, 1, 0, 0, 0, 4, 0, 9, 0, 0, 0, 0, 4, 1, 5, 0, 7, 8, 0, 0, 0, 7, 3, 6, 4, 2, 0, 0, 8, 5, 9, 2, 8, 0, 0, 0, 0, 7, 4, 8, 6, 1, 0, 5, 0, 0, 4, 0, 3, 5, 7, 0, 0, 0, 0, 0, 1, 0, 4, 9, 6, 1, 3, 0, 0, 0] [0, 0, 2, 0, 0, 0, 4, 9, 0, 0, 9, 3, 7, 0, 0, 2, 1, 0, 0, 0, 4, 0, 9, 0, 0, 0, 0, 4, 1, 5, 0, 7, 8, 0, 0, 0, 7, 3, 6, 4, 2, 0, 0, 8, 5, 9, 2, 8, 0, 0, 0, 0, 7, 4, 8, 6, 1, 0, 5, 0, 0, 4, 0, 3, 5, 7, 0, 0, 0, 0, 0, 1, 2, 4, 9, 6, 1, 3, 0, 0, 0] hF hV hD (by decide!) h20 72 2 (by decide) (by decide!) (by decide!) (by decide!)
      have h22 : dExtB E [0, 0, 2, 0, 0, 0, 4, 9, 0, 0, 9, 3, 7, 0, 0, 2, 1, 0, 0, 0, 4, 0, 9, 0, 0, 0, 0, 4, 1, 5, 0, 7, 8, 0, 0, 0, 7, 3, 6, 4, 2, 0, 0, 8, 5, 9, 2, 8, 0, 0, 0, 0, 7, 4, 8, 6, 1, 0, 5, 0, 0, 4, 0, 3, 5, 7, 0, 0, 0, 0, 0, 1, 2, 4, 9, 6, 1, 3, 0, 5, 0] = true :=
        nakedStepTo E [0, 0, 2, 0, 0, 0, 4, 9, 0, 0, 9, 3, 7, 0, 0, 2, 1, 0, 0, 0, 4, 0, 9, 0, 0, 0, 0, 4, 1, 5, 0, 7, 8, 0, 0, 0, 7, 3, 6, 4, 2, 0, 0, 8, 5, 9, 2, 8, 0, 0, 0, 0, 7, 4, 8, 6, 1, 0, 5, 0, 0, 4, 0, 3, 5, 7, 0, 0, 0, 0, 0, 1, 2, 4, 9, 6, 1, 3, 0, 0, 0] [0, 0, 2, 0, 0, 0, 4, 9, 0, 0, 9, 3, 7, 0, 0, 2, 1, 0, 0, 0, 4, 0, 9, 0, 0, 0, 0, 4, 1, 5, 0, 7, 8, 0, 0, 0, 7, 3, 6, 4, 2, 0, 0, 8, 5, 9, 2, 8, 0, 0, 0, 0, 7, 4, 8, 6, 1, 0, 5, 0, 0, 4, 0, 3, 5, 7, 0, 0, 0, 0, 0, 1, 2, 4, 9, 6, 1, 3, 0, 5, 0] hF hV hD (by decide!) h21 79 5 (by decide) (by decide!) (by decide!) (by decide!)
      have h23 : dExtB E [0, 0, 2, 0, 0, 0, 4, 9, 0, 0, 9, 3, 7, 0, 0, 2, 1, 0, 0, 0, 4, 0, 9, 0, 0, 0, 0, 4, 1, 5, 0, 7, 8, 0, 0, 0, 7, 3, 6, 4, 2, 0, 0, 8, 5, 9, 2, 8, 0, 0, 0, 0, 7, 4, 8, 6, 1, 0, 5, 7, 0, 4, 0, 3, 5, 7, 0, 0, 0, 0, 0, 1, 2, 4, 9, 6, 1, 3, 0, 5, 0] = true :=
        hiddenStepTo E [0, 0, 2, 0, 0, 0, 4, 9, 0, 0, 9, 3, 7, 0, 0, 2, 1, 0, 0, 0, 4, 0, 9, 0, 0, 0, 0, 4, 1, 5, 0, 7, 8, 0, 0, 0, 7, 3, 6, 4, 2, 0, 0, 8, 5, 9, 2, 8, 0, 0, 0, 0, 7, 4, 8, 6, 1, 0, 5, 0, 0, 4, 0, 3, 5, 7, 0, 0, 0, 0, 0, 1, 2, 4, 9, 6, 1, 3, 0, 5, 0] [0, 0, 2, 0, 0, 0, 4, 9, 0, 0, 9, 3, 7, 0, 0, 2, 1, 0, 0, 0, 4, 0, 9, 0, 0, 0, 0, 4, 1, 5, 0, 7, 8, 0, 0, 0, 7, 3, 6, 4, 2, 0, 0, 8, 5, 9, 2, 8, 0, 0, 0, 0, 7, 4, 8, 6, 1, 0, 5, 7, 0, 4, 0, 3, 5, 7, 0, 0, 0, 0, 0, 1, 2, 4, 9, 6, 1, 3, 0, 5, 0] hF hV hD (by decide!) h22 [5, 14, 23, 32, 41, 50, 59, 68, 77] (by decide!) 7 (by decide) (by decide) (by decide!) 59 (by decide!) (by decide!)
      have h24 : dExtB E [0, 0, 2, 0, 0, 0, 4, 9, 0, 0, 9, 3, 7, 0, 0, 2, 1, 0, 0, 0, 4, 0, 9, 0, 5, 0, 0, 4, 1, 5, 0, 7, 8, 0, 0, 0, 7, 3, 6, 4, 2, 0, 0, 8, 5, 9, 2, 8, 0, 0, 0, 0, 7, 4, 8, 6, 1, 0, 5, 7, 0, 4, 0, 3, 5, 7, 0, 0, 0, 0, 0, 1, 2, 4, 9, 6, 1, 3, 0, 5, 0] = true :=
        hiddenStepTo E [0, 0, 2, 0, 0, 0, 4, 9, 0, 0, 9, 3, 7, 0, 0, 2, 1, 0, 0, 0, 4, 0, 9, 0, 0, 0, 0, 4, 1, 5, 0, 7, 8, 0, 0, 0, 7, 3, 6, 4, 2, 0, 0, 8, 5, 9, 2, 8, 0, 0, 0, 0, 7, 4, 8, 6, 1, 0, 5, 7, 0, 4, 0, 3, 5, 7, 0, 0, 0, 0, 0, 1, 2, 4, 9, 6, 1, 3, 0, 5, 0] [0, 0, 2, 0, 0, 0, 4, 9, 0, 0, 9, 3, 7, 0, 0, 2, 1, 0, 0, 0, 4, 0, 9, 0, 5, 0, 0, 4, 1, 5, 0, 7, 8, 0, 0, 0, 7, 3, 6, 4, 2, 0, 0, 8, 5, 9, 2, 8, 0, 0, 0, 0, 7, 4, 8, 6, 1, 0, 5, 7, 0, 4, 0, 3, 5, 7, 0, 0, 0, 0, 0, 1, 2, 4, 9, 6, 1, 3, 0, 5, 0] hF hV hD (by decide!) h23 [6, 15, 24, 33, 42, 51, 60, 69, 78] (by decide!) 5 (by decide) (by decide) (by decide!) 24 (by decide!) (by decide!)
      have h25 : dExtB E [0, 0, 2, 0, 0, 0, 4, 9, 0, 0, 9, 3, 7, 0, 0, 2, 1, 0, 0, 0, 4, 0, 9, 0, 5, 0, 0, 4, 1, 5, 0, 7, 8, 0, 0, 0, 7, 3, 6, 4, 2, 0, 0, 8, 5, 9, 2, 8, 0, 0, 0, 0, 7, 4, 8, 6, 1, 0, 5, 7, 0, 4, 0, 3, 5, 7, 0, 0, 0, 0, 0, 1, 2, 4, 9, 6, 1, 3, 7, 5, 0] = true :=
        hiddenStepTo E [0, 0, 2, 0, 0, 0, 4, 9, 0, 0, 9, 3, 7, 0, 0, 2, 1, 0, 0, 0, 4, 0, 9, 0, 5, 0, 0, 4, 1, 5, 0, 7, 8, 0, 0, 0, 7, 3, 6, 4, 2, 0, 0, 8, 5, 9, 2, 8, 0, 0, 0, 0, 7, 4, 8, 6, 1, 0, 5, 7, 0, 4, 0, 3, 5, 7, 0, 0, 0, 0, 0, 1, 2, 4, 9, 6, 1, 3, 0, 5, 0] [0, 0, 2, 0, 0, 0, 4, 9, 0, 0, 9, 3, 7, 0, 0, 2, 1, 0, 0, 0, 4, 0, 9, 0, 5, 0, 0, 4, 1, 5, 0, 7, 8, 0, 0, 0, 7, 3, 6, 4, 2, 0, 0, 8, 5, 9, 2, 8, 0, 0, 0, 0, 7, 4, 8, 6, 1, 0, 5, 7, 0, 4, 0, 3, 5, 7, 0, 0, 0, 0, 0, 1, 2, 4, 9, 6, 1, 3, 7, 5, 0] hF hV hD (by decide!) h24 [6, 15, 24, 33, 42, 51, 60, 69, 78] (by decide!) 7 (by decide) (by decide) (by decide!) 78 (by decide!) (by decide!)
      have h26 : dExtB E [0, 0, 2, 0, 0, 0, 4, 9, 0, 0, 9, 3, 7, 0, 0, 2, 1, 0, 0, 0, 4, 0, 9, 0, 5, 0, 0, 4, 1, 5, 0, 7, 8, 0, 0, 0, 7, 3, 6, 4, 2, 0, 0, 8, 5, 9, 2, 8, 0, 0, 0, 0, 7, 4, 8, 6, 1, 0, 5, 7, 0, 4, 0, 3, 5, 7, 0, 0, 0, 8, 0, 1, 2, 4, 9, 6, 1, 3, 7, 5, 0] = true :=
        hiddenStepTo E [0, 0, 2, 0, 0, 0, 4, 9, 0, 0, 9, 3, 7, 0, 0, 2, 1, 0, 0, 0, 4, 0, 9, 0, 5, 0, 0, 4, 1, 5, 0, 7, 8, 0, 0, 0, 7, 3, 6, 4, 2, 0, 0, 8, 5, 9, 2, 8, 0, 0, 0, 0, 7, 4, 8, 6, 1, 0, 5, 7, 0, 4, 0, 3, 5, 7, 0, 0, 0, 0, 0, 1, 2, 4, 9, 6, 1, 3, 7, 5, 0] [0, 0, 2, 0, 0, 0, 4, 9, 0, 0, 9, 3, 7, 0, 0, 2, 1, 0, 0, 0, 4, 0, 9, 0, 5, 0, 0, 4, 1, 5, 0, 7, 8, 0, 0, 0, 7, 3, 6, 4, 2, 0, 0, 8, 5, 9, 2, 8, 0, 0, 0, 0, 7, 4, 8, 6, 1, 0, 5, 7, 0, 4, 0, 3, 5, 7, 0, 0, 0, 8, 0, 1, 2, 4, 9, 6, 1, 3, 7, 5, 0] hF hV hD (by decide!) h25 [6, 15, 24, 33, 42, 51, 60, 69, 78] (by decide!) 8 (by decide) (by decide) (by decide!) 69 (by decide!) (by decide!)
      exact (hiddenContra E [0, 0, 2, 0, 0, 0, 4, 9, 0, 0, 9, 3, 7, 0, 0, 2, 1, 0, 0, 0, 4, 0, 9, 0, 5, 0, 0, 4, 1, 5, 0, 7, 8, 0, 0, 0, 7, 3, 6, 4, 2, 0, 0, 8, 5, 9, 2, 8, 0, 0, 0, 0, 7, 4, 8, 6, 1, 0, 5, 7, 0, 4, 0, 3, 5, 7, 0, 0, 0, 8, 0, 1, 2, 4, 9, 6, 1, 3, 7, 5, 0] hF hV hD (by decide!) h26 [57, 58, 59, 66, 67, 68, 75, 76, 77] (by decide!) 8 (by decide) (by decide) (by decide!) (by decide!)).elim
    · have h27 : dExtB E [0, 0, 7, 0, 0, 0, 4, 9, 0, 0, 9, 3, 7, 0, 0, 2, 1, 0, 0, 0, 4, 0, 9, 0, 0, 0, 0, 4, 1, 5, 0, 7, 8, 0, 0, 0, 7, 3, 6, 4, 2, 0, 0, 8, 5, 9, 2, 8, 0, 0, 0, 0, 7, 4, 8, 0, 1, 0, 5, 0, 0, 4, 0, 3, 0, 0, 0, 0, 0, 0, 0, 1, 0, 4, 9, 6, 1, 3, 0, 0, 0] = true := by
        rw [show [0, 0, 7, 0, 0, 0, 4, 9, 0, 0, 9, 3, 7, 0, 0, 2, 1, 0, 0, 0, 4, 0, 9, 0, 0, 0, 0, 4, 1, 5, 0, 7, 8, 0, 0, 0, 7, 3, 6, 4, 2, 0, 0, 8, 5, 9, 2, 8, 0, 0, 0, 0, 7, 4, 8, 0, 1, 0, 5, 0, 0, 4, 0, 3, 0, 0, 0, 0, 0, 0, 0, 1, 0, 4, 9, 6, 1, 3, 0, 0, 0] = List.set [0, 0, 0, 0, 0, 0, 4, 9, 0, 0, 9, 3, 7, 0, 0, 2, 1, 0, 0, 0, 4, 0, 9, 0, 0, 0, 0, 4, 1, 5, 0, 7, 8, 0, 0, 0, 7, 3, 6, 4, 2, 0, 0, 8, 5, 9, 2, 8, 0, 0, 0, 0, 7, 4, 8, 0, 1, 0, 5, 0, 0, 4, 0, 3, 0, 0, 0, 0, 0, 0, 0, 1, 0, 4, 9, 6, 1, 3, 0, 0, 0] 2 7 from by decide!]
        exact he16
      have h28 : dExtB E [0, 0, 7, 0, 0, 0, 4, 9, 0, 0, 9, 3, 7, 0, 0, 2, 1, 0, 0, 0, 4, 0, 9, 0, 0, 0, 0, 4, 1, 5, 0, 7, 8, 0, 0, 0, 7, 3, 6, 4, 2, 0, 0, 8, 5, 9, 2, 8, 0, 0, 0, 0, 7, 4, 8, 0, 1, 0, 5, 0, 0, 4, 0, 3, 0, 2, 0, 0, 0, 0, 0, 1, 0, 4, 9, 6, 1, 3, 0, 0, 0] = true :=
        nakedStepTo E [0, 0, 7, 0, 0, 0, 4, 9, 0, 0, 9, 3, 7, 0, 0, 2, 1, 0, 0, 0, 4, 0, 9, 0, 0, 0, 0, 4, 1, 5, 0, 7, 8, 0, 0, 0, 7, 3, 6, 4, 2, 0, 0, 8, 5, 9, 2, 8, 0, 0, 0, 0, 7, 4, 8, 0, 1, 0, 5, 0, 0, 4, 0, 3, 0, 0, 0, 0, 0, 0, 0, 1, 0, 4, 9, 6, 1, 3, 0, 0, 0] [0, 0, 7, 0, 0, 0, 4, 9, 0, 0, 9, 3, 7, 0, 0, 2, 1, 0, 0, 0, 4, 0, 9, 0, 0, 0, 0, 4, 1, 5, 0, 7, 8, 0, 0, 0, 7, 3, 6, 4, 2, 0, 0, 8, 5, 9, 2, 8, 0, 0, 0, 0, 7, 4, 8, 0, 1, 0, 5, 0, 0, 4, 0, 3, 0, 2, 0, 0, 0, 0, 0, 1, 0, 4, 9, 6, 1, 3, 0, 0, 0] hF hV hD (by decide!) h27 65 2 (by decide) (by decide!) (by decide!) (by decide!)
      have h29 : dExtB E [0, 0, 7, 0, 0, 0, 4, 9, 0, 0, 9, 3, 7, 0, 0, 2, 1, 0, 0, 0, 4, 0, 9, 0, 0, 0, 0, 4, 1, 5, 0, 7, 8, 0, 0, 0, 7, 3, 6, 4, 2, 0, 0, 8, 5, 9, 2, 8, 0, 0, 0, 0, 7, 4, 8, 0, 1, 0, 5, 0, 0, 4, 0, 3, 0, 2, 0, 0, 0, 0, 0, 1, 5, 4, 9, 6, 1, 3, 0, 0, 0] = true :=
        nakedStepTo E [0, 0, 7, 0, 0, 0, 4, 9, 0, 0, 9, 3, 7, 0, 0, 2, 1, 0, 0, 0, 4, 0, 9, 0, 0, 0, 0, 4, 1, 5, 0, 7, 8, 0, 0, 0, 7, 3, 6, 4, 2, 0, 0, 8, 5, 9, 2, 8, 0, 0, 0, 0, 7, 4, 8, 0, 1, 0, 5, 0, 0, 4, 0, 3, 0, 2, 0, 0, 0, 0, 0, 1, 0, 4, 9, 6, 1, 3, 0, 0, 0] [0, 0, 7, 0, 0, 0, 4, 9, 0, 0, 9, 3, 7, 0, 0, 2, 1, 0, 0, 0, 4, 0, 9, 0, 0, 0, 0, 4, 1, 5, 0, 7, 8, 0, 0, 0, 7, 3, 6, 4, 2, 0, 0, 8, 5, 9, 2, 8, 0, 0, 0, 0, 7, 4, 8, 0, 1, 0, 5, 0, 0, 4, 0, 3, 0, 2, 0, 0, 0, 0, 0, 1, 5, 4, 9, 6, 1, 3, 0, 0, 0] hF hV hD (by decide!) h28 72 5 (by decide) (by decide!) (by decide!) (by decide!)
      have h30 : dExtB E [0, 0, 7, 0, 0, 0, 4, 9, 0, 0, 9, 3, 7, 0, 0, 2, 1, 0, 0, 0, 4, 0, 9, 0, 0, 0, 0, 4, 1, 5, 0, 7, 8, 0, 0, 0, 7, 3, 6, 4, 2, 0, 0, 8, 5, 9, 2, 8, 0, 0, 0, 0, 7, 4, 8, 0, 1, 0, 5, 0, 0, 4, 0, 3, 0, 2, 0, 0, 0, 0, 0, 1, 5, 4, 9, 6, 1, 3, 0, 2, 0] = true :=
        nakedStepTo E [0, 0, 7, 0, 0, 0, 4, 9, 0, 0, 9, 3, 7, 0, 0, 2, 1, 0, 0, 0, 4, 0, 9, 0, 0, 0, 0, 4, 1, 5, 0, 7, 8, 0, 0, 0, 7, 3, 6, 4, 2, 0, 0, 8, 5, 9, 2, 8, 0, 0, 0, 0, 7, 4, 8, 0, 1, 0, 5, 0, 0, 4, 0, 3, 0, 2, 0, 0, 0, 0, 0, 1, 5, 4, 9, 6, 1, 3, 0, 0, 0] [0, 0, 7, 0, 0, 0, 4, 9, 0, 0, 9, 3, 7, 0, 0, 2, 1, 0, 0, 0, 4, 0, 9, 0, 0, 0, 0, 4, 1, 5, 0, 7, 8, 0, 0, 0, 7, 3, 6, 4, 2, 0, 0, 8, 5, 9, 2, 8, 0, 0, 0, 0, 7, 4, 8, 0, 1, 0, 5, 0, 0, 4, 0, 3, 0, 2, 0, 0, 0, 0, 0, 1, 5, 4, 9, 6, 1, 3, 0, 2, 0] hF hV hD (by decide!) h29 79 2 (by decide) (by decide!) (by decide!) (by decide!)
      have h31 : dExtB E [0, 0, 7, 0, 0, 0, 4, 9, 0, 6, 9, 3, 7, 0, 0, 2, 1, 0, 0, 0, 4, 0, 9, 0, 0, 0, 0, 4, 1, 5, 0, 7, 8, 0, 0, 0, 7, 3, 6, 4, 2, 0, 0, 8, 5, 9, 2, 8, 0, 0, 0, 0, 7, 4, 8, 0, 1, 0, 5, 0, 0, 4, 0, 3, 0, 2, 0, 0, 0, 0, 0, 1, 5, 4, 9, 6, 1, 3, 0, 2, 0] = true :=
        nakedStepTo E [0, 0, 7, 0, 0, 0, 4, 9, 0, 0, 9, 3, 7, 0, 0, 2, 1, 0, 0, 0, 4, 0, 9, 0, 0, 0, 0, 4, 1, 5, 0, 7, 8, 0, 0, 0, 7, 3, 6, 4, 2, 0, 0, 8, 5, 9, 2, 8, 0, 0, 0, 0, 7, 4, 8, 0, 1, 0, 5, 0, 0, 4, 0, 3, 0, 2, 0, 0, 0, 0, 0, 1, 5, 4, 9, 6, 1, 3, 0, 2, 0] [0, 0, 7, 0, 0, 0, 4, 9, 0, 6, 9, 3, 7, 0, 0, 2, 1, 0, 0, 0, 4, 0, 9, 0, 0, 0, 0, 4, 1, 5, 0, 7, 8, 0, 0, 0, 7, 3, 6, 4, 2, 0, 0, 8, 5, 9, 2, 8, 0, 0, 0, 0, 7, 4, 8, 0, 1, 0, 5, 0, 0, 4, 0, 3, 0, 2, 0, 0, 0, 0, 0, 1, 5, 4, 9, 6, 1, 3, 0, 2, 0] hF hV hD (by decide!) h30 9 6 (by decide) (by decide!) (by decide!) (by decide!)
      have h32 : dExtB E [0, 0, 7, 0, 0, 0, 4, 9, 0, 6, 9, 3, 7, 0, 0, 2, 1, 8, 0, 0, 4, 0, 9, 0, 0, 0, 0, 4, 1, 5, 0, 7, 8, 0, 0, 0, 7, 3, 6, 4, 2, 0, 0, 8, 5, 9, 2, 8, 0, 0, 0, 0, 7, 4, 8, 0, 1, 0, 5, 0, 0, 4, 0, 3, 0, 2, 0, 0, 0, 0, 0, 1, 5, 4, 9, 6, 1, 3, 0, 2, 0] = true :=
        nakedStepTo E [0, 0, 7, 0, 0, 0, 4, 9, 0, 6, 9, 3, 7, 0, 0, 2, 1, 0, 0, 0, 4, 0, 9, 0, 0, 0, 0, 4, 1, 5, 0, 7, 8, 0, 0, 0, 7, 3, 6, 4, 2, 0, 0, 8, 5, 9, 2, 8, 0, 0, 0, 0, 7, 4, 8, 0, 1, 0, 5, 0, 0, 4, 0, 3, 0, 2, 0, 0, 0, 0, 0, 1, 5, 4, 9, 6, 1, 3, 0, 2, 0] [0, 0, 7, 0, 0, 0, 4, 9, 0, 6, 9, 3, 7, 0, 0, 2, 1, 8, 0, 0, 4, 0, 9, 0, 0, 0, 0, 4, 1, 5, 0, 7, 8, 0, 0, 0, 7, 3, 6, 4, 2, 0, 0, 8, 5, 9, 2, 8, 0, 0, 0, 0, 7, 4, 8, 0, 1, 0, 5, 0, 0, 4, 0, 3, 0, 2, 0, 0, 0, 0, 0, 1, 5, 4, 9, 6, 1, 3, 0, 2, 0] hF hV hD (by decide!) h31 17 8 (by decide) (by decide!) (by decide!) (by decide!)
      have h33 : dExtB E [0, 0, 7, 0, 0, 0, 4, 9, 0, 6, 9, 3, 7, 0, 0, 2, 1, 8, 0, 0, 4, 0, 9, 0, 0, 0, 0, 4, 1, 5, 0, 7, 8, 0, 0, 0, 7, 3, 6, 4, 2, 0, 0, 8, 5, 9, 2, 8, 0, 0, 0, 0, 7, 4, 8, 0, 1, 0, 5, 0, 0, 4, 0, 3, 0, 2, 0, 0, 0, 0, 0, 1, 5, 4, 9, 6, 1, 3, 0, 2, 7] = true :=
        nakedStepTo E [0, 0, 7, 0, 0, 0, 4, 9, 0, 6, 9, 3, 7, 0, 0, 2, 1, 8, 0, 0, 4, 0, 9, 0, 0, 0, 0, 4, 1, 5, 0, 7, 8, 0, 0, 0, 7, 3, 6, 4, 2, 0, 0, 8, 5, 9, 2, 8, 0, 0, 0, 0, 7, 4, 8, 0, 1, 0, 5, 0, 0, 4, 0, 3, 0, 2, 0, 0, 0, 0, 0, 1, 5, 4, 9, 6, 1, 3, 0, 2, 0] [0, 0, 7, 0, 0, 0, 4, 9, 0, 6, 9, 3, 7, 0, 0, 2, 1, 8, 0, 0, 4, 0, 9, 0, 0, 0, 0, 4, 1, 5, 0, 7, 8, 0, 0, 0, 7, 3, 6, 4, 2, 0, 0, 8, 5, 9, 2, 8, 0, 0, 0, 0, 7, 4, 8, 0, 1, 0, 5, 0, 0, 4, 0, 3, 0, 2, 0, 0, 0, 0, 0, 1, 5, 4, 9, 6, 1, 3, 0, 2, 7] hF hV hD (by decide!) h32 80 7 (by decide) (by decide!) (by decide!) (by decide!)
      have h34 : dExtB E [0, 0, 7, 0, 0, 0, 4, 9, 0, 6, 9, 3, 7, 4, 0, 2, 1, 8, 0, 0, 4, 0, 9, 0, 0, 0, 0, 4, 1, 5, 0, 7, 8, 0, 0, 0, 7, 3, 6, 4, 2, 0, 0, 8, 5, 9, 2, 8, 0, 0, 0, 0, 7, 4, 8, 0, 1, 0, 5, 0, 0, 4, 0, 3, 0, 2, 0, 0, 0, 0, 0, 1, 5, 4, 9, 6, 1, 3, 0, 2, 7] = true :=
        nakedStepTo E [0, 0, 7, 0, 0, 0, 4, 9, 0, 6, 9, 3, 7, 0, 0, 2, 1, 8, 0, 0, 4, 0, 9, 0, 0, 0, 0, 4, 1, 5, 0, 7, 8, 0, 0, 0, 7, 3, 6, 4, 2, 0, 0, 8, 5, 9, 2, 8, 0, 0, 0, 0, 7, 4, 8, 0, 1, 0, 5, 0, 0, 4, 0, 3, 0, 2, 0, 0, 0, 0, 0, 1, 5, 4, 9, 6, 1, 3, 0, 2, 7] [0, 0, 7, 0, 0, 0, 4, 9, 0, 6, 9, 3, 7, 4, 0, 2, 1, 8, 0, 0, 4, 0, 9, 0, 0, 0, 0, 4, 1, 5, 0, 7, 8, 0, 0, 0, 7, 3, 6, 4, 2, 0, 0, 8, 5, 9, 2, 8, 0, 0, 0, 0, 7, 4, 8, 0, 1, 0, 5, 0, 0, 4, 0, 3, 0, 2, 0, 0, 0, 0, 0, 1, 5, 4, 9, 6, 1, 3, 0, 2, 7] hF hV hD (by decide!) h33 13 4 (by decide) (by decide!) (by decide!) (by decide!)
      have h35 : dExtB E [0, 0, 7, 0, 0, 0, 4, 9, 0, 6, 9, 3, 7, 4, 5, 2, 1, 8, 0, 0, 4, 0, 9, 0, 0, 0, 0, 4, 1, 5, 0, 7, 8, 0, 0, 0, 7, 3, 6, 4, 2, 0, 0, 8, 5, 9, 2, 8, 0, 0, 0, 0, 7, 4, 8, 0, 1, 0, 5, 0, 0, 4, 0, 3, 0, 2, 0, 0, 0, 0, 0, 1, 5, 4, 9, 6, 1, 3, 0, 2, 7] = true :=
        nakedStepTo E [0, 0, 7, 0, 0, 0, 4, 9, 0, 6, 9, 3, 7, 4, 0, 2, 1, 8, 0, 0, 4, 0, 9, 0, 0, 0, 0, 4, 1, 5, 0, 7, 8, 0, 0, 0, 7, 3, 6, 4, 2, 0, 0, 8, 5, 9, 2, 8, 0, 0, 0, 0, 7, 4, 8, 0, 1, 0, 5, 0, 0, 4, 0, 3, 0, 2, 0, 0, 0, 0, 0, 1, 5, 4, 9, 6, 1, 3, 0, 2, 7] [0, 0, 7, 0, 0, 0, 4, 9, 0, 6, 9, 3, 7, 4, 5, 2, 1, 8, 0, 0, 4, 0, 9, 0, 0, 0, 0, 4, 1, 5, 0, 7, 8, 0, 0, 0, 7, 3, 6, 4, 2, 0, 0, 8, 5, 9, 2, 8, 0, 0, 0, 0, 7, 4, 8, 0, 1, 0, 5, 0, 0, 4, 0, 3, 0, 2, 0, 0, 0, 0, 0, 1, 5, 4, 9, 6, 1, 3, 0, 2, 7] hF hV hD (by decide!) h34 14 5 (by decide) (by decide!) (by decide!) (by decide!)
      have h36 : dExtB E [0, 0, 7, 0, 0, 0, 4, 9, 0, 6, 9, 3, 7, 4, 5, 2, 1, 8, 0, 0, 4, 0, 9, 0, 0, 0, 0, 4, 1, 5, 0, 7, 8, 0, 0, 0, 7, 3, 6, 4, 2, 0, 0, 8, 5, 9, 2, 8, 0, 0, 0, 0, 7, 4, 8, 0, 1, 0, 5, 0, 0, 4, 0, 3, 0, 2, 0, 8, 0, 0, 0, 1, 5, 4, 9, 6, 1, 3, 0, 2, 7] = true :=
        nakedStepTo E [0, 0, 7, 0, 0, 0, 4, 9, 0, 6, 9, 3, 7, 4, 5, 2, 1, 8, 0, 0, 4, 0, 9, 0, 0, 0, 0, 4, 1, 5, 0, 7, 8, 0, 0, 0, 7, 3, 6, 4, 2, 0, 0, 8, 5, 9, 2, 8, 0, 0, 0, 0, 7, 4, 8, 0, 1, 0, 5, 0, 0, 4, 0, 3, 0, 2, 0, 0, 0, 0, 0, 1, 5, 4, 9, 6, 1, 3, 0, 2, 7] [0, 0, 7, 0, 0, 0, 4, 9, 0, 6, 9, 3, 7, 4, 5, 2, 1, 8, 0, 0, 4, 0, 9, 0, 0, 0, 0, 4, 1, 5, 0, 7, 8, 0, 0, 0, 7, 3, 6, 4, 2, 0, 0, 8, 5, 9, 2, 8, 0, 0, 0, 0, 7, 4, 8, 0, 1, 0, 5, 0, 0, 4, 0, 3, 0, 2, 0, 8, 0, 0, 0, 1, 5, 4, 9, 6, 1, 3, 0, 2, 7] hF hV hD (by decide!) h35 67 8 (by decide) (by decide!) (by decide!) (by decide!)
      have h37 : dExtB E [0, 0, 7, 0, 0, 0, 4, 9, 0, 6, 9, 3, 7, 4, 5, 2, 1, 8, 0, 0, 4, 0, 9, 0, 0, 0, 0, 4, 1, 5, 0, 7, 8, 0, 0, 0, 7, 3, 6, 4, 2, 0, 0, 8, 5, 9, 2, 8, 0, 0, 0, 0, 7, 4, 8, 0, 1, 0, 5, 0, 0, 4, 0, 3, 0, 2, 0, 8, 0, 0, 0, 1, 5, 4, 9, 6, 1, 3, 8, 2, 7] = true :=
        nakedStepTo E [0, 0, 7, 0, 0, 0, 4, 9, 0, 6, 9, 3, 7, 4, 5, 2, 1, 8, 0, 0, 4, 0, 9, 0, 0, 0, 0, 4, 1, 5, 0, 7, 8, 0, 0, 0, 7, 3, 6, 4, 2, 0, 0, 8, 5, 9, 2, 8, 0, 0, 0, 0, 7, 4, 8, 0, 1, 0, 5, 0, 0, 4, 0, 3, 0, 2, 0, 8, 0, 0, 0, 1, 5, 4, 9, 6, 1, 3, 0, 2, 7] [0, 0, 7, 0, 0, 0, 4, 9, 0, 6, 9, 3, 7, 4, 5, 2, 1, 8, 0, 0, 4, 0, 9, 0, 0, 0, 0, 4, 1, 5, 0, 7, 8, 0, 0, 0, 7, 3, 6, 4, 2, 0, 0, 8, 5, 9, 2, 8, 0, 0, 0, 0, 7, 4, 8, 0, 1, 0, 5, 0, 0, 4, 0, 3, 0, 2, 0, 8, 0, 0, 0, 1, 5, 4, 9, 6, 1, 3, 8, 2, 7] hF hV hD (by decide!) h36 78 8 (by decide) (by decide!) (by decide!) (by decide!)
      have h38 : dExtB E [0, 0, 7, 0, 0, 0, 4, 9, 0, 6, 9, 3, 7, 4, 5, 2, 1, 8, 0, 0, 4, 0, 9, 0, 0, 0, 0, 4, 1, 5, 0, 7, 8, 0, 0, 0, 7, 3, 6, 4, 2, 0, 0, 8, 5, 9, 2, 8, 0, 0, 0, 0, 7, 4, 8, 0, 1, 0, 5, 0, 0, 4, 0, 3, 0, 2, 9, 8, 0, 0, 0, 1, 5, 4, 9, 6, 1, 3, 8, 2, 7] = true :=
        nakedStepTo E [0, 0, 7, 0, 0, 0, 4, 9, 0, 6, 9, 3, 7, 4, 5, 2, 1, 8, 0, 0, 4, 0, 9, 0, 0, 0, 0, 4, 1, 5, 0, 7, 8, 0, 0, 0, 7, 3, 6, 4, 2, 0, 0, 8, 5, 9, 2, 8, 0, 0, 0, 0, 7, 4, 8, 0, 1, 0, 5, 0, 0, 4, 0, 3, 0, 2, 0, 8, 0, 0, 0, 1, 5, 4, 9, 6, 1, 3, 8, 2, 7] [0, 0, 7, 0, 0, 0, 4, 9, 0, 6, 9, 3, 7, 4, 5, 2, 1, 8, 0, 0, 4, 0, 9, 0, 0, 0, 0, 4, 1, 5, 0, 7, 8, 0, 0, 0, 7, 3, 6, 4, 2, 0, 0, 8, 5, 9, 2, 8, 0, 0, 0, 0, 7, 4, 8, 0, 1, 0, 5, 0, 0, 4, 0, 3, 0, 2, 9, 8, 0, 0, 0, 1, 5, 4, 9, 6, 1, 3, 8, 2, 7] hF hV hD (by decide!) h37 66 9 (by decide) (by decide!) (by decide!) (by decide!)
      have h39 : dExtB E [0, 0, 7, 0, 0, 0, 4, 9, 0, 6, 9, 3, 7, 4, 5, 2, 1, 8, 0, 0, 4, 0, 9, 0, 0, 0, 0, 4, 1, 5, 3, 7, 8, 0, 0, 0, 7, 3, 6, 4, 2, 0, 0, 8, 5, 9, 2, 8, 0, 0, 0, 0, 7, 4, 8, 0, 1, 0, 5, 0, 0, 4, 0, 3, 0, 2, 9, 8, 0, 0, 0, 1, 5, 4, 9, 6, 1, 3, 8, 2, 7] = true :=
        nakedStepTo E [0, 0, 7, 0, 0, 0, 4, 9, 0, 6, 9, 3, 7, 4, 5, 2, 1, 8, 0, 0, 4, 0, 9, 0, 0, 0, 0, 4, 1, 5, 0, 7, 8, 0, 0, 0, 7, 3, 6, 4, 2, 0, 0, 8, 5, 9, 2, 8, 0, 0, 0, 0, 7, 4, 8, 0, 1, 0, 5, 0, 0, 4, 0, 3, 0, 2, 9, 8, 0, 0, 0, 1, 5, 4, 9, 6, 1, 3, 8, 2, 7] [0, 0, 7, 0, 0, 0, 4, 9, 0, 6, 9, 3, 7, 4, 5, 2, 1, 8, 0, 0, 4, 0, 9, 0, 0, 0, 0, 4, 1, 5, 3, 7, 8, 0, 0, 0, 7, 3, 6, 4, 2, 0, 0, 8, 5, 9, 2, 8, 0, 0, 0, 0, 7, 4, 8, 0, 1, 0, 5, 0, 0, 4, 0, 3, 0, 2, 9, 8, 0, 0, 0, 1, 5, 4, 9, 6, 1, 3, 8, 2, 7] hF hV hD (by decide!) h38 30 3 (by decide) (by decide!) (by decide!) (by decide!)
      have h40 : dExtB E [0, 0, 7, 0, 0, 0, 4, 9, 0, 6, 9, 3, 7, 4, 5, 2, 1, 8, 0, 0, 4, 0, 9, 0, 0, 0, 0, 4, 1, 5, 3, 7, 8, 0, 6, 0, 7, 3, 6, 4, 2, 0, 0, 8, 5, 9, 2, 8, 0, 0, 0, 0, 7, 4, 8, 0, 1, 0, 5, 0, 0, 4, 0, 3, 0, 2, 9, 8, 0, 0, 0, 1, 5, 4, 9, 6, 1, 3, 8, 2, 7] = true :=
        nakedStepTo E [0, 0, 7, 0, 0, 0, 4, 9, 0, 6, 9, 3, 7, 4, 5, 2, 1, 8, 0, 0, 4, 0, 9, 0, 0, 0, 0, 4, 1, 5, 3, 7, 8, 0, 0, 0, 7, 3, 6, 4, 2, 0, 0, 8, 5, 9, 2, 8, 0, 0, 0, 0, 7, 4, 8, 0, 1, 0, 5, 0, 0, 4, 0, 3, 0, 2, 9, 8, 0, 0, 0, 1, 5, 4, 9, 6, 1, 3, 8, 2, 7] [0, 0, 7, 0, 0, 0, 4, 9, 0, 6, 9, 3, 7, 4, 5, 2, 1, 8, 0, 0, 4, 0, 9, 0, 0, 0, 0, 4, 1, 5, 3, 7, 8, 0, 6, 0, 7, 3, 6, 4, 2, 0, 0, 8, 5, 9, 2, 8, 0, 0, 0, 0, 7, 4, 8, 0, 1, 0, 5, 0, 0, 4, 0, 3, 0, 2, 9, 8, 0, 0, 0, 1, 5, 4, 9, 6, 1, 3, 8, 2, 7] hF hV hD (by decide!) h39 34 6 (by decide) (by decide!) (by decide!) (by decide!)
      have h41 : dExtB E [0, 0, 7, 0, 0, 0, 4, 9, 0, 6, 9, 3, 7, 4, 5, 2, 1, 8, 0, 0, 4, 0, 9, 0, 0, 0, 0, 4, 1, 5, 3, 7, 8, 0, 6, 0, 7, 3, 6, 4, 2, 0, 0, 8, 5, 9, 2, 8, 0, 6, 0, 0, 7, 4, 8, 0, 1, 0, 5, 0, 0, 4, 0, 3, 0, 2, 9, 8, 0, 0, 0, 1, 5, 4, 9, 6, 1, 3, 8, 2, 7] = true :=
        nakedStepTo E [0, 0, 7, 0, 0, 0, 4, 9, 0, 6, 9, 3, 7, 4, 5, 2, 1, 8, 0, 0, 4, 0, 9, 0, 0, 0, 0, 4, 1, 5, 3, 7, 8, 0, 6, 0, 7, 3, 6, 4, 2, 0, 0, 8, 5, 9, 2, 8, 0, 0, 0, 0, 7, 4, 8, 0, 1, 0, 5, 0, 0, 4, 0, 3, 0, 2, 9, 8, 0, 0, 0, 1, 5, 4, 9, 6, 1, 3, 8, 2, 7] [0, 0, 7, 0, 0, 0, 4, 9, 0, 6, 9, 3, 7, 4, 5, 2, 1, 8, 0, 0, 4, 0, 9, 0, 0, 0, 0, 4, 1, 5, 3, 7, 8, 0, 6, 0, 7, 3, 6, 4, 2, 0, 0, 8, 5, 9, 2, 8, 0, 6, 0, 0, 7, 4, 8, 0, 1, 0, 5, 0, 0, 4, 0, 3, 0, 2, 9, 8, 0, 0, 0, 1, 5, 4, 9, 6, 1, 3, 8, 2, 7] hF hV hD (by decide!) h40 49 6 (by decide) (by decide!) (by decide!) (by decide!)
      have h42 : dExtB E [0, 0, 7, 0, 0, 0, 4, 9, 0, 6, 9, 3, 7, 4, 5, 2, 1, 8, 0, 0, 4, 0, 9, 0, 0, 0, 0, 4, 1, 5, 3, 7, 8, 0, 6, 0, 7, 3, 6, 4, 2, 0, 0, 8, 5, 9, 2, 8, 0, 6, 1, 0, 7, 4, 8, 0, 1, 0, 5, 0, 0, 4, 0, 3, 0, 2, 9, 8, 0, 0, 0, 1, 5, 4, 9, 6, 1, 3, 8, 2, 7] = true :=
        nakedStepTo E [0, 0, 7, 0, 0, 0, 4, 9, 0, 6, 9, 3, 7, 4, 5, 2, 1, 8, 0, 0, 4, 0, 9, 0, 0, 0, 0, 4, 1, 5, 3, 7, 8, 0, 6, 0, 7, 3, 6, 4, 2, 0, 0, 8, 5, 9, 2, 8, 0, 6, 0, 0, 7, 4, 8, 0, 1, 0, 5, 0, 0, 4, 0, 3, 0, 2, 9, 8, 0, 0, 0, 1, 5, 4, 9, 6, 1, 3, 8, 2, 7] [0, 0, 7, 0, 0, 0, 4, 9, 0, 6, 9, 3, 7, 4, 5, 2, 1, 8, 0, 0, 4, 0, 9, 0, 0, 0, 0, 4, 1, 5, 3, 7, 8, 0, 6, 0, 7, 3, 6, 4, 2, 0, 0, 8, 5, 9, 2, 8, 0, 6, 1, 0, 7, 4, 8, 0, 1, 0, 5, 0, 0, 4, 0, 3, 0, 2, 9, 8, 0, 0, 0, 1, 5, 4, 9, 6, 1, 3, 8, 2, 7] hF hV hD (by decide!) h41 50 1 (by decide) (by decide!) (by decide!) (by decide!)
      have h43 : dExtB E [0, 0, 7, 0, 0, 0, 4, 9, 0, 6, 9, 3, 7, 4, 5, 2, 1, 8, 0, 0, 4, 0, 9, 0, 0, 0, 0, 4, 1, 5, 3, 7, 8, 0, 6, 0, 7, 3, 6, 4, 2, 0, 0, 8, 5, 9, 2, 8, 0, 6, 1, 3, 7, 4, 8, 0, 1, 0, 5, 0, 0, 4, 0, 3, 0, 2, 9, 8, 0, 0, 0, 1, 5, 4, 9, 6, 1, 3, 8, 2, 7] = true :=
        nakedStepTo E [0, 0, 7, 0, 0, 0, 4, 9, 0, 6, 9, 3, 7, 4, 5, 2, 1, 8, 0, 0, 4, 0, 9, 0, 0, 0, 0, 4, 1, 5, 3, 7, 8, 0, 6, 0, 7, 3, 6, 4, 2, 0, 0, 8, 5, 9, 2, 8, 0, 6, 1, 0, 7, 4, 8, 0, 1, 0, 5, 0, 0, 4, 0, 3, 0, 2, 9, 8, 0, 0, 0, 1, 5, 4, 9, 6, 1, 3, 8, 2, 7] [0, 0, 7, 0, 0, 0, 4, 9, 0, 6, 9, 3, 7, 4, 5, 2, 1, 8, 0, 0, 4, 0, 9, 0, 0, 0, 0, 4, 1, 5, 3, 7, 8, 0, 6, 0, 7, 3, 6, 4, 2, 0, 0, 8, 5, 9, 2, 8, 0, 6, 1, 3, 7, 4, 8, 0, 1, 0, 5, 0, 0, 4, 0, 3, 0, 2, 9, 8, 0, 0, 0, 1, 5, 4, 9, 6, 1, 3, 8, 2, 7] hF hV hD (by decide!) h42 51 3 (by decide) (by decide!) (by decide!) (by decide!)
      have h44 : dExtB E [0, 0, 7, 0, 0, 0, 4, 9, 0, 6, 9, 3, 7, 4, 5, 2, 1, 8, 0, 0, 4, 0, 9, 0, 0, 0, 0, 4, 1, 5, 3, 7, 8, 0, 6, 0, 7, 3, 6, 4, 2, 0, 0, 8, 5, 9, 2, 8, 0, 6, 1, 3, 7, 4, 8, 0, 1, 2, 5, 0, 0, 4, 0, 3, 0, 2, 9, 8, 0, 0, 0, 1, 5, 4, 9, 6, 1, 3, 8, 2, 7] = true :=
        nakedStepTo E [0, 0, 7, 0, 0, 0, 4, 9, 0, 6, 9, 3, 7, 4, 5, 2, 1, 8, 0, 0, 4, 0, 9, 0, 0, 0, 0, 4, 1, 5, 3, 7, 8, 0, 6, 0, 7, 3, 6, 4, 2, 0, 0, 8, 5, 9, 2, 8, 0, 6, 1, 3, 7, 4, 8, 0, 1, 0, 5, 0, 0, 4, 0, 3, 0, 2, 9, 8, 0, 0, 0, 1, 5, 4, 9, 6, 1, 3, 8, 2, 7] [0, 0, 7, 0, 0, 0, 4, 9, 0, 6, 9, 3, 7, 4, 5, 2, 1, 8, 0, 0, 4, 0, 9, 0, 0, 0, 0, 4, 1, 5, 3, 7, 8, 0, 6, 0, 7, 3, 6, 4, 2, 0, 0, 8, 5, 9, 2, 8, 0, 6, 1, 3, 7, 4, 8, 0, 1, 2, 5, 0, 0, 4, 0, 3, 0, 2, 9, 8, 0, 0, 0, 1, 5, 4, 9, 6, 1, 3, 8, 2, 7] hF hV hD (by decide!) h43 57 2 (by decide) (by decide!) (by decide!) (by decide!)
      have h45 : dExtB E [0, 0, 7, 0, 0, 0, 4, 9, 0, 6, 9, 3, 7, 4, 5, 2, 1, 8, 0, 0, 4, 0, 9, 0, 0, 0, 0, 4, 1, 5, 3, 7, 8, 0, 6, 0, 7, 3, 6, 4, 2, 0, 0, 8, 5, 9, 2, 8, 0, 6, 1, 3, 7, 4, 8, 0, 1, 2, 5, 7, 0, 4, 0, 3, 0, 2, 9, 8, 0, 0, 0, 1, 5, 4, 9, 6, 1, 3, 8, 2, 7] = true :=
        nakedStepTo E [0, 0, 7, 0, 0, 0, 4, 9, 0, 6, 9, 3, 7, 4, 5, 2, 1, 8, 0, 0, 4, 0, 9, 0, 0, 0, 0, 4, 1, 5, 3, 7, 8, 0, 6, 0, 7, 3, 6, 4, 2, 0, 0, 8, 5, 9, 2, 8, 0, 6, 1, 3, 7, 4, 8, 0, 1, 2, 5, 0, 0, 4, 0, 3, 0, 2, 9, 8, 0, 0, 0, 1, 5, 4, 9, 6, 1, 3, 8, 2, 7] [0, 0, 7, 0, 0, 0, 4, 9, 0, 6, 9, 3, 7, 4, 5, 2, 1, 8, 0, 0, 4, 0, 9, 0, 0, 0, 0, 4, 1, 5, 3, 7, 8, 0, 6, 0, 7, 3, 6, 4, 2, 0, 0, 8, 5, 9, 2, 8, 0, 6, 1, 3, 7, 4, 8, 0, 1, 2, 5, 7, 0, 4, 0, 3, 0, 2, 9, 8, 0, 0, 0, 1, 5, 4, 9, 6, 1, 3, 8, 2, 7] hF hV hD (by decide!) h44 59 7 (by decide) (by decide!) (by decide!) (by decide!)
      have h46 : dExtB E [0, 0, 7, 0, 0, 0, 4, 9, 0, 6, 9, 3, 7, 4, 5, 2, 1, 8, 0, 0, 4, 0, 9, 0, 0, 0, 0, 4, 1, 5, 3, 7, 8, 0, 6, 0, 7, 3, 6, 4, 2, 0, 0, 8, 5, 9, 2, 8, 0, 6, 1, 3, 7, 4, 8, 0, 1, 2, 5, 7, 0, 4, 0, 3, 0, 2, 9, 8, 4, 0, 0, 1, 5, 4, 9, 6, 1, 3, 8, 2, 7] = true :=
        nakedStepTo E [0, 0, 7, 0, 0, 0, 4, 9, 0, 6, 9, 3, 7, 4, 5, 2, 1, 8, 0, 0, 4, 0, 9, 0, 0, 0, 0, 4, 1, 5, 3, 7, 8, 0, 6, 0, 7, 3, 6, 4, 2, 0, 0, 8, 5, 9, 2, 8, 0, 6, 1, 3, 7, 4, 8, 0, 1, 2, 5, 7, 0, 4, 0, 3, 0, 2, 9, 8, 0, 0, 0, 1, 5, 4, 9, 6, 1, 3, 8, 2, 7] [0, 0, 7, 0, 0, 0, 4, 9, 0, 6, 9, 3, 7, 4, 5, 2, 1, 8, 0, 0, 4, 0, 9, 0, 0, 0, 0, 4, 1, 5, 3, 7, 8, 0, 6, 0, 7, 3, 6, 4, 2, 0, 0, 8, 5, 9, 2, 8, 0, 6, 1, 3, 7, 4, 8, 0, 1, 2, 5, 7, 0, 4, 0, 3, 0, 2, 9, 8, 4, 0, 0, 1, 5, 4, 9, 6, 1, 3, 8, 2, 7] hF hV hD (by decide!) h45 68 4 (by decide) (by decide!) (by decide!) (by decide!)
      have h47 : dExtB E [0, 0, 7, 0, 0, 0, 4, 9, 0, 6, 9, 3, 7, 4, 5, 2, 1, 8, 0, 0, 4, 0, 9, 0, 0, 0, 0, 4, 1, 5, 3, 7, 8, 0, 6, 0, 7, 3, 6, 4, 2, 0, 0, 8, 5, 9, 2, 8, 0, 6, 1, 3, 7, 4, 8, 0, 1, 2, 5, 7, 0, 4, 0, 3, 0, 2, 9, 8, 4, 0, 5, 1, 5, 4, 9, 6, 1, 3, 8, 2, 7] = true :=
        nakedStepTo E [0, 0, 7, 0, 0, 0, 4, 9, 0, 6, 9, 3, 7, 4, 5, 2, 1, 8, 0, 0, 4, 0, 9, 0, 0, 0, 0, 4, 1, 5, 3, 7, 8, 0, 6, 0, 7, 3, 6, 4, 2, 0, 0, 8, 5, 9, 2, 8, 0, 6, 1, 3, 7, 4, 8, 0, 1, 2, 5, 7, 0, 4, 0, 3, 0, 2, 9, 8, 4, 0, 0, 1, 5, 4, 9, 6, 1, 3, 8, 2, 7] [0, 0, 7, 0, 0, 0, 4, 9, 0, 6, 9, 3, 7, 4, 5, 2, 1, 8, 0, 0, 4, 0, 9, 0, 0, 0, 0, 4, 1, 5, 3, 7, 8, 0, 6, 0, 7, 3, 6, 4, 2, 0, 0, 8, 5, 9, 2, 8, 0, 6, 1, 3, 7, 4, 8, 0, 1, 2, 5, 7, 0, 4, 0, 3, 0, 2, 9, 8, 4, 0, 5, 1, 5, 4, 9, 6, 1, 3, 8, 2, 7] hF hV hD (by decide!) h46 70 5 (by decide) (by decide!) (by decide!) (by decide!)
      have h48 : dExtB E [0, 0, 7, 0, 3, 0, 4, 9, 0, 6, 9, 3, 7, 4, 5, 2, 1, 8, 0, 0, 4, 0, 9, 0, 0, 0, 0, 4, 1, 5, 3, 7, 8, 0, 6, 0, 7, 3, 6, 4, 2, 0, 0, 8, 5, 9, 2, 8, 0, 6, 1, 3, 7, 4, 8, 0, 1, 2, 5, 7, 0, 4, 0, 3, 0, 2, 9, 8, 4, 0, 5, 1, 5, 4, 9, 6, 1, 3, 8, 2, 7] = true :=
        nakedStepTo E [0, 0, 7, 0, 0, 0, 4, 9, 0, 6, 9, 3, 7, 4, 5, 2, 1, 8, 0, 0, 4, 0, 9, 0, 0, 0, 0, 4, 1, 5, 3, 7, 8, 0, 6, 0, 7, 3, 6, 4, 2, 0, 0, 8, 5, 9, 2, 8, 0, 6, 1, 3, 7, 4, 8, 0, 1, 2, 5, 7, 0, 4, 0, 3, 0, 2, 9, 8, 4, 0, 5, 1, 5, 4, 9, 6, 1, 3, 8, 2, 7] [0, 0, 7, 0, 3, 0, 4, 9, 0, 6, 9, 3, 7, 4, 5, 2, 1, 8, 0, 0, 4, 0, 9, 0, 0, 0, 0, 4, 1, 5, 3, 7, 8, 0, 6, 0, 7, 3, 6, 4, 2, 0, 0, 8, 5, 9, 2, 8, 0, 6, 1, 3, 7, 4, 8, 0, 1, 2, 5, 7, 0, 4, 0, 3, 0, 2, 9, 8, 4, 0, 5, 1, 5, 4, 9, 6, 1, 3, 8, 2, 7] hF hV hD (by decide!) h47 4 3 (by decide) (by decide!) (by decide!) (by decide!)
      have h49 : dExtB E [0, 0, 7, 0, 3, 0, 4, 9, 6, 6, 9, 3, 7, 4, 5, 2, 1, 8, 0, 0, 4, 0, 9, 0, 0, 0, 0, 4, 1, 5, 3, 7, 8, 0, 6, 0, 7, 3, 6, 4, 2, 0, 0, 8, 5, 9, 2, 8, 0, 6, 1, 3, 7, 4, 8, 0, 1, 2, 5, 7, 0, 4, 0, 3, 0, 2, 9, 8, 4, 0, 5, 1, 5, 4, 9, 6, 1, 3, 8, 2, 7] = true :=
        nakedStepTo E [0, 0, 7, 0, 3, 0, 4, 9, 0, 6, 9, 3, 7, 4, 5, 2, 1, 8, 0, 0, 4, 0, 9, 0, 0, 0, 0, 4, 1, 5, 3, 7, 8, 0, 6, 0, 7, 3, 6, 4, 2, 0, 0, 8, 5, 9, 2, 8, 0, 6, 1, 3, 7, 4, 8, 0, 1, 2, 5, 7, 0, 4, 0, 3, 0, 2, 9, 8, 4, 0, 5, 1, 5, 4, 9, 6, 1, 3, 8, 2, 7] [0, 0, 7, 0, 3, 0, 4, 9, 6, 6, 9, 3, 7, 4, 5, 2, 1, 8, 0, 0, 4, 0, 9, 0, 0, 0, 0, 4, 1, 5, 3, 7, 8, 0, 6, 0, 7, 3, 6, 4, 2, 0, 0, 8, 5, 9, 2, 8, 0, 6, 1, 3, 7, 4, 8, 0, 1, 2, 5, 7, 0, 4, 0, 3, 0, 2, 9, 8, 4, 0, 5, 1, 5, 4, 9, 6, 1, 3, 8, 2, 7] hF hV hD (by decide!) h48 8 6 (by decide) (by decide!) (by decide!) (by decide!)
      have h50 : dExtB E [0, 0, 7, 0, 3, 0, 4, 9, 6, 6, 9, 3, 7, 4, 5, 2, 1, 8, 0, 0, 4, 0, 9, 0, 0, 3, 0, 4, 1, 5, 3, 7, 8, 0, 6, 0, 7, 3, 6, 4, 2, 0, 0, 8, 5, 9, 2, 8, 0, 6, 1, 3, 7, 4, 8, 0, 1, 2, 5, 7, 0, 4, 0, 3, 0, 2, 9, 8, 4, 0, 5, 1, 5, 4, 9, 6, 1, 3, 8, 2, 7] = true :=
        nakedStepTo E [0, 0, 7, 0, 3, 0, 4, 9, 6, 6, 9, 3, 7, 4, 5, 2, 1, 8, 0, 0, 4, 0, 9, 0, 0, 0, 0, 4, 1, 5, 3, 7, 8, 0, 6, 0, 7, 3, 6, 4, 2, 0, 0, 8, 5, 9, 2, 8, 0, 6, 1, 3, 7, 4, 8, 0, 1, 2, 5, 7, 0, 4, 0, 3, 0, 2, 9, 8, 4, 0, 5, 1, 5, 4, 9, 6, 1, 3, 8, 2, 7] [0, 0, 7, 0, 3, 0, 4, 9, 6, 6, 9, 3, 7, 4, 5, 2, 1, 8, 0, 0, 4, 0, 9, 0, 0, 3, 0, 4, 1, 5, 3, 7, 8, 0, 6, 0, 7, 3, 6, 4, 2, 0, 0, 8, 5, 9, 2, 8, 0, 6, 1, 3, 7, 4, 8, 0, 1, 2, 5, 7, 0, 4, 0, 3, 0, 2, 9, 8, 4, 0, 5, 1, 5, 4, 9, 6, 1, 3, 8, 2, 7] hF hV hD (by decide!) h49 25 3 (by decide) (by decide!) (by decide!) (by decide!)
      exact (contraStep E [0, 0, 7, 0, 3, 0, 4, 9, 6, 6, 9, 3, 7, 4, 5, 2, 1, 8, 0, 0, 4, 0, 9, 0, 0, 3, 0, 4, 1, 5, 3, 7, 8, 0, 6, 0, 7, 3, 6, 4, 2, 0, 0, 8, 5, 9, 2, 8, 0, 6, 1, 3, 7, 4, 8, 0, 1, 2, 5, 7, 0, 4, 0, 3, 0, 2, 9, 8, 4, 0, 5, 1, 5, 4, 9, 6, 1, 3, 8, 2, 7] hF hV hD (by decide!) h50 26 (by decide) (by decide!) (by decide!)).elim
  · have h51 : dExtB E [0, 0, 0, 0, 0, 0, 4, 9, 0, 0, 9, 6, 7, 0, 0, 2, 1, 0, 0, 0, 4, 0, 9, 0, 0, 0, 0, 4, 1, 5, 0, 7, 8, 0, 0, 0, 7, 0, 0, 4, 2, 0, 0, 0, 5, 9, 2, 8, 0, 0, 0, 0, 7, 4, 8, 0, 1, 0, 5, 0, 0, 4, 0, 0, 0, 0, 0, 0, 0, 0, 0, 1, 0, 4, 9, 6, 1, 3, 0, 0, 0] = true := by
      rw [show [0, 0, 0, 0, 0, 0, 4, 9, 0, 0, 9, 6, 7, 0, 0, 2, 1, 0, 0, 0, 4, 0, 9, 0, 0, 0, 0, 4, 1, 5, 0, 7, 8, 0, 0, 0, 7, 0, 0, 4, 2, 0, 0, 0, 5, 9, 2, 8, 0, 0, 0, 0, 7, 4, 8, 0, 1, 0, 5, 0, 0, 4, 0, 0, 0, 0, 0, 0, 0, 0, 0, 1, 0, 4, 9, 6, 1, 3, 0, 0, 0] = List.set [0, 0, 0, 0, 0, 0, 4, 9, 0, 0, 9, 0, 7, 0, 0, 2, 1, 0, 0, 0, 4, 0, 9, 0, 0, 0, 0, 4, 1, 5, 0, 7, 8, 0, 0, 0, 7, 0, 0, 4, 2, 0, 0, 0, 5, 9, 2, 8, 0, 0, 0, 0, 7, 4, 8, 0, 1, 0, 5, 0, 0, 4, 0, 0, 0, 0, 0, 0, 0, 0, 0, 1, 0, 4, 9, 6, 1, 3, 0, 0, 0] 11 6 from by decide!]
      exact he10
    have h52 : dExtB E [0, 0, 0, 0, 0, 0, 4, 9, 0, 0, 9, 6, 7, 0, 0, 2, 1, 0, 0, 0, 4, 0, 9, 0, 0, 0, 0, 4, 1, 5, 0, 7, 8, 0, 0, 0, 7, 0, 3, 4, 2, 0, 0, 0, 5, 9, 2, 8, 0, 0, 0, 0, 7, 4, 8, 0, 1, 0, 5, 0, 0, 4, 0, 0, 0, 0, 0, 0, 0, 0, 0, 1, 0, 4, 9, 6, 1, 3, 0, 0, 0] = true :=
      nakedStepTo E [0, 0, 0, 0, 0, 0, 4, 9, 0, 0, 9, 6, 7, 0, 0, 2, 1, 0, 0, 0, 4, 0, 9, 0, 0, 0, 0, 4, 1, 5, 0, 7, 8, 0, 0, 0, 7, 0, 0, 4, 2, 0, 0, 0, 5, 9, 2, 8, 0, 0, 0, 0, 7, 4, 8, 0, 1, 0, 5, 0, 0, 4, 0, 0, 0, 0, 0, 0, 0, 0, 0, 1, 0, 4, 9, 6, 1, 3, 0, 0, 0] [0, 0, 0, 0, 0, 0, 4, 9, 0, 0, 9, 6, 7, 0, 0, 2, 1, 0, 0, 0, 4, 0, 9, 0, 0, 0, 0, 4, 1, 5, 0, 7, 8, 0, 0, 0, 7, 0, 3, 4, 2, 0, 0, 0, 5, 9, 2, 8, 0, 0, 0, 0, 7, 4, 8, 0, 1, 0, 5, 0, 0, 4, 0, 0, 0, 0, 0, 0, 0, 0, 0, 1, 0, 4, 9, 6, 1, 3, 0, 0, 0] hF hV hD (by decide!) h51 38 3 (by decide) (by decide!) (by decide!) (by decide!)
    have h53 : dExtB E [0, 0, 0, 0, 0, 0, 4, 9, 0, 0, 9, 6, 7, 0, 0, 2, 1, 0, 0, 0, 4, 0, 9, 0, 0, 0, 0, 4, 1, 5, 0, 7, 8, 0, 0, 0, 7, 6, 3, 4, 2, 0, 0, 0, 5, 9, 2, 8, 0, 0, 0, 0, 7, 4, 8, 0, 1, 0, 5, 0, 0, 4, 0, 0, 0, 0, 0, 0, 0, 0, 0, 1, 0, 4, 9, 6, 1, 3, 0, 0, 0] = true :=
      nakedStepTo E [0, 0, 0, 0, 0, 0, 4, 9, 0, 0, 9, 6, 7, 0, 0, 2, 1, 0, 0, 0, 4, 0, 9, 0, 0, 0, 0, 4, 1, 5, 0, 7, 8, 0, 0, 0, 7, 0, 3, 4, 2, 0, 0, 0, 5, 9, 2, 8, 0, 0, 0, 0, 7, 4, 8, 0, 1, 0, 5, 0, 0, 4, 0, 0, 0, 0, 0, 0, 0, 0, 0, 1, 0, 4, 9, 6, 1, 3, 0, 0, 0] [0, 0, 0, 0, 0, 0, 4, 9, 0, 0, 9, 6, 7, 0, 0, 2, 1, 0, 0, 0, 4, 0, 9, 0, 0, 0, 0, 4, 1, 5, 0, 7, 8, 0, 0, 0, 7, 6, 3, 4, 2, 0, 0, 0, 5, 9, 2, 8, 0, 0, 0, 0, 7, 4, 8, 0, 1, 0, 5, 0, 0, 4, 0, 0, 0, 0, 0, 0, 0, 0, 0, 1, 0, 4, 9, 6, 1, 3, 0, 0, 0] hF hV hD (by decide!) h52 37 6 (by decide) (by decide!) (by decide!) (by decide!)
    have h54 : dExtB E [0, 0, 0, 0, 0, 0, 4, 9, 0, 0, 9, 6, 7, 0, 0, 2, 1, 0, 0, 0, 4, 0, 9, 0, 0, 0, 0, 4, 1, 5, 0, 7, 8, 0, 0, 0, 7, 6, 3, 4, 2, 0, 0, 8, 5, 9, 2, 8, 0, 0, 0, 0, 7, 4, 8, 0, 1, 0, 5, 0, 0, 4, 0, 0, 0, 0, 0, 0, 0, 0, 0, 1, 0, 4, 9, 6, 1, 3, 0, 0, 0] = true :=
      nakedStepTo E [0, 0, 0, 0, 0, 0, 4, 9, 0, 0, 9, 6, 7, 0, 0, 2, 1, 0, 0, 0, 4, 0, 9, 0, 0, 0, 0, 4, 1, 5, 0, 7, 8, 0, 0, 0, 7, 6, 3, 4, 2, 0, 0, 0, 5, 9, 2, 8, 0, 0, 0, 0, 7, 4, 8, 0, 1, 0, 5, 0, 0, 4, 0, 0, 0, 0, 0, 0, 0, 0, 0, 1, 0, 4, 9, 6, 1, 3, 0, 0, 0] [0, 0, 0, 0, 0, 0, 4, 9, 0, 0, 9, 6, 7, 0, 0, 2, 1, 0, 0, 0, 4, 0, 9, 0, 0, 0, 0, 4, 1, 5, 0, 7, 8, 0, 0, 0, 7, 6, 3, 4, 2, 0, 0, 8, 5, 9, 2, 8, 0, 0, 0, 0, 7, 4, 8, 0, 1, 0, 5, 0, 0, 4, 0, 0, 0, 0, 0, 0, 0, 0, 0, 1, 0, 4, 9, 6, 1, 3, 0, 0, 0] hF hV hD (by decide!) h53 43 8 (by decide) (by decide!) (by decide!) (by decide!)
    have h55 : dExtB E [0, 0, 0, 0, 0, 0, 4, 9, 0, 0, 9, 6, 7, 0, 0, 2, 1, 0, 0, 0, 4, 0, 9, 0, 0, 0, 0, 4, 1, 5, 0, 7, 8, 0, 0, 0, 7, 6, 3, 4, 2, 0, 0, 8, 5, 9, 2, 8, 0, 0, 0, 0, 7, 4, 8, 0, 1, 0, 5, 0, 0, 4, 0, 6, 0, 0, 0, 0, 0, 0, 0, 1, 0, 4, 9, 6, 1, 3, 0, 0, 0] = true :=
      hiddenStepTo E [0, 0, 0, 0, 0, 0, 4, 9, 0, 0, 9, 6, 7, 0, 0, 2, 1, 0, 0, 0, 4, 0, 9, 0, 0, 0, 0, 4, 1, 5, 0, 7, 8, 0, 0, 0, 7, 6, 3, 4, 2, 0, 0, 8, 5, 9, 2, 8, 0, 0, 0, 0, 7, 4, 8, 0, 1, 0, 5, 0, 0, 4, 0, 0, 0, 0, 0, 0, 0, 0, 0, 1, 0, 4, 9, 6, 1, 3, 0, 0, 0] [0, 0, 0, 0, 0, 0, 4, 9, 0, 0, 9, 6, 7, 0, 0, 2, 1, 0, 0, 0, 4, 0, 9, 0, 0, 0, 0, 4, 1, 5, 0, 7, 8, 0, 0, 0, 7, 6, 3, 4, 2, 0, 0, 8, 5, 9, 2, 8, 0, 0, 0, 0, 7, 4, 8, 0, 1, 0, 5, 0, 0, 4, 0, 6, 0, 0, 0, 0, 0, 0, 0, 1, 0, 4, 9, 6, 1, 3, 0, 0, 0] hF hV hD (by decide!) h54 [0, 9, 18, 27, 36, 45, 54, 63, 72] (by decide!) 6 (by decide) (by decide) (by decide!) 63 (by decide!) (by decide!)
    rcases branchStep E [0, 0, 0, 0, 0, 0, 4, 9, 0, 0, 9, 6, 7, 0, 0, 2, 1, 0, 0, 0, 4, 0, 9, 0, 0, 0, 0, 4, 1, 5, 0, 7, 8, 0, 0, 0, 7, 6, 3, 4, 2, 0, 0, 8, 5, 9, 2, 8, 0, 0, 0, 0, 7, 4, 8, 0, 1, 0, 5, 0, 0, 4, 0, 6, 0, 0, 0, 0, 0, 0, 0, 1, 0, 4, 9, 6, 1, 3, 0, 0, 0] hF hV hD (by decide!) h55 2 (by decide) (by decide!) [2, 7] (by decide!) with ⟨d56, hm56, he56⟩
    simp only [List.mem_cons, List.not_mem_nil, or_false] at hm56
    rcases hm56 with rfl | rfl
    · have h57 : dExtB E [0, 0, 2, 0, 0, 0, 4, 9, 0, 0, 9, 6, 7, 0, 0, 2, 1, 0, 0, 0, 4, 0, 9, 0, 0, 0, 0, 4, 1, 5, 0, 7, 8, 0, 0, 0, 7, 6, 3, 4, 2, 0, 0, 8, 5, 9, 2, 8, 0, 0, 0, 0, 7, 4, 8, 0, 1, 0, 5, 0, 0, 4, 0, 6, 0, 0, 0, 0, 0, 0, 0, 1, 0, 4, 9, 6, 1, 3, 0, 0, 0] = true := by
        rw [show [0, 0, 2, 0, 0, 0, 4, 9, 0, 0, 9, 6, 7, 0, 0, 2, 1, 0, 0, 0, 4, 0, 9, 0, 0, 0, 0, 4, 1, 5, 0, 7, 8, 0, 0, 0, 7, 6, 3, 4, 2, 0, 0, 8, 5, 9, 2, 8, 0, 0, 0, 0, 7, 4, 8, 0, 1, 0, 5, 0, 0, 4, 0, 6, 0, 0, 0, 0, 0, 0, 0, 1, 0, 4, 9, 6, 1, 3, 0, 0, 0] = List.set [0, 0, 0, 0, 0, 0, 4, 9, 0, 0, 9, 6, 7, 0, 0, 2, 1, 0, 0, 0, 4, 0, 9, 0, 0, 0, 0, 4, 1, 5, 0, 7, 8, 0, 0, 0, 7, 6, 3, 4, 2, 0, 0, 8, 5, 9, 2, 8, 0, 0, 0, 0, 7, 4, 8, 0, 1, 0, 5, 0, 0, 4, 0, 6, 0, 0, 0, 0, 0, 0, 0, 1, 0, 4, 9, 6, 1, 3, 0, 0, 0] 2 2 from by decide!]
        exact he56
      have h58 : dExtB E [0, 0, 2, 0, 0, 0, 4, 9, 0, 0, 9, 6, 7, 0, 0, 2, 1, 0, 0, 0, 4, 0, 9, 0, 0, 0, 0, 4, 1, 5, 0, 7, 8, 0, 0, 0, 7, 6, 3, 4, 2, 0, 0, 8, 5, 9, 2, 8, 0, 0, 0, 0, 7, 4, 8, 0, 1, 0, 5, 0, 0, 4, 0, 6, 0, 7, 0, 0, 0, 0, 0, 1, 0, 4, 9, 6, 1, 3, 0, 0, 0] = true :=
        nakedStepTo E [0, 0, 2, 0, 0, 0, 4, 9, 0, 0, 9, 6, 7, 0, 0, 2, 1, 0, 0, 0, 4, 0, 9, 0, 0, 0, 0, 4, 1, 5, 0, 7, 8, 0, 0, 0, 7, 6, 3, 4, 2, 0, 0, 8, 5, 9, 2, 8, 0, 0, 0, 0, 7, 4, 8, 0, 1, 0, 5, 0, 0, 4, 0, 6, 0, 0, 0, 0, 0, 0, 0, 1, 0, 4, 9, 6, 1, 3, 0, 0, 0] [0, 0, 2, 0, 0, 0, 4, 9, 0, 0, 9, 6, 7, 0, 0, 2, 1, 0, 0, 0, 4, 0, 9, 0, 0, 0, 0, 4, 1, 5, 0, 7, 8, 0, 0, 0, 7, 6, 3, 4, 2, 0, 0, 8, 5, 9, 2, 8, 0, 0, 0, 0, 7, 4, 8, 0, 1, 0, 5, 0, 0, 4, 0, 6, 0, 7, 0, 0, 0, 0, 0, 1, 0, 4, 9, 6, 1, 3, 0, 0, 0] hF hV hD (by decide!) h57 65 7 (by decide) (by decide!) (by decide!) (by decide!)
      have h59 : dExtB E [0, 0, 2, 0, 0, 0, 4, 9, 0, 0, 9, 6, 7, 0, 0, 2, 1, 0, 0, 0, 4, 0, 9, 0, 0, 0, 0, 4, 1, 5, 0, 7, 8, 0, 0, 0, 7, 6, 3, 4, 2, 0, 0, 8, 5, 9, 2, 8, 0, 0, 0, 0, 7, 4, 8, 3, 1, 0, 5, 0, 0, 4, 0, 6, 0, 7, 0, 0, 0, 0, 0, 1, 0, 4, 9, 6, 1, 3, 0, 0, 0] = true :=
        nakedStepTo E [0, 0, 2, 0, 0, 0, 4, 9, 0, 0, 9, 6, 7, 0, 0, 2, 1, 0, 0, 0, 4, 0, 9, 0, 0, 0, 0, 4, 1, 5, 0, 7, 8, 0, 0, 0, 7, 6, 3, 4, 2, 0, 0, 8, 5, 9, 2, 8, 0, 0, 0, 0, 7, 4, 8, 0, 1, 0, 5, 0, 0, 4, 0, 6, 0, 7, 0, 0, 0, 0, 0, 1, 0, 4, 9, 6, 1, 3, 0, 0, 0] [0, 0, 2, 0, 0, 0, 4, 9, 0, 0, 9, 6, 7, 0, 0, 2, 1, 0, 0, 0, 4, 0, 9, 0, 0, 0, 0, 4, 1, 5, 0, 7, 8, 0, 0, 0, 7, 6, 3, 4, 2, 0, 0, 8, 5, 9, 2, 8, 0, 0, 0, 0, 7, 4, 8, 3, 1, 0, 5, 0, 0, 4, 0, 6, 0, 7, 0, 0, 0, 0, 0, 1, 0, 4, 9, 6, 1, 3, 0, 0, 0] hF hV hD (by decide!) h58 55 3 (by decide) (by decide!) (by decide!) (by decide!)
      have h60 : dExtB E [0, 0, 2, 0, 0, 0, 4, 9, 0, 0, 9, 6, 7, 0, 0, 2, 1, 0, 0, 0, 4, 0, 9, 0, 0, 0, 0, 4, 1, 5, 0, 7, 8, 0, 0, 0, 7, 6, 3, 4, 2, 0, 0, 8, 5, 9, 2, 8, 0, 0, 0, 0, 7, 4, 8, 3, 1, 0, 5, 0, 0, 4, 0, 6, 5, 7, 0, 0, 0, 0, 0, 1, 0, 4, 9, 6, 1, 3, 0, 0, 0] = true :=
        nakedStepTo E [0, 0, 2, 0, 0, 0, 4, 9, 0, 0, 9, 6, 7, 0, 0, 2, 1, 0, 0, 0, 4, 0, 9, 0, 0, 0, 0, 4, 1, 5, 0, 7, 8, 0, 0, 0, 7, 6, 3, 4, 2, 0, 0, 8, 5, 9, 2, 8, 0, 0, 0, 0, 7, 4, 8, 3, 1, 0, 5, 0, 0, 4, 0, 6, 0, 7, 0, 0, 0, 0, 0, 1, 0, 4, 9, 6, 1, 3, 0, 0, 0] [0, 0, 2, 0, 0, 0, 4, 9, 0, 0, 9, 6, 7, 0, 0, 2, 1, 0, 0, 0, 4, 0, 9, 0, 0, 0, 0, 4, 1, 5, 0, 7, 8, 0, 0, 0, 7, 6, 3, 4, 2, 0, 0, 8, 5, 9, 2, 8, 0, 0, 0, 0, 7, 4, 8, 3, 1, 0, 5, 0, 0, 4, 0, 6, 5, 7, 0, 0, 0, 0, 0, 1, 0, 4, 9, 6, 1, 3, 0, 0, 0] hF hV hD (by decide!) h59 64 5 (by decide) (by decide!) (by decide!) (by decide!)
      have h61 : dExtB E [0, 0, 2, 0, 0, 0, 4, 9, 0, 0, 9, 6, 7, 0, 0, 2, 1, 0, 0, 0, 4, 0, 9, 0, 0, 0, 0, 4, 1, 5, 0, 7, 8, 0, 0, 0, 7, 6, 3, 4, 2, 0, 0, 8, 5, 9, 2, 8, 0, 0, 0, 0, 7, 4, 8, 3, 1, 0, 5, 0, 0, 4, 0, 6, 5, 7, 0, 0, 0, 0, 0, 1, 2, 4, 9, 6, 1, 3, 0, 0, 0] = true :=
        nakedStepTo E [0, 0, 2, 0, 0, 0, 4, 9, 0, 0, 9, 6, 7, 0, 0, 2, 1, 0, 0, 0, 4, 0, 9, 0, 0, 0, 0, 4, 1, 5, 0, 7, 8, 0, 0, 0, 7, 6, 3, 4, 2, 0, 0, 8, 5, 9, 2, 8, 0, 0, 0, 0, 7, 4, 8, 3, 1, 0, 5, 0, 0, 4, 0, 6, 5, 7, 0, 0, 0, 0, 0, 1, 0, 4, 9, 6, 1, 3, 0, 0, 0] [0, 0, 2, 0, 0, 0, 4, 9, 0, 0, 9, 6, 7, 0, 0, 2, 1, 0, 0, 0, 4, 0, 9, 0, 0, 0, 0, 4, 1, 5, 0, 7, 8, 0, 0, 0, 7, 6, 3, 4, 2, 0, 0, 8, 5, 9, 2, 8, 0, 0, 0, 0, 7, 4, 8, 3, 1, 0, 5, 0, 0, 4, 0, 6, 5, 7, 0, 0, 0, 0, 0, 1, 2, 4, 9, 6, 1, 3, 0, 0, 0] hF hV hD (by decide!) h60 72 2 (by decide) (by decide!) (by decide!) (by decide!)
      have h62 : dExtB E [0, 0, 2, 0, 0, 0, 4, 9, 0, 0, 9, 6, 7, 0, 0, 2, 1, 0, 0, 0, 4, 0, 9, 0, 0, 0, 0, 4, 1, 5, 0, 7, 8, 0, 0, 0, 7, 6, 3, 4, 2, 0, 0, 8, 5, 9, 2, 8, 0, 0, 0, 0, 7, 4, 8, 3, 1, 0, 5, 0, 0, 4, 0, 6, 5, 7, 0, 0, 0, 0, 0, 1, 2, 4, 9, 6, 1, 3, 0, 5, 0] = true :=
        nakedStepTo E [0, 0, 2, 0, 0, 0, 4, 9, 0, 0, 9, 6, 7, 0, 0, 2, 1, 0, 0, 0, 4, 0, 9, 0, 0, 0, 0, 4, 1, 5, 0, 7, 8, 0, 0, 0, 7, 6, 3, 4, 2, 0, 0, 8, 5, 9, 2, 8, 0, 0, 0, 0, 7, 4, 8, 3, 1, 0, 5, 0, 0, 4, 0, 6, 5, 7, 0, 0, 0, 0, 0, 1, 2, 4, 9, 6, 1, 3, 0, 0, 0] [0, 0, 2, 0, 0, 0, 4, 9, 0, 0, 9, 6, 7, 0, 0, 2, 1, 0, 0, 0, 4, 0, 9, 0, 0, 0, 0, 4, 1, 5, 0, 7, 8, 0, 0, 0, 7, 6, 3, 4, 2, 0, 0, 8, 5, 9, 2, 8, 0, 0, 0, 0, 7, 4, 8, 3, 1, 0, 5, 0, 0, 4, 0, 6, 5, 7, 0, 0, 0, 0, 0, 1, 2, 4, 9, 6, 1, 3, 0, 5, 0] hF hV hD (by decide!) h61 79 5 (by decide) (by decide!) (by decide!) (by decide!)
      have h63 : dExtB E [0, 0, 2, 0, 0, 0, 4, 9, 0, 0, 9, 6, 7, 0, 0, 2, 1, 0, 0, 0, 4, 0, 9, 0, 0, 0, 0, 4, 1, 5, 0, 7, 8, 0, 0, 0, 7, 6, 3, 4, 2, 0, 0, 8, 5, 9, 2, 8, 0, 0, 0, 0, 7, 4, 8, 3, 1, 0, 5, 7, 0, 4, 0, 6, 5, 7, 0, 0, 0, 0, 0, 1, 2, 4, 9, 6, 1, 3, 0, 5, 0] = true :=
        hiddenStepTo E [0, 0, 2, 0, 0, 0, 4, 9, 0, 0, 9, 6, 7, 0, 0, 2, 1, 0, 0, 0, 4, 0, 9, 0, 0, 0, 0, 4, 1, 5, 0, 7, 8, 0, 0, 0, 7, 6, 3, 4, 2, 0, 0, 8, 5, 9, 2, 8, 0, 0, 0, 0, 7, 4, 8, 3, 1, 0, 5, 0, 0, 4, 0, 6, 5, 7, 0, 0, 0, 0, 0, 1, 2, 4, 9, 6, 1, 3, 0, 5, 0] [0, 0, 2, 0, 0, 0, 4, 9, 0, 0, 9, 6, 7, 0, 0, 2, 1, 0, 0, 0, 4, 0, 9, 0, 0, 0, 0, 4, 1, 5, 0, 7, 8, 0, 0, 0, 7, 6, 3, 4, 2, 0, 0, 8, 5, 9, 2, 8, 0, 0, 0, 0, 7, 4, 8, 3, 1, 0, 5, 7, 0, 4, 0, 6, 5, 7, 0, 0, 0, 0, 0, 1, 2, 4, 9, 6, 1, 3, 0, 5, 0] hF hV hD (by decide!) h62 [5, 14, 23, 32, 41, 50, 59, 68, 77] (by decide!) 7 (by decide) (by decide) (by decide!) 59 (by decide!) (by decide!)
      have h64 : dExtB E [0, 0, 2, 0, 0, 0, 4, 9, 0, 0, 9, 6, 7, 0, 0, 2, 1, 0, 0, 0, 4, 0, 9, 0, 5, 0, 0, 4, 1, 5, 0, 7, 8, 0, 0, 0, 7, 6, 3, 4, 2, 0, 0, 8, 5, 9, 2, 8, 0, 0, 0, 0, 7, 4, 8, 3, 1, 0, 5, 7, 0, 4, 0, 6, 5, 7, 0, 0, 0, 0, 0, 1, 2, 4, 9, 6, 1, 3, 0, 5, 0] = true :=
        hiddenStepTo E [0, 0, 2, 0, 0, 0, 4, 9, 0, 0, 9, 6, 7, 0, 0, 2, 1, 0, 0, 0, 4, 0, 9, 0, 0, 0, 0, 4, 1, 5, 0, 7, 8, 0, 0, 0, 7, 6, 3, 4, 2, 0, 0, 8, 5, 9, 2, 8, 0, 0, 0, 0, 7, 4, 8, 3, 1, 0, 5, 7, 0, 4, 0, 6, 5, 7, 0, 0, 0, 0, 0, 1, 2, 4, 9, 6, 1, 3, 0, 5, 0] [0, 0, 2, 0, 0, 0, 4, 9, 0, 0, 9, 6, 7, 0, 0, 2, 1, 0, 0, 0, 4, 0, 9, 0, 5, 0, 0, 4, 1, 5, 0, 7, 8, 0, 0, 0, 7, 6, 3, 4, 2, 0, 0, 8, 5, 9, 2, 8, 0, 0, 0, 0, 7, 4, 8, 3, 1, 0, 5, 7, 0, 4, 0, 6, 5, 7, 0, 0, 0, 0, 0, 1, 2, 4, 9, 6, 1, 3, 0, 5, 0] hF hV hD (by decide!) h63 [6, 15, 24, 33, 42, 51, 60, 69, 78] (by decide!) 5 (by decide) (by decide) (by decide!) 24 (by decide!) (by decide!)
      have h65 : dExtB E [0, 0, 2, 0, 0, 0, 4, 9, 0, 0, 9, 6, 7, 0, 0, 2, 1, 0, 0, 0, 4, 0, 9, 0, 5, 0, 0, 4, 1, 5, 0, 7, 8, 0, 0, 0, 7, 6, 3, 4, 2, 0, 0, 8, 5, 9, 2, 8, 0, 0, 0, 0, 7, 4, 8, 3, 1, 0, 5, 7, 0, 4, 0, 6, 5, 7, 0, 0, 0, 0, 0, 1, 2, 4, 9, 6, 1, 3, 7, 5, 0] = true :=
        hiddenStepTo E [0, 0, 2, 0, 0, 0, 4, 9, 0, 0, 9, 6, 7, 0, 0, 2, 1, 0, 0, 0, 4, 0, 9, 0, 5, 0, 0, 4, 1, 5, 0, 7, 8, 0, 0, 0, 7, 6, 3, 4, 2, 0, 0, 8, 5, 9, 2, 8, 0, 0, 0, 0, 7, 4, 8, 3, 1, 0, 5, 7, 0, 4, 0, 6, 5, 7, 0, 0, 0, 0, 0, 1, 2, 4, 9, 6, 1, 3, 0, 5, 0] [0, 0, 2, 0, 0, 0, 4, 9, 0, 0, 9, 6, 7, 0, 0, 2, 1, 0, 0, 0, 4, 0, 9, 0, 5, 0, 0, 4, 1, 5, 0, 7, 8, 0, 0, 0, 7, 6, 3, 4, 2, 0, 0, 8, 5, 9, 2, 8, 0, 0, 0, 0, 7, 4, 8, 3, 1, 0, 5, 7, 0, 4, 0, 6, 5, 7, 0, 0, 0, 0, 0, 1, 2, 4, 9, 6, 1, 3, 7, 5, 0] hF hV hD (by decide!) h64 [6, 15, 24, 33, 42, 51, 60, 69, 78] (by decide!) 7 (by decide) (by decide) (by decide!) 78 (by decide!) (by decide!)
      have h66 : dExtB E [0, 0, 2, 0, 0, 0, 4, 9, 0, 0, 9, 6, 7, 0, 0, 2, 1, 0, 0, 0, 4, 0, 9, 0, 5, 0, 0, 4, 1, 5, 0, 7, 8, 0, 0, 0, 7, 6, 3, 4, 2, 0, 0, 8, 5, 9, 2, 8, 0, 0, 0, 0, 7, 4, 8, 3, 1, 0, 5, 7, 0, 4, 0, 6, 5, 7, 0, 0, 0, 8, 0, 1, 2, 4, 9, 6, 1, 3, 7, 5, 0] = true :=
        hiddenStepTo E [0, 0, 2, 0, 0, 0, 4, 9, 0, 0, 9, 6, 7, 0, 0, 2, 1, 0, 0, 0, 4, 0, 9, 0, 5, 0, 0, 4, 1, 5, 0, 7, 8, 0, 0, 0, 7, 6, 3, 4, 2, 0, 0, 8, 5, 9, 2, 8, 0, 0, 0, 0, 7, 4, 8, 3, 1, 0, 5, 7, 0, 4, 0, 6, 5, 7, 0, 0, 0, 0, 0, 1, 2, 4, 9, 6, 1, 3, 7, 5, 0] [0, 0, 2, 0, 0, 0, 4, 9, 0, 0, 9, 6, 7, 0, 0, 2, 1, 0, 0, 0, 4, 0, 9, 0, 5, 0, 0, 4, 1, 5, 0, 7, 8, 0, 0, 0, 7, 6, 3, 4, 2, 0, 0, 8, 5, 9, 2, 8, 0, 0, 0, 0, 7, 4, 8, 3, 1, 0, 5, 7, 0, 4, 0, 6, 5, 7, 0, 0, 0, 8, 0, 1, 2, 4, 9, 6, 1, 3, 7, 5, 0] hF hV hD (by decide!) h65 [6, 15, 24, 33, 42, 51, 60, 69, 78] (by decide!) 8 (by decide) (by decide) (by decide!) 69 (by decide!) (by decide!)
      exact (hiddenContra E [0, 0, 2, 0, 0, 0, 4, 9, 0, 0, 9, 6, 7, 0, 0, 2, 1, 0, 0, 0, 4, 0, 9, 0, 5, 0, 0, 4, 1, 5, 0, 7, 8, 0, 0, 0, 7, 6, 3, 4, 2, 0, 0, 8, 5, 9, 2, 8, 0, 0, 0, 0, 7, 4, 8, 3, 1, 0, 5, 7, 0, 4, 0, 6, 5, 7, 0, 0, 0, 8, 0, 1, 2, 4, 9, 6, 1, 3, 7, 5, 0] hF hV hD (by decide!) h66 [57, 58, 59, 66, 67, 68, 75, 76, 77] (by decide!) 8 (by decide) (by decide) (by decide!) (by decide!)).elim
    · have h67 : dExtB E [0, 0, 7, 0, 0, 0, 4, 9, 0, 0, 9, 6, 7, 0, 0, 2, 1, 0, 0, 0, 4, 0, 9, 0, 0, 0, 0, 4, 1, 5, 0, 7, 8, 0, 0, 0, 7, 6, 3, 4, 2, 0, 0, 8, 5, 9, 2, 8, 0, 0, 0, 0, 7, 4, 8, 0, 1, 0, 5, 0, 0, 4, 0, 6, 0, 0, 0, 0, 0, 0, 0, 1, 0, 4, 9, 6, 1, 3, 0, 0, 0] = true := by
        rw [show [0, 0, 7, 0, 0, 0, 4, 9, 0, 0, 9, 6, 7, 0, 0, 2, 1, 0, 0, 0, 4, 0, 9, 0, 0, 0, 0, 4, 1, 5, 0, 7, 8, 0, 0, 0, 7, 6, 3, 4, 2, 0, 0, 8, 5, 9, 2, 8, 0, 0, 0, 0, 7, 4, 8, 0, 1, 0, 5, 0, 0, 4, 0, 6, 0, 0, 0, 0, 0, 0, 0, 1, 0, 4, 9, 6, 1, 3, 0, 0, 0] = List.set [0, 0, 0, 0, 0, 0, 4, 9, 0, 0, 9, 6, 7, 0, 0, 2, 1, 0, 0, 0, 4, 0, 9, 0, 0, 0, 0, 4, 1, 5, 0, 7, 8, 0, 0, 0, 7, 6, 3, 4, 2, 0, 0, 8, 5, 9, 2, 8, 0, 0, 0, 0, 7, 4, 8, 0, 1, 0, 5, 0, 0, 4, 0, 6, 0, 0, 0, 0, 0, 0, 0, 1, 0, 4, 9, 6, 1, 3, 0, 0, 0] 2 7 from by decide!]
        exact he56
      have h68 : dExtB E [0, 0, 7, 0, 0, 0, 4, 9, 0, 0, 9, 6, 7, 0, 0, 2, 1, 0, 0, 0, 4, 0, 9, 0, 0, 0, 0, 4, 1, 5, 0, 7, 8, 0, 0, 0, 7, 6, 3, 4, 2, 0, 0, 8, 5, 9, 2, 8, 0, 0, 0, 0, 7, 4, 8, 0, 1, 0, 5, 0, 0, 4, 0, 6, 0, 2, 0, 0, 0, 0, 0, 1, 0, 4, 9, 6, 1, 3, 0, 0, 0] = true :=
        nakedStepTo E [0, 0, 7, 0, 0, 0, 4, 9, 0, 0, 9, 6, 7, 0, 0, 2, 1, 0, 0, 0, 4, 0, 9, 0, 0, 0, 0, 4, 1, 5, 0, 7, 8, 0, 0, 0, 7, 6, 3, 4, 2, 0, 0, 8, 5, 9, 2, 8, 0, 0, 0, 0, 7, 4, 8, 0, 1, 0, 5, 0, 0, 4, 0, 6, 0, 0, 0, 0, 0, 0, 0, 1, 0, 4, 9, 6, 1, 3, 0, 0, 0] [0, 0, 7, 0, 0, 0, 4, 9, 0, 0, 9, 6, 7, 0, 0, 2, 1, 0, 0, 0, 4, 0, 9, 0, 0, 0, 0, 4, 1, 5, 0, 7, 8, 0, 0, 0, 7, 6, 3, 4, 2, 0, 0, 8, 5, 9, 2, 8, 0, 0, 0, 0, 7, 4, 8, 0, 1, 0, 5, 0, 0, 4, 0, 6, 0, 2, 0, 0, 0, 0, 0, 1, 0, 4, 9, 6, 1, 3, 0, 0, 0] hF hV hD (by decide!) h67 65 2 (by decide) (by decide!) (by decide!) (by decide!)
      have h69 : dExtB E [0, 0, 7, 0, 0, 0, 4, 9, 0, 0, 9, 6, 7, 0, 0, 2, 1, 0, 0, 0, 4, 0, 9, 0, 0, 0, 0, 4, 1, 5, 0, 7, 8, 0, 0, 0, 7, 6, 3, 4, 2, 0, 0, 8, 5, 9, 2, 8, 0, 0, 0, 0, 7, 4, 8, 0, 1, 0, 5, 0, 0, 4, 0, 6, 0, 2, 0, 0, 0, 0, 0, 1, 5, 4, 9, 6, 1, 3, 0, 0, 0] = true :=
        nakedStepTo E [0, 0, 7, 0, 0, 0, 4, 9, 0, 0, 9, 6, 7, 0, 0, 2, 1, 0, 0, 0, 4, 0, 9, 0, 0, 0, 0, 4, 1, 5, 0, 7, 8, 0, 0, 0, 7, 6, 3, 4, 2, 0, 0, 8, 5, 9, 2, 8, 0, 0, 0, 0, 7, 4, 8, 0, 1, 0, 5, 0, 0, 4, 0, 6, 0, 2, 0, 0, 0, 0, 0, 1, 0, 4, 9, 6, 1, 3, 0, 0, 0] [0, 0, 7, 0, 0, 0, 4, 9, 0, 0, 9, 6, 7, 0, 0, 2, 1, 0, 0, 0, 4, 0, 9, 0, 0, 0, 0, 4, 1, 5, 0, 7, 8, 0, 0, 0, 7, 6, 3, 4, 2, 0, 0, 8, 5, 9, 2, 8, 0, 0, 0, 0, 7, 4, 8, 0, 1, 0, 5, 0, 0, 4, 0, 6, 0, 2, 0, 0, 0, 0, 0, 1, 5, 4, 9, 6, 1, 3, 0, 0, 0] hF hV hD (by decide!) h68 72 5 (by decide) (by decide!) (by decide!) (by decide!)
      have h70 : dExtB E [0, 0, 7, 0, 0, 0, 4, 9, 0, 0, 9, 6, 7, 0, 0, 2, 1, 0, 0, 0, 4, 0, 9, 0, 0, 0, 0, 4, 1, 5, 0, 7, 8, 0, 0, 0, 7, 6, 3, 4, 2, 0, 0, 8, 5, 9, 2, 8, 0, 0, 0, 0, 7, 4, 8, 0, 1, 0, 5, 0, 0, 4, 0, 6, 0, 2, 0, 0, 0, 0, 0, 1, 5, 4, 9, 6, 1, 3, 0, 2, 0] = true :=
        nakedStepTo E [0, 0, 7, 0, 0, 0, 4, 9, 0, 0, 9, 6, 7, 0, 0, 2, 1, 0, 0, 0, 4, 0, 9, 0, 0, 0, 0, 4, 1, 5, 0, 7, 8, 0, 0, 0, 7, 6, 3, 4, 2, 0, 0, 8, 5, 9, 2, 8, 0, 0, 0, 0, 7, 4, 8, 0, 1, 0, 5, 0, 0, 4, 0, 6, 0, 2, 0, 0, 0, 0, 0, 1, 5, 4, 9, 6, 1, 3, 0, 0, 0] [0, 0, 7, 0, 0, 0, 4, 9, 0, 0, 9, 6, 7, 0, 0, 2, 1, 0, 0, 0, 4, 0, 9, 0, 0, 0, 0, 4, 1, 5, 0, 7, 8, 0, 0, 0, 7, 6, 3, 4, 2, 0, 0, 8, 5, 9, 2, 8, 0, 0, 0, 0, 7, 4, 8, 0, 1, 0, 5, 0, 0, 4, 0, 6, 0, 2, 0, 0, 0, 0, 0, 1, 5, 4, 9, 6, 1, 3, 0, 2, 0] hF hV hD (by decide!) h69 79 2 (by decide) (by decide!) (by decide!) (by decide!)
      have h71 : dExtB E [0, 0, 7, 0, 0, 0, 4, 9, 0, 3, 9, 6, 7, 0, 0, 2, 1, 0, 0, 0, 4, 0, 9, 0, 0, 0, 0, 4, 1, 5, 0, 7, 8, 0, 0, 0, 7, 6, 3, 4, 2, 0, 0, 8, 5, 9, 2, 8, 0, 0, 0, 0, 7, 4, 8, 0, 1, 0, 5, 0, 0, 4, 0, 6, 0, 2, 0, 0, 0, 0, 0, 1, 5, 4, 9, 6, 1, 3, 0, 2, 0] = true :=
        nakedStepTo E [0, 0, 7, 0, 0, 0, 4, 9, 0, 0, 9, 6, 7, 0, 0, 2, 1, 0, 0, 0, 4, 0, 9, 0, 0, 0, 0, 4, 1, 5, 0, 7, 8, 0, 0, 0, 7, 6, 3, 4, 2, 0, 0, 8, 5, 9, 2, 8, 0, 0, 0, 0, 7, 4, 8, 0, 1, 0, 5, 0, 0, 4, 0, 6, 0, 2, 0, 0, 0, 0, 0, 1, 5, 4, 9, 6, 1, 3, 0, 2, 0] [0, 0, 7, 0, 0, 0, 4, 9, 0, 3, 9, 6, 7, 0, 0, 2, 1, 0, 0, 0, 4, 0, 9, 0, 0, 0, 0, 4, 1, 5, 0, 7, 8, 0, 0, 0, 7, 6, 3, 4, 2, 0, 0, 8, 5, 9, 2, 8, 0, 0, 0, 0, 7, 4, 8, 0, 1, 0, 5, 0, 0, 4, 0, 6, 0, 2, 0, 0, 0, 0, 0, 1, 5, 4, 9, 6, 1, 3, 0, 2, 0] hF hV hD (by decide!) h70 9 3 (by decide) (by decide!) (by decide!) (by decide!)
      have h72 : dExtB E [0, 0, 7, 0, 0, 0, 4, 9, 0, 3, 9, 6, 7, 0, 0, 2, 1, 8, 0, 0, 4, 0, 9, 0, 0, 0, 0, 4, 1, 5, 0, 7, 8, 0, 0, 0, 7, 6, 3, 4, 2, 0, 0, 8, 5, 9, 2, 8, 0, 0, 0, 0, 7, 4, 8, 0, 1, 0, 5, 0, 0, 4, 0, 6, 0, 2, 0, 0, 0, 0, 0, 1, 5, 4, 9, 6, 1, 3, 0, 2, 0] = true :=
        nakedStepTo E [0, 0, 7, 0, 0, 0, 4, 9, 0, 3, 9, 6, 7, 0, 0, 2, 1, 0, 0, 0, 4, 0, 9, 0, 0, 0, 0, 4, 1, 5, 0, 7, 8, 0, 0, 0, 7, 6, 3, 4, 2, 0, 0, 8, 5, 9, 2, 8, 0, 0, 0, 0, 7, 4, 8, 0, 1, 0, 5, 0, 0, 4, 0, 6, 0, 2, 0, 0, 0, 0, 0, 1, 5, 4, 9, 6, 1, 3, 0, 2, 0] [0, 0, 7, 0, 0, 0, 4, 9, 0, 3, 9, 6, 7, 0, 0, 2, 1, 8, 0, 0, 4, 0, 9, 0, 0, 0, 0, 4, 1, 5, 0, 7, 8, 0, 0, 0, 7, 6, 3, 4, 2, 0, 0, 8, 5, 9, 2, 8, 0, 0, 0, 0, 7, 4, 8, 0, 1, 0, 5, 0, 0, 4, 0, 6, 0, 2, 0, 0, 0, 0, 0, 1, 5, 4, 9, 6, 1, 3, 0, 2, 0] hF hV hD (by decide!) h71 17 8 (by decide) (by decide!) (by decide!) (by decide!)
      have h73 : dExtB E [0, 0, 7, 0, 0, 0, 4, 9, 0, 3, 9, 6, 7, 0, 0, 2, 1, 8, 0, 0, 4, 0, 9, 0, 0, 0, 0, 4, 1, 5, 0, 7, 8, 0, 0, 0, 7, 6, 3, 4, 2, 0, 0, 8, 5, 9, 2, 8, 0, 0, 0, 0, 7, 4, 8, 0, 1, 0, 5, 0, 0, 4, 0, 6, 0, 2, 0, 0, 0, 0, 0, 1, 5, 4, 9, 6, 1, 3, 0, 2, 7] = true :=
        nakedStepTo E [0, 0, 7, 0, 0, 0, 4, 9, 0, 3, 9, 6, 7, 0, 0, 2, 1, 8, 0, 0, 4, 0, 9, 0, 0, 0, 0, 4, 1, 5, 0, 7, 8, 0, 0, 0, 7, 6, 3, 4, 2, 0, 0, 8, 5, 9, 2, 8, 0, 0, 0, 0, 7, 4, 8, 0, 1, 0, 5, 0, 0, 4, 0, 6, 0, 2, 0, 0, 0, 0, 0, 1, 5, 4, 9, 6, 1, 3, 0, 2, 0] [0, 0, 7, 0, 0, 0, 4, 9, 0, 3, 9, 6, 7, 0, 0, 2, 1, 8, 0, 0, 4, 0, 9, 0, 0, 0, 0, 4, 1, 5, 0, 7, 8, 0, 0, 0, 7, 6, 3, 4, 2, 0, 0, 8, 5, 9, 2, 8, 0, 0, 0, 0, 7, 4, 8, 0, 1, 0, 5, 0, 0, 4, 0, 6, 0, 2, 0, 0, 0, 0, 0, 1, 5, 4, 9, 6, 1, 3, 0, 2, 7] hF hV hD (by decide!) h72 80 7 (by decide) (by decide!) (by decide!) (by decide!)
      have h74 : dExtB E [0, 0, 7, 0, 0, 0, 4, 9, 0, 3, 9, 6, 7, 4, 0, 2, 1, 8, 0, 0, 4, 0, 9, 0, 0, 0, 0, 4, 1, 5, 0, 7, 8, 0, 0, 0, 7, 6, 3, 4, 2, 0, 0, 8, 5, 9, 2, 8, 0, 0, 0, 0, 7, 4, 8, 0, 1, 0, 5, 0, 0, 4, 0, 6, 0, 2, 0, 0, 0, 0, 0, 1, 5, 4, 9, 6, 1, 3, 0, 2, 7] = true :=
        nakedStepTo E [0, 0, 7, 0, 0, 0, 4, 9, 0, 3, 9, 6, 7, 0, 0, 2, 1, 8, 0, 0, 4, 0, 9, 0, 0, 0, 0, 4, 1, 5, 0, 7, 8, 0, 0, 0, 7, 6, 3, 4, 2, 0, 0, 8, 5, 9, 2, 8, 0, 0, 0, 0, 7, 4, 8, 0, 1, 0, 5, 0, 0, 4, 0, 6, 0, 2, 0, 0, 0, 0, 0, 1, 5, 4, 9, 6, 1, 3, 0, 2, 7] [0, 0, 7, 0, 0, 0, 4, 9, 0, 3, 9, 6, 7, 4, 0, 2, 1, 8, 0, 0, 4, 0, 9, 0, 0, 0, 0, 4, 1, 5, 0, 7, 8, 0, 0, 0, 7, 6, 3, 4, 2, 0, 0, 8, 5, 9, 2, 8, 0, 0, 0, 0, 7, 4, 8, 0, 1, 0, 5, 0, 0, 4, 0, 6, 0, 2, 0, 0, 0, 0, 0, 1, 5, 4, 9, 6, 1, 3, 0, 2, 7] hF hV hD (by decide!) h73 13 4 (by decide) (by decide!) (by decide!) (by decide!)
      have h75 : dExtB E [0, 0, 7, 0, 0, 0, 4, 9, 0, 3, 9, 6, 7, 4, 5, 2, 1, 8, 0, 0, 4, 0, 9, 0, 0, 0, 0, 4, 1, 5, 0, 7, 8, 0, 0, 0, 7, 6, 3, 4, 2, 0, 0, 8, 5, 9, 2, 8, 0, 0, 0, 0, 7, 4, 8, 0, 1, 0, 5, 0, 0, 4, 0, 6, 0, 2, 0, 0, 0, 0, 0, 1, 5, 4, 9, 6, 1, 3, 0, 2, 7] = true :=
        nakedStepTo E [0, 0, 7, 0, 0, 0, 4, 9, 0, 3, 9, 6, 7, 4, 0, 2, 1, 8, 0, 0, 4, 0, 9, 0, 0, 0, 0, 4, 1, 5, 0, 7, 8, 0, 0, 0, 7, 6, 3, 4, 2, 0, 0, 8, 5, 9, 2, 8, 0, 0, 0, 0, 7, 4, 8, 0, 1, 0, 5, 0, 0, 4, 0, 6, 0, 2, 0, 0, 0, 0, 0, 1, 5, 4, 9, 6, 1, 3, 0, 2, 7] [0, 0, 7, 0, 0, 0, 4, 9, 0, 3, 9, 6, 7, 4, 5, 2, 1, 8, 0, 0, 4, 0, 9, 0, 0, 0, 0, 4, 1, 5, 0, 7, 8, 0, 0, 0, 7, 6, 3, 4, 2, 0, 0, 8, 5, 9, 2, 8, 0, 0, 0, 0, 7, 4, 8, 0, 1, 0, 5, 0, 0, 4, 0, 6, 0, 2, 0, 0, 0, 0, 0, 1, 5, 4, 9, 6, 1, 3, 0, 2, 7] hF hV hD (by decide!) h74 14 5 (by decide) (by decide!) (by decide!) (by decide!)
      have h76 : dExtB E [0, 0, 7, 0, 0, 0, 4, 9, 0, 3, 9, 6, 7, 4, 5, 2, 1, 8, 0, 0, 4, 0, 9, 0, 0, 0, 0, 4, 1, 5, 0, 7, 8, 0, 0, 0, 7, 6, 3, 4, 2, 0, 0, 8, 5, 9, 2, 8, 0, 0, 0, 0, 7, 4, 8, 0, 1, 0, 5, 0, 0, 4, 0, 6, 0, 2, 0, 8, 0, 0, 0, 1, 5, 4, 9, 6, 1, 3, 0, 2, 7] = true :=
        nakedStepTo E [0, 0, 7, 0, 0, 0, 4, 9, 0, 3, 9, 6, 7, 4, 5, 2, 1, 8, 0, 0, 4, 0, 9, 0, 0, 0, 0, 4, 1, 5, 0, 7, 8, 0, 0, 0, 7, 6, 3, 4, 2, 0, 0, 8, 5, 9, 2, 8, 0, 0, 0, 0, 7, 4, 8, 0, 1, 0, 5, 0, 0, 4, 0, 6, 0, 2, 0, 0, 0, 0, 0, 1, 5, 4, 9, 6, 1, 3, 0, 2, 7] [0, 0, 7, 0, 0, 0, 4, 9, 0, 3, 9, 6, 7, 4, 5, 2, 1, 8, 0, 0, 4, 0, 9, 0, 0, 0, 0, 4, 1, 5, 0, 7, 8, 0, 0, 0, 7, 6, 3, 4, 2, 0, 0, 8, 5, 9, 2, 8, 0, 0, 0, 0, 7, 4, 8, 0, 1, 0, 5, 0, 0, 4, 0, 6, 0, 2, 0, 8, 0, 0, 0, 1, 5, 4, 9, 6, 1, 3, 0, 2, 7] hF hV hD (by decide!) h75 67 8 (by decide) (by decide!) (by decide!) (by decide!)
      have h77 : dExtB E [0, 0, 7, 0, 0, 0, 4, 9, 0, 3, 9, 6, 7, 4, 5, 2, 1, 8, 0, 0, 4, 0, 9, 0, 0, 0, 0, 4, 1, 5, 0, 7, 8, 0, 0, 0, 7, 6, 3, 4, 2, 0, 0, 8, 5, 9, 2, 8, 0, 0, 0, 0, 7, 4, 8, 0, 1, 0, 5, 0, 0, 4, 0, 6, 0, 2, 0, 8, 0, 0, 0, 1, 5, 4, 9, 6, 1, 3, 8, 2, 7] = true :=
        nakedStepTo E [0, 0, 7, 0, 0, 0, 4, 9, 0, 3, 9, 6, 7, 4, 5, 2, 1, 8, 0, 0, 4, 0, 9, 0, 0, 0, 0, 4, 1, 5, 0, 7, 8, 0, 0, 0, 7, 6, 3, 4, 2, 0, 0, 8, 5, 9, 2, 8, 0, 0, 0, 0, 7, 4, 8, 0, 1, 0, 5, 0, 0, 4, 0, 6, 0, 2, 0, 8, 0, 0, 0, 1, 5, 4, 9, 6, 1, 3, 0, 2, 7] [0, 0, 7, 0, 0, 0, 4, 9, 0, 3, 9, 6, 7, 4, 5, 2, 1, 8, 0, 0, 4, 0, 9, 0, 0, 0, 0, 4, 1, 5, 0, 7, 8, 0, 0, 0, 7, 6, 3, 4, 2, 0, 0, 8, 5, 9, 2, 8, 0, 0, 0, 0, 7, 4, 8, 0, 1, 0, 5, 0, 0, 4, 0, 6, 0, 2, 0, 8, 0, 0, 0, 1, 5, 4, 9, 6, 1, 3, 8, 2, 7] hF hV hD (by decide!) h76 78 8 (by decide) (by decide!) (by decide!) (by decide!)
      have h78 : dExtB E [0, 0, 7, 0, 0, 0, 4, 9, 0, 3, 9, 6, 7, 4, 5, 2, 1, 8, 0, 0, 4, 0, 9, 0, 0, 0, 0, 4, 1, 5, 0, 7, 8, 0, 0, 0, 7, 6, 3, 4, 2, 0, 0, 8, 5, 9, 2, 8, 0, 0, 0, 0, 7, 4, 8, 0, 1, 0, 5, 0, 0, 4, 0, 6, 0, 2, 9, 8, 0, 0, 0, 1, 5, 4, 9, 6, 1, 3, 8, 2, 7] = true :=
        nakedStepTo E [0, 0, 7, 0, 0, 0, 4, 9, 0, 3, 9, 6, 7, 4, 5, 2, 1, 8, 0, 0, 4, 0, 9, 0, 0, 0, 0, 4, 1, 5, 0, 7, 8, 0, 0, 0, 7, 6, 3, 4, 2, 0, 0, 8, 5, 9, 2, 8, 0, 0, 0, 0, 7, 4, 8, 0, 1, 0, 5, 0, 0, 4, 0, 6, 0, 2, 0, 8, 0, 0, 0, 1, 5, 4, 9, 6, 1, 3, 8, 2, 7] [0, 0, 7, 0, 0, 0, 4, 9, 0, 3, 9, 6, 7, 4, 5, 2, 1, 8, 0, 0, 4, 0, 9, 0, 0, 0, 0, 4, 1, 5, 0, 7, 8, 0, 0, 0, 7, 6, 3, 4, 2, 0, 0, 8, 5, 9, 2, 8, 0, 0, 0, 0, 7, 4, 8, 0, 1, 0, 5, 0, 0, 4, 0, 6, 0, 2, 9, 8, 0, 0, 0, 1, 5, 4, 9, 6, 1, 3, 8, 2, 7] hF hV hD (by decide!) h77 66 9 (by decide) (by decide!) (by decide!) (by decide!)
      have h79 : dExtB E [0, 0, 7, 0, 0, 0, 4, 9, 0, 3, 9, 6, 7, 4, 5, 2, 1, 8, 0, 0, 4, 0, 9, 0, 0, 0, 0, 4, 1, 5, 3, 7, 8, 0, 0, 0, 7, 6, 3, 4, 2, 0, 0, 8, 5, 9, 2, 8, 0, 0, 0, 0, 7, 4, 8, 0, 1, 0, 5, 0, 0, 4, 0, 6, 0, 2, 9, 8, 0, 0, 0, 1, 5, 4, 9, 6, 1, 3, 8, 2, 7] = true :=
        nakedStepTo E [0, 0, 7, 0, 0, 0, 4, 9, 0, 3, 9, 6, 7, 4, 5, 2, 1, 8, 0, 0, 4, 0, 9, 0, 0, 0, 0, 4, 1, 5, 0, 7, 8, 0, 0, 0, 7, 6, 3, 4, 2, 0, 0, 8, 5, 9, 2, 8, 0, 0, 0, 0, 7, 4, 8, 0, 1, 0, 5, 0, 0, 4, 0, 6, 0, 2, 9, 8, 0, 0, 0, 1, 5, 4, 9, 6, 1, 3, 8, 2, 7] [0, 0, 7, 0, 0, 0, 4, 9, 0, 3, 9, 6, 7, 4, 5, 2, 1, 8, 0, 0, 4, 0, 9, 0, 0, 0, 0, 4, 1, 5, 3, 7, 8, 0, 0, 0, 7, 6, 3, 4, 2, 0, 0, 8, 5, 9, 2, 8, 0, 0, 0, 0, 7, 4, 8, 0, 1, 0, 5, 0, 0, 4, 0, 6, 0, 2, 9, 8, 0, 0, 0, 1, 5, 4, 9, 6, 1, 3, 8, 2, 7] hF hV hD (by decide!) h78 30 3 (by decide) (by decide!) (by decide!) (by decide!)
      have h80 : dExtB E [0, 0, 7, 0, 0, 0, 4, 9, 0, 3, 9, 6, 7, 4, 5, 2, 1, 8, 0, 0, 4, 0, 9, 0, 0, 0, 0, 4, 1, 5, 3, 7, 8, 0, 6, 0, 7, 6, 3, 4, 2, 0, 0, 8, 5, 9, 2, 8, 0, 0, 0, 0, 7, 4, 8, 0, 1, 0, 5, 0, 0, 4, 0, 6, 0, 2, 9, 8, 0, 0, 0, 1, 5, 4, 9, 6, 1, 3, 8, 2, 7] = true :=
        nakedStepTo E [0, 0, 7, 0, 0, 0, 4, 9, 0, 3, 9, 6, 7, 4, 5, 2, 1, 8, 0, 0, 4, 0, 9, 0, 0, 0, 0, 4, 1, 5, 3, 7, 8, 0, 0, 0, 7, 6, 3, 4, 2, 0, 0, 8, 5, 9, 2, 8, 0, 0, 0, 0, 7, 4, 8, 0, 1, 0, 5, 0, 0, 4, 0, 6, 0, 2, 9, 8, 0, 0, 0, 1, 5, 4, 9, 6, 1, 3, 8, 2, 7] [0, 0, 7, 0, 0, 0, 4, 9, 0, 3, 9, 6, 7, 4, 5, 2, 1, 8, 0, 0, 4, 0, 9, 0, 0, 0, 0, 4, 1, 5, 3, 7, 8, 0, 6, 0, 7, 6, 3, 4, 2, 0, 0, 8, 5, 9, 2, 8, 0, 0, 0, 0, 7, 4, 8, 0, 1, 0, 5, 0, 0, 4, 0, 6, 0, 2, 9, 8, 0, 0, 0, 1, 5, 4, 9, 6, 1, 3, 8, 2, 7] hF hV hD (by decide!) h79 34 6 (by decide) (by decide!) (by decide!) (by decide!)
      have h81 : dExtB E [0, 0, 7, 0, 0, 0, 4, 9, 0, 3, 9, 6, 7, 4, 5, 2, 1, 8, 0, 0, 4, 0, 9, 0, 0, 0, 0, 4, 1, 5, 3, 7, 8, 0, 6, 0, 7, 6, 3, 4, 2, 0, 0, 8, 5, 9, 2, 8, 0, 6, 0, 0, 7, 4, 8, 0, 1, 0, 5, 0, 0, 4, 0, 6, 0, 2, 9, 8, 0, 0, 0, 1, 5, 4, 9, 6, 1, 3, 8, 2, 7] = true :=
        nakedStepTo E [0, 0, 7, 0, 0, 0, 4, 9, 0, 3, 9, 6, 7, 4, 5, 2, 1, 8, 0, 0, 4, 0, 9, 0, 0, 0, 0, 4, 1, 5, 3, 7, 8, 0, 6, 0, 7, 6, 3, 4, 2, 0, 0, 8, 5, 9, 2, 8, 0, 0, 0, 0, 7, 4, 8, 0, 1, 0, 5, 0, 0, 4, 0, 6, 0, 2, 9, 8, 0, 0, 0, 1, 5, 4, 9, 6, 1, 3, 8, 2, 7] [0, 0, 7, 0, 0, 0, 4, 9, 0, 3, 9, 6, 7, 4, 5, 2, 1, 8, 0, 0, 4, 0, 9, 0, 0, 0, 0, 4, 1, 5, 3, 7, 8, 0, 6, 0, 7, 6, 3, 4, 2, 0, 0, 8, 5, 9, 2, 8, 0, 6, 0, 0, 7, 4, 8, 0, 1, 0, 5, 0, 0, 4, 0, 6, 0, 2, 9, 8, 0, 0, 0, 1, 5, 4, 9, 6, 1, 3, 8, 2, 7] hF hV hD (by decide!) h80 49 6 (by decide) (by decide!) (by decide!) (by decide!)
      have h82 : dExtB E [0, 0, 7, 0, 0, 0, 4, 9, 0, 3, 9, 6, 7, 4, 5, 2, 1, 8, 0, 0, 4, 0, 9, 0, 0, 0, 0, 4, 1, 5, 3, 7, 8, 0, 6, 0, 7, 6, 3, 4, 2, 0, 0, 8, 5, 9, 2, 8, 0, 6, 1, 0, 7, 4, 8, 0, 1, 0, 5, 0, 0, 4, 0, 6, 0, 2, 9, 8, 0, 0, 0, 1, 5, 4, 9, 6, 1, 3, 8, 2, 7] = true :=
        nakedStepTo E [0, 0, 7, 0, 0, 0, 4, 9, 0, 3, 9, 6, 7, 4, 5, 2, 1, 8, 0, 0, 4, 0, 9, 0, 0, 0, 0, 4, 1, 5, 3, 7, 8, 0, 6, 0, 7, 6, 3, 4, 2, 0, 0, 8, 5, 9, 2, 8, 0, 6, 0, 0, 7, 4, 8, 0, 1, 0, 5, 0, 0, 4, 0, 6, 0, 2, 9, 8, 0, 0, 0, 1, 5, 4, 9, 6, 1, 3, 8, 2, 7] [0, 0, 7, 0, 0, 0, 4, 9, 0, 3, 9, 6, 7, 4, 5, 2, 1, 8, 0, 0, 4, 0, 9, 0, 0, 0, 0, 4, 1, 5, 3, 7, 8, 0, 6, 0, 7, 6, 3, 4, 2, 0, 0, 8, 5, 9, 2, 8, 0, 6, 1, 0, 7, 4, 8, 0, 1, 0, 5, 0, 0, 4, 0, 6, 0, 2, 9, 8, 0, 0, 0, 1, 5, 4, 9, 6, 1, 3, 8, 2, 7] hF hV hD (by decide!) h81 50 1 (by decide) (by decide!) (by decide!) (by decide!)
      have h83 : dExtB E [0, 0, 7, 0, 0, 0, 4, 9, 0, 3, 9, 6, 7, 4, 5, 2, 1, 8, 0, 0, 4, 0, 9, 0, 0, 0, 0, 4, 1, 5, 3, 7, 8, 0, 6, 0, 7, 6, 3, 4, 2, 0, 0, 8, 5, 9, 2, 8, 0, 6, 1, 3, 7, 4, 8, 0, 1, 0, 5, 0, 0, 4, 0, 6, 0, 2, 9, 8, 0, 0, 0, 1, 5, 4, 9, 6, 1, 3, 8, 2, 7] = true :=
        nakedStepTo E [0, 0, 7, 0, 0, 0, 4, 9, 0, 3, 9, 6, 7, 4, 5, 2, 1, 8, 0, 0, 4, 0, 9, 0, 0, 0, 0, 4, 1, 5, 3, 7, 8, 0, 6, 0, 7, 6, 3, 4, 2, 0, 0, 8, 5, 9, 2, 8, 0, 6, 1, 0, 7, 4, 8, 0, 1, 0, 5, 0, 0, 4, 0, 6, 0, 2, 9, 8, 0, 0, 0, 1, 5, 4, 9, 6, 1, 3, 8, 2, 7] [0, 0, 7, 0, 0, 0, 4, 9, 0, 3, 9, 6, 7, 4, 5, 2, 1, 8, 0, 0, 4, 0, 9, 0, 0, 0, 0, 4, 1, 5, 3, 7, 8, 0, 6, 0, 7, 6, 3, 4, 2, 0, 0, 8, 5, 9, 2, 8, 0, 6, 1, 3, 7, 4, 8, 0, 1, 0, 5, 0, 0, 4, 0, 6, 0, 2, 9, 8, 0, 0, 0, 1, 5, 4, 9, 6, 1, 3, 8, 2, 7] hF hV hD (by decide!) h82 51 3 (by decide) (by decide!) (by decide!) (by decide!)
      have h84 : dExtB E [0, 0, 7, 0, 0, 0, 4, 9, 0, 3, 9, 6, 7, 4, 5, 2, 1, 8, 0, 0, 4, 0, 9, 0, 0, 0, 0, 4, 1, 5, 3, 7, 8, 0, 6, 0, 7, 6, 3, 4, 2, 0, 0, 8, 5, 9, 2, 8, 0, 6, 1, 3, 7, 4, 8, 0, 1, 2, 5, 0, 0, 4, 0, 6, 0, 2, 9, 8, 0, 0, 0, 1, 5, 4, 9, 6, 1, 3, 8, 2, 7] = true :=
        nakedStepTo E [0, 0, 7, 0, 0, 0, 4, 9, 0, 3, 9, 6, 7, 4, 5, 2, 1, 8, 0, 0, 4, 0, 9, 0, 0, 0, 0, 4, 1, 5, 3, 7, 8, 0, 6, 0, 7, 6, 3, 4, 2, 0, 0, 8, 5, 9, 2, 8, 0, 6, 1, 3, 7, 4, 8, 0, 1, 0, 5, 0, 0, 4, 0, 6, 0, 2, 9, 8, 0, 0, 0, 1, 5, 4, 9, 6, 1, 3, 8, 2, 7] [0, 0, 7, 0, 0, 0, 4, 9, 0, 3, 9, 6, 7, 4, 5, 2, 1, 8, 0, 0, 4, 0, 9, 0, 0, 0, 0, 4, 1, 5, 3, 7, 8, 0, 6, 0, 7, 6, 3, 4, 2, 0, 0, 8, 5, 9, 2, 8, 0, 6, 1, 3, 7, 4, 8, 0, 1, 2, 5, 0, 0, 4, 0, 6, 0, 2, 9, 8, 0, 0, 0, 1, 5, 4, 9, 6, 1, 3, 8, 2, 7] hF hV hD (by decide!) h83 57 2 (by decide) (by decide!) (by decide!) (by decide!)
      have h85 : dExtB E [0, 0, 7, 0, 0, 0, 4, 9, 0, 3, 9, 6, 7, 4, 5, 2, 1, 8, 0, 0, 4, 0, 9, 0, 0, 0, 0, 4, 1, 5, 3, 7, 8, 0, 6, 0, 7, 6, 3, 4, 2, 0, 0, 8, 5, 9, 2, 8, 0, 6, 1, 3, 7, 4, 8, 0, 1, 2, 5, 7, 0, 4, 0, 6, 0, 2, 9, 8, 0, 0, 0, 1, 5, 4, 9, 6, 1, 3, 8, 2, 7] = true :=
        nakedStepTo E [0, 0, 7, 0, 0, 0, 4, 9, 0, 3, 9, 6, 7, 4, 5, 2, 1, 8, 0, 0, 4, 0, 9, 0, 0, 0, 0, 4, 1, 5, 3, 7, 8, 0, 6, 0, 7, 6, 3, 4, 2, 0, 0, 8, 5, 9, 2, 8, 0, 6, 1, 3, 7, 4, 8, 0, 1, 2, 5, 0, 0, 4, 0, 6, 0, 2, 9, 8, 0, 0, 0, 1, 5, 4, 9, 6, 1, 3, 8, 2, 7] [0, 0, 7, 0, 0, 0, 4, 9, 0, 3, 9, 6, 7, 4, 5, 2, 1, 8, 0, 0, 4, 0, 9, 0, 0, 0, 0, 4, 1, 5, 3, 7, 8, 0, 6, 0, 7, 6, 3, 4, 2, 0, 0, 8, 5, 9, 2, 8, 0, 6, 1, 3, 7, 4, 8, 0, 1, 2, 5, 7, 0, 4, 0, 6, 0, 2, 9, 8, 0, 0, 0, 1, 5, 4, 9, 6, 1, 3, 8, 2, 7] hF hV hD (by decide!) h84 59 7 (by decide) (by decide!) (by decide!) (by decide!)
      have h86 : dExtB E [0, 0, 7, 0, 0, 0, 4, 9, 0, 3, 9, 6, 7, 4, 5, 2, 1, 8, 0, 0, 4, 0, 9, 0, 0, 0, 0, 4, 1, 5, 3, 7, 8, 0, 6, 0, 7, 6, 3, 4, 2, 0, 0, 8, 5, 9, 2, 8, 0, 6, 1, 3, 7, 4, 8, 0, 1, 2, 5, 7, 0, 4, 0, 6, 0, 2, 9, 8, 4, 0, 0, 1, 5, 4, 9, 6, 1, 3, 8, 2, 7] = true :=
        nakedStepTo E [0, 0, 7, 0, 0, 0, 4, 9, 0, 3, 9, 6, 7, 4, 5, 2, 1, 8, 0, 0, 4, 0, 9, 0, 0, 0, 0, 4, 1, 5, 3, 7, 8, 0, 6, 0, 7, 6, 3, 4, 2, 0, 0, 8, 5, 9, 2, 8, 0, 6, 1, 3, 7, 4, 8, 0, 1, 2, 5, 7, 0, 4, 0, 6, 0, 2, 9, 8, 0, 0, 0, 1, 5, 4, 9, 6, 1, 3, 8, 2, 7] [0, 0, 7, 0, 0, 0, 4, 9, 0, 3, 9, 6, 7, 4, 5, 2, 1, 8, 0, 0, 4, 0, 9, 0, 0, 0, 0, 4, 1, 5, 3, 7, 8, 0, 6, 0, 7, 6, 3, 4, 2, 0, 0, 8, 5, 9, 2, 8, 0, 6, 1, 3, 7, 4, 8, 0, 1, 2, 5, 7, 0, 4, 0, 6, 0, 2, 9, 8, 4, 0, 0, 1, 5, 4, 9, 6, 1, 3, 8, 2, 7] hF hV hD (by decide!) h85 68 4 (by decide) (by decide!) (by decide!) (by decide!)
      have h87 : dExtB E [0, 0, 7, 0, 0, 0, 4, 9, 0, 3, 9, 6, 7, 4, 5, 2, 1, 8, 0, 0, 4, 0, 9, 0, 0, 0, 0, 4, 1, 5, 3, 7, 8, 0, 6, 0, 7, 6, 3, 4, 2, 0, 0, 8, 5, 9, 2, 8, 0, 6, 1, 3, 7, 4, 8, 0, 1, 2, 5, 7, 0, 4, 0, 6, 0, 2, 9, 8, 4, 5, 0, 1, 5, 4, 9, 6, 1, 3, 8, 2, 7] = true :=
        nakedStepTo E [0, 0, 7, 0, 0, 0, 4, 9, 0, 3, 9, 6, 7, 4, 5, 2, 1, 8, 0, 0, 4, 0, 9, 0, 0, 0, 0, 4, 1, 5, 3, 7, 8, 0, 6, 0, 7, 6, 3, 4, 2, 0, 0, 8, 5, 9, 2, 8, 0, 6, 1, 3, 7, 4, 8, 0, 1, 2, 5, 7, 0, 4, 0, 6, 0, 2, 9, 8, 4, 0, 0, 1, 5, 4, 9, 6, 1, 3, 8, 2, 7] [0, 0, 7, 0, 0, 0, 4, 9, 0, 3, 9, 6, 7, 4, 5, 2, 1, 8, 0, 0, 4, 0, 9, 0, 0, 0, 0, 4, 1, 5, 3, 7, 8, 0, 6, 0, 7, 6, 3, 4, 2, 0, 0, 8, 5, 9, 2, 8, 0, 6, 1, 3, 7, 4, 8, 0, 1, 2, 5, 7, 0, 4, 0, 6, 0, 2, 9, 8, 4, 5, 0, 1, 5, 4, 9, 6, 1, 3, 8, 2, 7] hF hV hD (by decide!) h86 69 5 (by decide) (by decide!) (by decide!) (by decide!)
      have h88 : dExtB E [0, 0, 7, 0, 0, 0, 4, 9, 0, 3, 9, 6, 7, 4, 5, 2, 1, 8, 0, 0, 4, 0, 9, 0, 0, 0, 0, 4, 1, 5, 3, 7, 8, 0, 6, 0, 7, 6, 3, 4, 2, 0, 0, 8, 5, 9, 2, 8, 0, 6, 1, 3, 7, 4, 8, 0, 1, 2, 5, 7, 0, 4, 0, 6, 0, 2, 9, 8, 4, 5, 3, 1, 5, 4, 9, 6, 1, 3, 8, 2, 7] = true :=
        nakedStepTo E [0, 0, 7, 0, 0, 0, 4, 9, 0, 3, 9, 6, 7, 4, 5, 2, 1, 8, 0, 0, 4, 0, 9, 0, 0, 0, 0, 4, 1, 5, 3, 7, 8, 0, 6, 0, 7, 6, 3, 4, 2, 0, 0, 8, 5, 9, 2, 8, 0, 6, 1, 3, 7, 4, 8, 0, 1, 2, 5, 7, 0, 4, 0, 6, 0, 2, 9, 8, 4, 5, 0, 1, 5, 4, 9, 6, 1, 3, 8, 2, 7] [0, 0, 7, 0, 0, 0, 4, 9, 0, 3, 9, 6, 7, 4, 5, 2, 1, 8, 0, 0, 4, 0, 9, 0, 0, 0, 0, 4, 1, 5, 3, 7, 8, 0, 6, 0, 7, 6, 3, 4, 2, 0, 0, 8, 5, 9, 2, 8, 0, 6, 1, 3, 7, 4, 8, 0, 1, 2, 5, 7, 0, 4, 0, 6, 0, 2, 9, 8, 4, 5, 3, 1, 5, 4, 9, 6, 1, 3, 8, 2, 7] hF hV hD (by decide!) h87 70 3 (by decide) (by decide!) (by decide!) (by decide!)
      have h89 : dExtB E [0, 0, 7, 0, 3, 0, 4, 9, 0, 3, 9, 6, 7, 4, 5, 2, 1, 8, 0, 0, 4, 0, 9, 0, 0, 0, 0, 4, 1, 5, 3, 7, 8, 0, 6, 0, 7, 6, 3, 4, 2, 0, 0, 8, 5, 9, 2, 8, 0, 6, 1, 3, 7, 4, 8, 0, 1, 2, 5, 7, 0, 4, 0, 6, 0, 2, 9, 8, 4, 5, 3, 1, 5, 4, 9, 6, 1, 3, 8, 2, 7] = true :=
        nakedStepTo E [0, 0, 7, 0, 0, 0, 4, 9, 0, 3, 9, 6, 7, 4, 5, 2, 1, 8, 0, 0, 4, 0, 9, 0, 0, 0, 0, 4, 1, 5, 3, 7, 8, 0, 6, 0, 7, 6, 3, 4, 2, 0, 0, 8, 5, 9, 2, 8, 0, 6, 1, 3, 7, 4, 8, 0, 1, 2, 5, 7, 0, 4, 0, 6, 0, 2, 9, 8, 4, 5, 3, 1, 5, 4, 9, 6, 1, 3, 8, 2, 7] [0, 0, 7, 0, 3, 0, 4, 9, 0, 3, 9, 6, 7, 4, 5, 2, 1, 8, 0, 0, 4, 0, 9, 0, 0, 0, 0, 4, 1, 5, 3, 7, 8, 0, 6, 0, 7, 6, 3, 4, 2, 0, 0, 8, 5, 9, 2, 8, 0, 6, 1, 3, 7, 4, 8, 0, 1, 2, 5, 7, 0, 4, 0, 6, 0, 2, 9, 8, 4, 5, 3, 1, 5, 4, 9, 6, 1, 3, 8, 2, 7] hF hV hD (by decide!) h88 4 3 (by decide) (by decide!) (by decide!) (by decide!)
      have h90 : dExtB E [0, 0, 7, 0, 3, 0, 4, 9, 6, 3, 9, 6, 7, 4, 5, 2, 1, 8, 0, 0, 4, 0, 9, 0, 0, 0, 0, 4, 1, 5, 3, 7, 8, 0, 6, 0, 7, 6, 3, 4, 2, 0, 0, 8, 5, 9, 2, 8, 0, 6, 1, 3, 7, 4, 8, 0, 1, 2, 5, 7, 0, 4, 0, 6, 0, 2, 9, 8, 4, 5, 3, 1, 5, 4, 9, 6, 1, 3, 8, 2, 7] = true :=
        nakedStepTo E [0, 0, 7, 0, 3, 0, 4, 9, 0, 3, 9, 6, 7, 4, 5, 2, 1, 8, 0, 0, 4, 0, 9, 0, 0, 0, 0, 4, 1, 5, 3, 7, 8, 0, 6, 0, 7, 6, 3, 4, 2, 0, 0, 8, 5, 9, 2, 8, 0, 6, 1, 3, 7, 4, 8, 0, 1, 2, 5, 7, 0, 4, 0, 6, 0, 2, 9, 8, 4, 5, 3, 1, 5, 4, 9, 6, 1, 3, 8, 2, 7] [0, 0, 7, 0, 3, 0, 4, 9, 6, 3, 9, 6, 7, 4, 5, 2, 1, 8, 0, 0, 4, 0, 9, 0, 0, 0, 0, 4, 1, 5, 3, 7, 8, 0, 6, 0, 7, 6, 3, 4, 2, 0, 0, 8, 5, 9, 2, 8, 0, 6, 1, 3, 7, 4, 8, 0, 1, 2, 5, 7, 0, 4, 0, 6, 0, 2, 9, 8, 4, 5, 3, 1, 5, 4, 9, 6, 1, 3, 8, 2, 7] hF hV hD (by decide!) h89 8 6 (by decide) (by decide!) (by decide!) (by decide!)
      have h91 : dExtB E [0, 0, 7, 0, 3, 0, 4, 9, 6, 3, 9, 6, 7, 4, 5, 2, 1, 8, 0, 0, 4, 0, 9, 0, 7, 0, 0, 4, 1, 5, 3, 7, 8, 0, 6, 0, 7, 6, 3, 4, 2, 0, 0, 8, 5, 9, 2, 8, 0, 6, 1, 3, 7, 4, 8, 0, 1, 2, 5, 7, 0, 4, 0, 6, 0, 2, 9, 8, 4, 5, 3, 1, 5, 4, 9, 6, 1, 3, 8, 2, 7] = true :=
        nakedStepTo E [0, 0, 7, 0, 3, 0, 4, 9, 6, 3, 9, 6, 7, 4, 5, 2, 1, 8, 0, 0, 4, 0, 9, 0, 0, 0, 0, 4, 1, 5, 3, 7, 8, 0, 6, 0, 7, 6, 3, 4, 2, 0, 0, 8, 5, 9, 2, 8, 0, 6, 1, 3, 7, 4, 8, 0, 1, 2, 5, 7, 0, 4, 0, 6, 0, 2, 9, 8, 4, 5, 3, 1, 5, 4, 9, 6, 1, 3, 8, 2, 7] [0, 0, 7, 0, 3, 0, 4, 9, 6, 3, 9, 6, 7, 4, 5, 2, 1, 8, 0, 0, 4, 0, 9, 0, 7, 0, 0, 4, 1, 5, 3, 7, 8, 0, 6, 0, 7, 6, 3, 4, 2, 0, 0, 8, 5, 9, 2, 8, 0, 6, 1, 3, 7, 4, 8, 0, 1, 2, 5, 7, 0, 4, 0, 6, 0, 2, 9, 8, 4, 5, 3, 1, 5, 4, 9, 6, 1, 3, 8, 2, 7] hF hV hD (by decide!) h90 24 7 (by decide) (by decide!) (by decide!) (by decide!)
      have h92 : dExtB E [0, 0, 7, 0, 3, 0, 4, 9, 6, 3, 9, 6, 7, 4, 5, 2, 1, 8, 0, 0, 4, 0, 9, 0, 7, 5, 0, 4, 1, 5, 3, 7, 8, 0, 6, 0, 7, 6, 3, 4, 2, 0, 0, 8, 5, 9, 2, 8, 0, 6, 1, 3, 7, 4, 8, 0, 1, 2, 5, 7, 0, 4, 0, 6, 0, 2, 9, 8, 4, 5, 3, 1, 5, 4, 9, 6, 1, 3, 8, 2, 7] = true :=
        nakedStepTo E [0, 0, 7, 0, 3, 0, 4, 9, 6, 3, 9, 6, 7, 4, 5, 2, 1, 8, 0, 0, 4, 0, 9, 0, 7, 0, 0, 4, 1, 5, 3, 7, 8, 0, 6, 0, 7, 6, 3, 4, 2, 0, 0, 8, 5, 9, 2, 8, 0, 6, 1, 3, 7, 4, 8, 0, 1, 2, 5, 7, 0, 4, 0, 6, 0, 2, 9, 8, 4, 5, 3, 1, 5, 4, 9, 6, 1, 3, 8, 2, 7] [0, 0, 7, 0, 3, 0, 4, 9, 6, 3, 9, 6, 7, 4, 5, 2, 1, 8, 0, 0, 4, 0, 9, 0, 7, 5, 0, 4, 1, 5, 3, 7, 8, 0, 6, 0, 7, 6, 3, 4, 2, 0, 0, 8, 5, 9, 2, 8, 0, 6, 1, 3, 7, 4, 8, 0, 1, 2, 5, 7, 0, 4, 0, 6, 0, 2, 9, 8, 4, 5, 3, 1, 5, 4, 9, 6, 1, 3, 8, 2, 7] hF hV hD (by decide!) h91 25 5 (by decide) (by decide!) (by decide!) (by decide!)
      have h93 : dExtB E [0, 0, 7, 0, 3, 0, 4, 9, 6, 3, 9, 6, 7, 4, 5, 2, 1, 8, 0, 0, 4, 0, 9, 0, 7, 5, 3, 4, 1, 5, 3, 7, 8, 0, 6, 0, 7, 6, 3, 4, 2, 0, 0, 8, 5, 9, 2, 8, 0, 6, 1, 3, 7, 4, 8, 0, 1, 2, 5, 7, 0, 4, 0, 6, 0, 2, 9, 8, 4, 5, 3, 1, 5, 4, 9, 6, 1, 3, 8, 2, 7] = true :=
        nakedStepTo E [0, 0, 7, 0, 3, 0, 4, 9, 6, 3, 9, 6, 7, 4, 5, 2, 1, 8, 0, 0, 4, 0, 9, 0, 7, 5, 0, 4, 1, 5, 3, 7, 8, 0, 6, 0, 7, 6, 3, 4, 2, 0, 0, 8, 5, 9, 2, 8, 0, 6, 1, 3, 7, 4, 8, 0, 1, 2, 5, 7, 0, 4, 0, 6, 0, 2, 9, 8, 4, 5, 3, 1, 5, 4, 9, 6, 1, 3, 8, 2, 7] [0, 0, 7, 0, 3, 0, 4, 9, 6, 3, 9, 6, 7, 4, 5, 2, 1, 8, 0, 0, 4, 0, 9, 0, 7, 5, 3, 4, 1, 5, 3, 7, 8, 0, 6, 0, 7, 6, 3, 4, 2, 0, 0, 8, 5, 9, 2, 8, 0, 6, 1, 3, 7, 4, 8, 0, 1, 2, 5, 7, 0, 4, 0, 6, 0, 2, 9, 8, 4, 5, 3, 1, 5, 4, 9, 6, 1, 3, 8, 2, 7] hF hV hD (by decide!) h92 26 3 (by decide) (by decide!) (by decide!) (by decide!)
      have h94 : dExtB E [0, 0, 7, 0, 3, 0, 4, 9, 6, 3, 9, 6, 7, 4, 5, 2, 1, 8, 0, 0, 4, 0, 9, 0, 7, 5, 3, 4, 1, 5, 3, 7, 8, 9, 6, 0, 7, 6, 3, 4, 2, 0, 0, 8, 5, 9, 2, 8, 0, 6, 1, 3, 7, 4, 8, 0, 1, 2, 5, 7, 0, 4, 0, 6, 0, 2, 9, 8, 4, 5, 3, 1, 5, 4, 9, 6, 1, 3, 8, 2, 7] = true :=
        nakedStepTo E [0, 0, 7, 0, 3, 0, 4, 9, 6, 3, 9, 6, 7, 4, 5, 2, 1, 8, 0, 0, 4, 0, 9, 0, 7, 5, 3, 4, 1, 5, 3, 7, 8, 0, 6, 0, 7, 6, 3, 4, 2, 0, 0, 8, 5, 9, 2, 8, 0, 6, 1, 3, 7, 4, 8, 0, 1, 2, 5, 7, 0, 4, 0, 6, 0, 2, 9, 8, 4, 5, 3, 1, 5, 4, 9, 6, 1, 3, 8, 2, 7] [0, 0, 7, 0, 3, 0, 4, 9, 6, 3, 9, 6, 7, 4, 5, 2, 1, 8, 0, 0, 4, 0, 9, 0, 7, 5, 3, 4, 1, 5, 3, 7, 8, 9, 6, 0, 7, 6, 3, 4, 2, 0, 0, 8, 5, 9, 2, 8, 0, 6, 1, 3, 7, 4, 8, 0, 1, 2, 5, 7, 0, 4, 0, 6, 0, 2, 9, 8, 4, 5, 3, 1, 5, 4, 9, 6, 1, 3, 8, 2, 7] hF hV hD (by decide!) h93 33 9 (by decide) (by decide!) (by decide!) (by decide!)
      have h95 : dExtB E [0, 0, 7, 0, 3, 0, 4, 9, 6, 3, 9, 6, 7, 4, 5, 2, 1, 8, 0, 0, 4, 0, 9, 0, 7, 5, 3, 4, 1, 5, 3, 7, 8, 9, 6, 2, 7, 6, 3, 4, 2, 0, 0, 8, 5, 9, 2, 8, 0, 6, 1, 3, 7, 4, 8, 0, 1, 2, 5, 7, 0, 4, 0, 6, 0, 2, 9, 8, 4, 5, 3, 1, 5, 4, 9, 6, 1, 3, 8, 2, 7] = true :=
        nakedStepTo E [0, 0, 7, 0, 3, 0, 4, 9, 6, 3, 9, 6, 7, 4, 5, 2, 1, 8, 0, 0, 4, 0, 9, 0, 7, 5, 3, 4, 1, 5, 3, 7, 8, 9, 6, 0, 7, 6, 3, 4, 2, 0, 0, 8, 5, 9, 2, 8, 0, 6, 1, 3, 7, 4, 8, 0, 1, 2, 5, 7, 0, 4, 0, 6, 0, 2, 9, 8, 4, 5, 3, 1, 5, 4, 9, 6, 1, 3, 8, 2, 7] [0, 0, 7, 0, 3, 0, 4, 9, 6, 3, 9, 6, 7, 4, 5, 2, 1, 8, 0, 0, 4, 0, 9, 0, 7, 5, 3, 4, 1, 5, 3, 7, 8, 9, 6, 2, 7, 6, 3, 4, 2, 0, 0, 8, 5, 9, 2, 8, 0, 6, 1, 3, 7, 4, 8, 0, 1, 2, 5, 7, 0, 4, 0, 6, 0, 2, 9, 8, 4, 5, 3, 1, 5, 4, 9, 6, 1, 3, 8, 2, 7] hF hV hD (by decide!) h94 35 2 (by decide) (by decide!) (by decide!) (by decide!)
      have h96 : dExtB E [0, 0, 7, 0, 3, 0, 4, 9, 6, 3, 9, 6, 7, 4, 5, 2, 1, 8, 0, 0, 4, 0, 9, 0, 7, 5, 3, 4, 1, 5, 3, 7, 8, 9, 6, 2, 7, 6, 3, 4, 2, 9, 0, 8, 5, 9, 2, 8, 0, 6, 1, 3, 7, 4, 8, 0, 1, 2, 5, 7, 0, 4, 0, 6, 0, 2, 9, 8, 4, 5, 3, 1, 5, 4, 9, 6, 1, 3, 8, 2, 7] = true :=
        nakedStepTo E [0, 0, 7, 0, 3, 0, 4, 9, 6, 3, 9, 6, 7, 4, 5, 2, 1, 8, 0, 0, 4, 0, 9, 0, 7, 5, 3, 4, 1, 5, 3, 7, 8, 9, 6, 2, 7, 6, 3, 4, 2, 0, 0, 8, 5, 9, 2, 8, 0, 6, 1, 3, 7, 4, 8, 0, 1, 2, 5, 7, 0, 4, 0, 6, 0, 2, 9, 8, 4, 5, 3, 1, 5, 4, 9, 6, 1, 3, 8, 2, 7] [0, 0, 7, 0, 3, 0, 4, 9, 6, 3, 9, 6, 7, 4, 5, 2, 1, 8, 0, 0, 4, 0, 9, 0, 7, 5, 3, 4, 1, 5, 3, 7, 8, 9, 6, 2, 7, 6, 3, 4, 2, 9, 0, 8, 5, 9, 2, 8, 0, 6, 1, 3, 7, 4, 8, 0, 1, 2, 5, 7, 0, 4, 0, 6, 0, 2, 9, 8, 4, 5, 3, 1, 5, 4, 9, 6, 1, 3, 8, 2, 7] hF hV hD (by decide!) h95 41 9 (by decide) (by decide!) (by decide!) (by decide!)
      have h97 : dExtB E [0, 0, 7, 0, 3, 0, 4, 9, 6, 3, 9, 6, 7, 4, 5, 2, 1, 8, 0, 0, 4, 0, 9, 0, 7, 5, 3, 4, 1, 5, 3, 7, 8, 9, 6, 2, 7, 6, 3, 4, 2, 9, 1, 8, 5, 9, 2, 8, 0, 6, 1, 3, 7, 4, 8, 0, 1, 2, 5, 7, 0, 4, 0, 6, 0, 2, 9, 8, 4, 5, 3, 1, 5, 4, 9, 6, 1, 3, 8, 2, 7] = true :=
        nakedStepTo E [0, 0, 7, 0, 3, 0, 4, 9, 6, 3, 9, 6, 7, 4, 5, 2, 1, 8, 0, 0, 4, 0, 9, 0, 7, 5, 3, 4, 1, 5, 3, 7, 8, 9, 6, 2, 7, 6, 3, 4, 2, 9, 0, 8, 5, 9, 2, 8, 0, 6, 1, 3, 7, 4, 8, 0, 1, 2, 5, 7, 0, 4, 0, 6, 0, 2, 9, 8, 4, 5, 3, 1, 5, 4, 9, 6, 1, 3, 8, 2, 7] [0, 0, 7, 0, 3, 0, 4, 9, 6, 3, 9, 6, 7, 4, 5, 2, 1, 8, 0, 0, 4, 0, 9, 0, 7, 5, 3, 4, 1, 5, 3, 7, 8, 9, 6, 2, 7, 6, 3, 4, 2, 9, 1, 8, 5, 9, 2, 8, 0, 6, 1, 3, 7, 4, 8, 0, 1, 2, 5, 7, 0, 4, 0, 6, 0, 2, 9, 8, 4, 5, 3, 1, 5, 4, 9, 6, 1, 3, 8, 2, 7] hF hV hD (by decide!) h96 42 1 (by decide) (by decide!) (by decide!) (by decide!)
      have h98 : dExtB E [0, 0, 7, 0, 3, 0, 4, 9, 6, 3, 9, 6, 7, 4, 5, 2, 1, 8, 0, 0, 4, 0, 9, 0, 7, 5, 3, 4, 1, 5, 3, 7, 8, 9, 6, 2, 7, 6, 3, 4, 2, 9, 1, 8, 5, 9, 2, 8, 5, 6, 1, 3, 7, 4, 8, 0, 1, 2, 5, 7, 0, 4, 0, 6, 0, 2, 9, 8, 4, 5, 3, 1, 5, 4, 9, 6, 1, 3, 8, 2, 7] = true :=
        nakedStepTo E [0, 0, 7, 0, 3, 0, 4, 9, 6, 3, 9, 6, 7, 4, 5, 2, 1, 8, 0, 0, 4, 0, 9, 0, 7, 5, 3, 4, 1, 5, 3, 7, 8, 9, 6, 2, 7, 6, 3, 4, 2, 9, 1, 8, 5, 9, 2, 8, 0, 6, 1, 3, 7, 4, 8, 0, 1, 2, 5, 7, 0, 4, 0, 6, 0, 2, 9, 8, 4, 5, 3, 1, 5, 4, 9, 6, 1, 3, 8, 2, 7] [0, 0, 7, 0, 3, 0, 4, 9, 6, 3, 9, 6, 7, 4, 5, 2, 1, 8, 0, 0, 4, 0, 9, 0, 7, 5, 3, 4, 1, 5, 3, 7, 8, 9, 6, 2, 7, 6, 3, 4, 2, 9, 1, 8, 5, 9, 2, 8, 5, 6, 1, 3, 7, 4, 8, 0, 1, 2, 5, 7, 0, 4, 0, 6, 0, 2, 9, 8, 4, 5, 3, 1, 5, 4, 9, 6, 1, 3, 8, 2, 7] hF hV hD (by decide!) h97 48 5 (by decide) (by decide!) (by decide!) (by decide!)
      have h99 : dExtB E [0, 0, 7, 0, 3, 0, 4, 9, 6, 3, 9, 6, 7, 4, 5, 2, 1, 8, 0, 0, 4, 0, 9, 0, 7, 5, 3, 4, 1, 5, 3, 7, 8, 9, 6, 2, 7, 6, 3, 4, 2, 9, 1, 8, 5, 9, 2, 8, 5, 6, 1, 3, 7, 4, 8, 3, 1, 2, 5, 7, 0, 4, 0, 6, 0, 2, 9, 8, 4, 5, 3, 1, 5, 4, 9, 6, 1, 3, 8, 2, 7] = true :=
        nakedStepTo E [0, 0, 7, 0, 3, 0, 4, 9, 6, 3, 9, 6, 7, 4, 5, 2, 1, 8, 0, 0, 4, 0, 9, 0, 7, 5, 3, 4, 1, 5, 3, 7, 8, 9, 6, 2, 7, 6, 3, 4, 2, 9, 1, 8, 5, 9, 2, 8, 5, 6, 1, 3, 7, 4, 8, 0, 1, 2, 5, 7, 0, 4, 0, 6, 0, 2, 9, 8, 4, 5, 3, 1, 5, 4, 9, 6, 1, 3, 8, 2, 7] [0, 0, 7, 0, 3, 0, 4, 9, 6, 3, 9, 6, 7, 4, 5, 2, 1, 8, 0, 0, 4, 0, 9, 0, 7, 5, 3, 4, 1, 5, 3, 7, 8, 9, 6, 2, 7, 6, 3, 4, 2, 9, 1, 8, 5, 9, 2, 8, 5, 6, 1, 3, 7, 4, 8, 3, 1, 2, 5, 7, 0, 4, 0, 6, 0, 2, 9, 8, 4, 5, 3, 1, 5, 4, 9, 6, 1, 3, 8, 2, 7] hF hV hD (by decide!) h98 55 3 (by decide) (by decide!) (by decide!) (by decide!)
      have h100 : dExtB E [0, 0, 7, 0, 3, 0, 4, 9, 6, 3, 9, 6, 7, 4, 5, 2, 1, 8, 0, 0, 4, 0, 9, 0, 7, 5, 3, 4, 1, 5, 3, 7, 8, 9, 6, 2, 7, 6, 3, 4, 2, 9, 1, 8, 5, 9, 2, 8, 5, 6, 1, 3, 7, 4, 8, 3, 1, 2, 5, 7, 6, 4, 0, 6, 0, 2, 9, 8, 4, 5, 3, 1, 5, 4, 9, 6, 1, 3, 8, 2, 7] = true :=
        nakedStepTo E [0, 0, 7, 0, 3, 0, 4, 9, 6, 3, 9, 6, 7, 4, 5, 2, 1, 8, 0, 0, 4, 0, 9, 0, 7, 5, 3, 4, 1, 5, 3, 7, 8, 9, 6, 2, 7, 6, 3, 4, 2, 9, 1, 8, 5, 9, 2, 8, 5, 6, 1, 3, 7, 4, 8, 3, 1, 2, 5, 7, 0, 4, 0, 6, 0, 2, 9, 8, 4, 5, 3, 1, 5, 4, 9, 6, 1, 3, 8, 2, 7] [0, 0, 7, 0, 3, 0, 4, 9, 6, 3, 9, 6, 7, 4, 5, 2, 1, 8, 0, 0, 4, 0, 9, 0, 7, 5, 3, 4, 1, 5, 3, 7, 8, 9, 6, 2, 7, 6, 3, 4, 2, 9, 1, 8, 5, 9, 2, 8, 5, 6, 1, 3, 7, 4, 8, 3, 1, 2, 5, 7, 6, 4, 0, 6, 0, 2, 9, 8, 4, 5, 3, 1, 5, 4, 9, 6, 1, 3, 8, 2, 7] hF hV hD (by decide!) h99 60 6 (by decide) (by decide!) (by decide!) (by decide!)
      have h101 : dExtB E [0, 0, 7, 0, 3, 0, 4, 9, 6, 3, 9, 6, 7, 4, 5, 2, 1, 8, 0, 0, 4, 0, 9, 0, 7, 5, 3, 4, 1, 5, 3, 7, 8, 9, 6, 2, 7, 6, 3, 4, 2, 9, 1, 8, 5, 9, 2, 8, 5, 6, 1, 3, 7, 4, 8, 3, 1, 2, 5, 7, 6, 4, 9, 6, 0, 2, 9, 8, 4, 5, 3, 1, 5, 4, 9, 6, 1, 3, 8, 2, 7] = true :=
        nakedStepTo E [0, 0, 7, 0, 3, 0, 4, 9, 6, 3, 9, 6, 7, 4, 5, 2, 1, 8, 0, 0, 4, 0, 9, 0, 7, 5, 3, 4, 1, 5, 3, 7, 8, 9, 6, 2, 7, 6, 3, 4, 2, 9, 1, 8, 5, 9, 2, 8, 5, 6, 1, 3, 7, 4, 8, 3, 1, 2, 5, 7, 6, 4, 0, 6, 0, 2, 9, 8, 4, 5, 3, 1, 5, 4, 9, 6, 1, 3, 8, 2, 7] [0, 0, 7, 0, 3, 0, 4, 9, 6, 3, 9, 6, 7, 4, 5, 2, 1, 8, 0, 0, 4, 0, 9, 0, 7, 5, 3, 4, 1, 5, 3, 7, 8, 9, 6, 2, 7, 6, 3, 4, 2, 9, 1, 8, 5, 9, 2, 8, 5, 6, 1, 3, 7, 4, 8, 3, 1, 2, 5, 7, 6, 4, 9, 6, 0, 2, 9, 8, 4, 5, 3, 1, 5, 4, 9, 6, 1, 3, 8, 2, 7] hF hV hD (by decide!) h100 62 9 (by decide) (by decide!) (by decide!) (by decide!)
      have h102 : dExtB E [0, 0, 7, 0, 3, 0, 4, 9, 6, 3, 9, 6, 7, 4, 5, 2, 1, 8, 0, 0, 4, 0, 9, 0, 7, 5, 3, 4, 1, 5, 3, 7, 8, 9, 6, 2, 7, 6, 3, 4, 2, 9, 1, 8, 5, 9, 2, 8, 5, 6, 1, 3, 7, 4, 8, 3, 1, 2, 5, 7, 6, 4, 9, 6, 7, 2, 9, 8, 4, 5, 3, 1, 5, 4, 9, 6, 1, 3, 8, 2, 7] = true :=
        nakedStepTo E [0, 0, 7, 0, 3, 0, 4, 9, 6, 3, 9, 6, 7, 4, 5, 2, 1, 8, 0, 0, 4, 0, 9, 0, 7, 5, 3, 4, 1, 5, 3, 7, 8, 9, 6, 2, 7, 6, 3, 4, 2, 9, 1, 8, 5, 9, 2, 8, 5, 6, 1, 3, 7, 4, 8, 3, 1, 2, 5, 7, 6, 4, 9, 6, 0, 2, 9, 8, 4, 5, 3, 1, 5, 4, 9, 6, 1, 3, 8, 2, 7] [0, 0, 7, 0, 3, 0, 4, 9, 6, 3, 9, 6, 7, 4, 5, 2, 1, 8, 0, 0, 4, 0, 9, 0, 7, 5, 3, 4, 1, 5, 3, 7, 8, 9, 6, 2, 7, 6, 3, 4, 2, 9, 1, 8, 5, 9, 2, 8, 5, 6, 1, 3, 7, 4, 8, 3, 1, 2, 5, 7, 6, 4, 9, 6, 7, 2, 9, 8, 4, 5, 3, 1, 5, 4, 9, 6, 1, 3, 8, 2, 7] hF hV hD (by decide!) h101 64 7 (by decide) (by decide!) (by decide!) (by decide!)
      have h103 : dExtB E [0, 0, 7, 0, 3, 2, 4, 9, 6, 3, 9, 6, 7, 4, 5, 2, 1, 8, 0, 0, 4, 0, 9, 0, 7, 5, 3, 4, 1, 5, 3, 7, 8, 9, 6, 2, 7, 6, 3, 4, 2, 9, 1, 8, 5, 9, 2, 8, 5, 6, 1, 3, 7, 4, 8, 3, 1, 2, 5, 7, 6, 4, 9, 6, 7, 2, 9, 8, 4, 5, 3, 1, 5, 4, 9, 6, 1, 3, 8, 2, 7] = true :=
        nakedStepTo E [0, 0, 7, 0, 3, 0, 4, 9, 6, 3, 9, 6, 7, 4, 5, 2, 1, 8, 0, 0, 4, 0, 9, 0, 7, 5, 3, 4, 1, 5, 3, 7, 8, 9, 6, 2, 7, 6, 3, 4, 2, 9, 1, 8, 5, 9, 2, 8, 5, 6, 1, 3, 7, 4, 8, 3, 1, 2, 5, 7, 6, 4, 9, 6, 7, 2, 9, 8, 4, 5, 3, 1, 5, 4, 9, 6, 1, 3, 8, 2, 7] [0, 0, 7, 0, 3, 2, 4, 9, 6, 3, 9, 6, 7, 4, 5, 2, 1, 8, 0, 0, 4, 0, 9, 0, 7, 5, 3, 4, 1, 5, 3, 7, 8, 9, 6, 2, 7, 6, 3, 4, 2, 9, 1, 8, 5, 9, 2, 8, 5, 6, 1, 3, 7, 4, 8, 3, 1, 2, 5, 7, 6, 4, 9, 6, 7, 2, 9, 8, 4, 5, 3, 1, 5, 4, 9, 6, 1, 3, 8, 2, 7] hF hV hD (by decide!) h102 5 2 (by decide) (by decide!) (by decide!) (by decide!)
      have h104 : dExtB E [0, 0, 7, 0, 3, 2, 4, 9, 6, 3, 9, 6, 7, 4, 5, 2, 1, 8, 0, 8, 4, 0, 9, 0, 7, 5, 3, 4, 1, 5, 3, 7, 8, 9, 6, 2, 7, 6, 3, 4, 2, 9, 1, 8, 5, 9, 2, 8, 5, 6, 1, 3, 7, 4, 8, 3, 1, 2, 5, 7, 6, 4, 9, 6, 7, 2, 9, 8, 4, 5, 3, 1, 5, 4, 9, 6, 1, 3, 8, 2, 7] = true :=
        nakedStepTo E [0, 0, 7, 0, 3, 2, 4, 9, 6, 3, 9, 6, 7, 4, 5, 2, 1, 8, 0, 0, 4, 0, 9, 0, 7, 5, 3, 4, 1, 5, 3, 7, 8, 9, 6, 2, 7, 6, 3, 4, 2, 9, 1, 8, 5, 9, 2, 8, 5, 6, 1, 3, 7, 4, 8, 3, 1, 2, 5, 7, 6, 4, 9, 6, 7, 2, 9, 8, 4, 5, 3, 1, 5, 4, 9, 6, 1, 3, 8, 2, 7] [0, 0, 7, 0, 3, 2, 4, 9, 6, 3, 9, 6, 7, 4, 5, 2, 1, 8, 0, 8, 4, 0, 9, 0, 7, 5, 3, 4, 1, 5, 3, 7, 8, 9, 6, 2, 7, 6, 3, 4, 2, 9, 1, 8, 5, 9, 2, 8, 5, 6, 1, 3, 7, 4, 8, 3, 1, 2, 5, 7, 6, 4, 9, 6, 7, 2, 9, 8, 4, 5, 3, 1, 5, 4, 9, 6, 1, 3, 8, 2, 7] hF hV hD (by decide!) h103 19 8 (by decide) (by decide!) (by decide!) (by decide!)
      have h105 : dExtB E [0, 0, 7, 0, 3, 2, 4, 9, 6, 3, 9, 6, 7, 4, 5, 2, 1, 8, 0, 8, 4, 1, 9, 0, 7, 5, 3, 4, 1, 5, 3, 7, 8, 9, 6, 2, 7, 6, 3, 4, 2, 9, 1, 8, 5, 9, 2, 8, 5, 6, 1, 3, 7, 4, 8, 3, 1, 2, 5, 7, 6, 4, 9, 6, 7, 2, 9, 8, 4, 5, 3, 1, 5, 4, 9, 6, 1, 3, 8, 2, 7] = true :=
        nakedStepTo E [0, 0, 7, 0, 3, 2, 4, 9, 6, 3, 9, 6, 7, 4, 5, 2, 1, 8, 0, 8, 4, 0, 9, 0, 7, 5, 3, 4, 1, 5, 3, 7, 8, 9, 6, 2, 7, 6, 3, 4, 2, 9, 1, 8, 5, 9, 2, 8, 5, 6, 1, 3, 7, 4, 8, 3, 1, 2, 5, 7, 6, 4, 9, 6, 7, 2, 9, 8, 4, 5, 3, 1, 5, 4, 9, 6, 1, 3, 8, 2, 7] [0, 0, 7, 0, 3, 2, 4, 9, 6, 3, 9, 6, 7, 4, 5, 2, 1, 8, 0, 8, 4, 1, 9, 0, 7, 5, 3, 4, 1, 5, 3, 7, 8, 9, 6, 2, 7, 6, 3, 4, 2, 9, 1, 8, 5, 9, 2, 8, 5, 6, 1, 3, 7, 4, 8, 3, 1, 2, 5, 7, 6, 4, 9, 6, 7, 2, 9, 8, 4, 5, 3, 1, 5, 4, 9, 6, 1, 3, 8, 2, 7] hF hV hD (by decide!) h104 21 1 (by decide) (by decide!) (by decide!) (by decide!)
      have h106 : dExtB E [0, 0, 7, 0, 3, 2, 4, 9, 6, 3, 9, 6, 7, 4, 5, 2, 1, 8, 0, 8, 4, 1, 9, 6, 7, 5, 3, 4, 1, 5, 3, 7, 8, 9, 6, 2, 7, 6, 3, 4, 2, 9, 1, 8, 5, 9, 2, 8, 5, 6, 1, 3, 7, 4, 8, 3, 1, 2, 5, 7, 6, 4, 9, 6, 7, 2, 9, 8, 4, 5, 3, 1, 5, 4, 9, 6, 1, 3, 8, 2, 7] = true :=
        nakedStepTo E [0, 0, 7, 0, 3, 2, 4, 9, 6, 3, 9, 6, 7, 4, 5, 2, 1, 8, 0, 8, 4, 1, 9, 0, 7, 5, 3, 4, 1, 5, 3, 7, 8, 9, 6, 2, 7, 6, 3, 4, 2, 9, 1, 8, 5, 9, 2, 8, 5, 6, 1, 3, 7, 4, 8, 3, 1, 2, 5, 7, 6, 4, 9, 6, 7, 2, 9, 8, 4, 5, 3, 1, 5, 4, 9, 6, 1, 3, 8, 2, 7] [0, 0, 7, 0, 3, 2, 4, 9, 6, 3, 9, 6, 7, 4, 5, 2, 1, 8, 0, 8, 4, 1, 9, 6, 7, 5, 3, 4, 1, 5, 3, 7, 8, 9, 6, 2, 7, 6, 3, 4, 2, 9, 1, 8, 5, 9, 2, 8, 5, 6, 1, 3, 7, 4, 8, 3, 1, 2, 5, 7, 6, 4, 9, 6, 7, 2, 9, 8, 4, 5, 3, 1, 5, 4, 9, 6, 1, 3, 8, 2, 7] hF hV hD (by decide!) h105 23 6 (by decide) (by decide!) (by decide!) (by decide!)
      have h107 : dExtB E [1, 0, 7, 0, 3, 2, 4, 9, 6, 3, 9, 6, 7, 4, 5, 2, 1, 8, 0, 8, 4, 1, 9, 6, 7, 5, 3, 4, 1, 5, 3, 7, 8, 9, 6, 2, 7, 6, 3, 4, 2, 9, 1, 8, 5, 9, 2, 8, 5, 6, 1, 3, 7, 4, 8, 3, 1, 2, 5, 7, 6, 4, 9, 6, 7, 2, 9, 8, 4, 5, 3, 1, 5, 4, 9, 6, 1, 3, 8, 2, 7] = true :=
        nakedStepTo E [0, 0, 7, 0, 3, 2, 4, 9, 6, 3, 9, 6, 7, 4, 5, 2, 1, 8, 0, 8, 4, 1, 9, 6, 7, 5, 3, 4, 1, 5, 3, 7, 8, 9, 6, 2, 7, 6, 3, 4, 2, 9, 1, 8, 5, 9, 2, 8, 5, 6, 1, 3, 7, 4, 8, 3, 1, 2, 5, 7, 6, 4, 9, 6, 7, 2, 9, 8, 4, 5, 3, 1, 5, 4, 9, 6, 1, 3, 8, 2, 7] [1, 0, 7, 0, 3, 2, 4, 9, 6, 3, 9, 6, 7, 4, 5, 2, 1, 8, 0, 8, 4, 1, 9, 6, 7, 5, 3, 4, 1, 5, 3, 7, 8, 9, 6, 2, 7, 6, 3, 4, 2, 9, 1, 8, 5, 9, 2, 8, 5, 6, 1, 3, 7, 4, 8, 3, 1, 2, 5, 7, 6, 4, 9, 6, 7, 2, 9, 8, 4, 5, 3, 1, 5, 4, 9, 6, 1, 3, 8, 2, 7] hF hV hD (by decide!) h106 0 1 (by decide) (by decide!) (by decide!) (by decide!)
      have h108 : dExtB E [1, 5, 7, 0, 3, 2, 4, 9, 6, 3, 9, 6, 7, 4, 5, 2, 1, 8, 0, 8, 4, 1, 9, 6, 7, 5, 3, 4, 1, 5, 3, 7, 8, 9, 6, 2, 7, 6, 3, 4, 2, 9, 1, 8, 5, 9, 2, 8, 5, 6, 1, 3, 7, 4, 8, 3, 1, 2, 5, 7, 6, 4, 9, 6, 7, 2, 9, 8, 4, 5, 3, 1, 5, 4, 9, 6, 1, 3, 8, 2, 7] = true :=
        nakedStepTo E [1, 0, 7, 0, 3, 2, 4, 9, 6, 3, 9, 6, 7, 4, 5, 2, 1, 8, 0, 8, 4, 1, 9, 6, 7, 5, 3, 4, 1, 5, 3, 7, 8, 9, 6, 2, 7, 6, 3, 4, 2, 9, 1, 8, 5, 9, 2, 8, 5, 6, 1, 3, 7, 4, 8, 3, 1, 2, 5, 7, 6, 4, 9, 6, 7, 2, 9, 8, 4, 5, 3, 1, 5, 4, 9, 6, 1, 3, 8, 2, 7] [1, 5, 7, 0, 3, 2, 4, 9, 6, 3, 9, 6, 7, 4, 5, 2, 1, 8, 0, 8, 4, 1, 9, 6, 7, 5, 3, 4, 1, 5, 3, 7, 8, 9, 6, 2, 7, 6, 3, 4, 2, 9, 1, 8, 5, 9, 2, 8, 5, 6, 1, 3, 7, 4, 8, 3, 1, 2, 5, 7, 6, 4, 9, 6, 7, 2, 9, 8, 4, 5, 3, 1, 5, 4, 9, 6, 1, 3, 8, 2, 7] hF hV hD (by decide!) h107 1 5 (by decide) (by decide!) (by decide!) (by decide!)
      have h109 : dExtB E [1, 5, 7, 8, 3, 2, 4, 9, 6, 3, 9, 6, 7, 4, 5, 2, 1, 8, 0, 8, 4, 1, 9, 6, 7, 5, 3, 4, 1, 5, 3, 7, 8, 9, 6, 2, 7, 6, 3, 4, 2, 9, 1, 8, 5, 9, 2, 8, 5, 6, 1, 3, 7, 4, 8, 3, 1, 2, 5, 7, 6, 4, 9, 6, 7, 2, 9, 8, 4, 5, 3, 1, 5, 4, 9, 6, 1, 3, 8, 2, 7] = true :=
        nakedStepTo E [1, 5, 7, 0, 3, 2, 4, 9, 6, 3, 9, 6, 7, 4, 5, 2, 1, 8, 0, 8, 4, 1, 9, 6, 7, 5, 3, 4, 1, 5, 3, 7, 8, 9, 6, 2, 7, 6, 3, 4, 2, 9, 1, 8, 5, 9, 2, 8, 5, 6, 1, 3, 7, 4, 8, 3, 1, 2, 5, 7, 6, 4, 9, 6, 7, 2, 9, 8, 4, 5, 3, 1, 5, 4, 9, 6, 1, 3, 8, 2, 7] [1, 5, 7, 8, 3, 2, 4, 9, 6, 3, 9, 6, 7, 4, 5, 2, 1, 8, 0, 8, 4, 1, 9, 6, 7, 5, 3, 4, 1, 5, 3, 7, 8, 9, 6, 2, 7, 6, 3, 4, 2, 9, 1, 8, 5, 9, 2, 8, 5, 6, 1, 3, 7, 4, 8, 3, 1, 2, 5, 7, 6, 4, 9, 6, 7, 2, 9, 8, 4, 5, 3, 1, 5, 4, 9, 6, 1, 3, 8, 2, 7] hF hV hD (by decide!) h108 3 8 (by decide) (by decide!) (by decide!) (by decide!)
      have h110 : dExtB E [1, 5, 7, 8, 3, 2, 4, 9, 6, 3, 9, 6, 7, 4, 5, 2, 1, 8, 2, 8, 4, 1, 9, 6, 7, 5, 3, 4, 1, 5, 3, 7, 8, 9, 6, 2, 7, 6, 3, 4, 2, 9, 1, 8, 5, 9, 2, 8, 5, 6, 1, 3, 7, 4, 8, 3, 1, 2, 5, 7, 6, 4, 9, 6, 7, 2, 9, 8, 4, 5, 3, 1, 5, 4, 9, 6, 1, 3, 8, 2, 7] = true :=
        nakedStepTo E [1, 5, 7, 8, 3, 2, 4, 9, 6, 3, 9, 6, 7, 4, 5, 2, 1, 8, 0, 8, 4, 1, 9, 6, 7, 5, 3, 4, 1, 5, 3, 7, 8, 9, 6, 2, 7, 6, 3, 4, 2, 9, 1, 8, 5, 9, 2, 8, 5, 6, 1, 3, 7, 4, 8, 3, 1, 2, 5, 7, 6, 4, 9, 6, 7, 2, 9, 8, 4, 5, 3, 1, 5, 4, 9, 6, 1, 3, 8, 2, 7] [1, 5, 7, 8, 3, 2, 4, 9, 6, 3, 9, 6, 7, 4, 5, 2, 1, 8, 2, 8, 4, 1, 9, 6, 7, 5, 3, 4, 1, 5, 3, 7, 8, 9, 6, 2, 7, 6, 3, 4, 2, 9, 1, 8, 5, 9, 2, 8, 5, 6, 1, 3, 7, 4, 8, 3, 1, 2, 5, 7, 6, 4, 9, 6, 7, 2, 9, 8, 4, 5, 3, 1, 5, 4, 9, 6, 1, 3, 8, 2, 7] hF hV hD (by decide!) h109 18 2 (by decide) (by decide!) (by decide!) (by decide!)
      exact dExt_final E [1, 5, 7, 8, 3, 2, 4, 9, 6, 3, 9, 6, 7, 4, 5, 2, 1, 8, 2, 8, 4, 1, 9, 6, 7, 5, 3, 4, 1, 5, 3, 7, 8, 9, 6, 2, 7, 6, 3, 4, 2, 9, 1, 8, 5, 9, 2, 8, 5, 6, 1, 3, 7, 4, 8, 3, 1, 2, 5, 7, 6, 4, 9, 6, 7, 2, 9, 8, 4, 5, 3, 1, 5, 4, 9, 6, 1, 3, 8, 2, 7] hF h110 solvedGrid (by decide!) (by decide!)

set_option maxHeartbeats 4000000 in
/-- C2: Scenario A. Parsing the 81-character test string and running the solver
succeeds, and the returned grid equals (under the digit-only equality of the
code's PartialEq) the grid parsed from the reference solution string. -/
theorem solve_scenarioA :
    (match solution testGrid with
     | some r => sudokuEq r solvedGrid
     | none => false) = true := by
  have hsome : (solutionFuel (countEmpty testGrid + 1) testGrid).isSome = true :=
    solutionFuel_complete (countEmpty testGrid + 1) testGrid solvedGrid
      (Nat.lt_succ_self _)
      (by decide!) (by decide!) (by decide!) (by decide!)
  rw [show solution testGrid = solutionFuel (countEmpty testGrid + 1) testGrid from rfl]
  cases hsol : solutionFuel (countEmpty testGrid + 1) testGrid with
  | none => rw [hsol] at hsome; simp at hsome
  | some r =>
    have hfv := solutionFuel_sound (countEmpty testGrid + 1) testGrid r hsol (by decide!)
    have hD := solutionFuel_digitsOk (countEmpty testGrid + 1) testGrid r hsol (by decide!)
    have hdext := dExtB_of_gExtendB r testGrid
      (solutionFuel_extend (countEmpty testGrid + 1) testGrid r hsol)
    exact unique_solution r hfv.1 hfv.2 hD hdext

end Newdoku
